import Mathlib

/-!
# Trip validation, booking and trip lifecycle of the carpooling backend

A shallow embedding of

* `src/middleware/tripValidation.middleware.js` (`VALID_ROUTES`, `VALID_PAYMENT_METHODS`,
  `validateTrip`),
* `src/routes/book.routes.js` (`POST /:tripId`),
* `src/routes/trips.routes.js` (`POST /`, `PUT /:id`, `DELETE /:id`),

followed by the properties proved about them.

## Conventions of the embedding

* Request bodies and stored documents are JavaScript values (`JSValue`).  An object is a list of
  own properties; `getProp` reads a property and yields `undefined` when it is absent.
* A JavaScript number is `NaN`, `+Infinity`, `-Infinity` or a rational.  The numbers of a parsed
  body or a stored document are doubles; StringToNumber rounds the decimal or radix literal to
  the nearest double (`roundToDouble`).  The subtraction `availableSeats - 1` and the quotient
  of the trip duration are computed exactly.
* Converting an object to a primitive raises a TypeError when the object has an own property
  `toString` (a parsed JSON value is never callable, and `Object.prototype.valueOf` returns the
  object itself), and so does converting an array with such an element (`convertThrows`).
  `toNumber` and `toStr` are the results of the conversions that complete; every conversion in
  a handler is preceded by its test `convertThrows`.
* `Date` values carry their time value in milliseconds since the epoch (`none` is an invalid
  date).  Local time is UTC plus the standard offset of the `Clock` plus the daylight-saving
  shift the `Clock` gives for that local time.
* Operations that raise a JavaScript exception return `Except JSError _`; the `try`/`catch` of
  each handler turns an exception into its status 500 response.
* The document store is a list of `(id, document)` pairs with `get`, `add`, `update` (a merge of
  top-level fields, failing on an absent document) and `delete`.  The store keeps the values it
  is given; the checks a store client makes on its arguments, and its reading of a key with a
  dot as a path into nested fields, are outside the model.
* The authenticated identity `req.user.id`, set by the authentication middleware before a
  handler runs, is a string and is an argument of each handler.
* The text of a `Date` object is idealised (`toStr`), and the text of a number that is no
  integer is its decimal expansion (`numberToString`), which converts back to the same double:
  such text never matches the patterns of the validator.
-/

namespace Carpool

/-! ## JavaScript values -/

/-- A JavaScript number: exact rationals plus the three non-finite values. -/
inductive JSNumber where
  | nan
  | fin (q : ℚ)
  | posInf
  | negInf
deriving DecidableEq

/-- A JavaScript value as found in a parsed JSON body or in a stored document. -/
inductive JSValue where
  | undefined
  | null
  | bool (b : Bool)
  | num (n : JSNumber)
  | str (s : String)
  | arr (xs : List JSValue)
  | obj (fields : List (String × JSValue))
  | date (t : Option Int)

/-- An object: its own properties, in insertion order. -/
abbrev JSObject := List (String × JSValue)

/-- An exception value: only its `message` is observed by the handlers. -/
structure JSError where
  message : String
deriving DecidableEq

/-- Property read `o[k]`: `undefined` when `k` is not an own property. -/
def getProp (o : JSObject) (k : String) : JSValue :=
  match o.lookup k with
  | some v => v
  | none => JSValue.undefined

/-- Property read `v.k` on an arbitrary value that is neither `null` nor `undefined`: only
objects have own properties with the names read by the handlers. -/
def getMember (v : JSValue) (k : String) : JSValue :=
  match v with
  | JSValue.obj fields => getProp fields k
  | _ => JSValue.undefined

/-- Property write `o[k] = v`: replaces the property when present, appends it otherwise. -/
def setField (k : String) (v : JSValue) : JSObject → JSObject
  | [] => [(k, v)]
  | (k', v') :: rest => if k' = k then (k, v) :: rest else (k', v') :: setField k v rest

/-- Merge of the properties of `upd` into `doc`; for each key the value written is the one
`getProp upd` reads. -/
def mergeFields (doc upd : JSObject) : JSObject :=
  upd.foldr (fun kv d => setField kv.1 kv.2 d) doc

/-- ToBoolean. -/
def truthy : JSValue → Bool
  | JSValue.undefined => false
  | JSValue.null => false
  | JSValue.bool b => b
  | JSValue.num JSNumber.nan => false
  | JSValue.num (JSNumber.fin q) => decide (q ≠ 0)
  | JSValue.num JSNumber.posInf => true
  | JSValue.num JSNumber.negInf => true
  | JSValue.str s => decide (s ≠ "")
  | JSValue.arr _ => true
  | JSValue.obj _ => true
  | JSValue.date _ => true

/-- The test `typeof v === 'string'`. -/
def isString : JSValue → Bool
  | JSValue.str _ => true
  | _ => false

/-- The test `Array.isArray(v)`. -/
def isArray : JSValue → Bool
  | JSValue.arr _ => true
  | _ => false

/-! ## Characters, trimming and number syntax -/

/-- The class `\d` of a JavaScript regular expression, also DecimalDigit. -/
def isDigit (c : Char) : Bool := decide (48 ≤ c.toNat) && decide (c.toNat ≤ 57)

/-- Value of a decimal digit. -/
def digitVal (c : Char) : Nat := c.toNat - 48

/-- WhiteSpace and LineTerminator code points, as removed by `trim` and by StringToNumber. -/
def isJSWhiteSpace (c : Char) : Bool :=
  [9, 10, 11, 12, 13, 32, 160, 5760, 8232, 8233, 8239, 8287, 12288, 65279].contains c.toNat
    || (decide (8192 ≤ c.toNat) && decide (c.toNat ≤ 8202))

/-- The method `String.prototype.trim` on the characters of a string. -/
def jsTrim (cs : List Char) : List Char :=
  ((cs.dropWhile isJSWhiteSpace).reverse.dropWhile isJSWhiteSpace).reverse

/-- Value of a sequence of decimal digits. -/
def digitsToNat (cs : List Char) : Nat :=
  cs.foldl (fun n c => 10 * n + digitVal c) 0

/-- Value of a digit in the given radix (2, 8 or 16), if it is one. -/
def radixDigit (radix : Nat) (c : Char) : Option Nat :=
  let n := c.toNat
  let v : Option Nat :=
    if 48 ≤ n ∧ n ≤ 57 then some (n - 48)
    else if 97 ≤ n ∧ n ≤ 102 then some (n - 87)
    else if 65 ≤ n ∧ n ≤ 70 then some (n - 55)
    else none
  match v with
  | some d => if d < radix then some d else none
  | none => none

/-- Value of a non-empty sequence of digits in the given radix. -/
def radixDigitsToNat (radix : Nat) : List Char → Nat → Option Nat
  | [], acc => some acc
  | c :: cs, acc =>
    match radixDigit radix c with
    | some d => radixDigitsToNat radix cs (radix * acc + d)
    | none => none

/-- The number of binary digits of `n` (`fuel` bounds the number of halvings). -/
def bitLength : Nat → Nat → Nat
  | 0, _ => 0
  | fuel + 1, n => if n = 0 then 0 else bitLength fuel (n / 2) + 1

/-- The integer `e` with `2 ^ e ≤ n / d < 2 ^ (e + 1)`, for positive `n` and `d`. -/
def floorLog2 (n d : Nat) : Int :=
  let e0 : Int := (bitLength n n : Int) - (bitLength d d : Int)
  if (if 0 ≤ e0 then d * 2 ^ e0.toNat ≤ n else d ≤ n * 2 ^ (-e0).toNat) then e0 else e0 - 1

/-- The double nearest to the rational `n / d` (`d` positive), ties to the even significand:
53 significant bits, no exponent below that of the subnormal numbers (so a small quotient
underflows to `0`), and `+Infinity` from `2 ^ 1024` on. -/
def roundToDouble (n d : Nat) : JSNumber :=
  if n = 0 then JSNumber.fin 0
  else
    let e := floorLog2 n d
    let p : Int := (if e < -1022 then -1022 else e) - 52
    let num := if 0 ≤ p then n else n * 2 ^ (-p).toNat
    let den := if 0 ≤ p then d * 2 ^ p.toNat else d
    let q := num / den
    let r := num % den
    let m := if 2 * r < den then q else if den < 2 * r then q + 1
      else if q % 2 = 0 then q else q + 1
    if 0 ≤ p then
      if 2 ^ 1024 ≤ m * 2 ^ p.toNat then JSNumber.posInf
      else JSNumber.fin ((m * 2 ^ p.toNat : Nat) : ℚ)
    else JSNumber.fin (mkRat m (2 ^ (-p).toNat))

/-- The double nearest to `m * 10 ^ (e - fracLen)`: the value of the decimal literal with
digits `m`, of which `fracLen` after the point, and exponent `e`. -/
def mkDecimal (m fracLen : Nat) (e : Int) : JSNumber :=
  let k : Int := e - fracLen
  if 0 ≤ k then roundToDouble (m * 10 ^ k.toNat) 1 else roundToDouble m (10 ^ (-k).toNat)

/-- ExponentPart after its `e`: an optional sign and at least one digit, up to the end. -/
def parseExponent (cs : List Char) : Option Int :=
  match cs with
  | '+' :: ds => if ds ≠ [] ∧ ds.all isDigit then some (digitsToNat ds) else none
  | '-' :: ds => if ds ≠ [] ∧ ds.all isDigit then some (-(digitsToNat ds : Int)) else none
  | ds => if ds ≠ [] ∧ ds.all isDigit then some (digitsToNat ds) else none

/-- The exponent of a decimal literal whose mantissa has been read: nothing, or `e`/`E` and an
ExponentPart. -/
def parseOptExponent (cs : List Char) : Option Int :=
  match cs with
  | [] => some 0
  | c :: rest => if c = 'e' ∨ c = 'E' then parseExponent rest else none

/-- StrUnsignedDecimalLiteral: `Infinity`, `digits . digits? exp?`, `. digits exp?` or
`digits exp?`. -/
def strUnsignedDecimal (cs : List Char) : JSNumber :=
  if cs = "Infinity".toList then JSNumber.posInf
  else
    let ip := cs.takeWhile isDigit
    let r1 := cs.dropWhile isDigit
    match r1 with
    | '.' :: r2 =>
      let fp := r2.takeWhile isDigit
      let r3 := r2.dropWhile isDigit
      if ip = [] ∧ fp = [] then JSNumber.nan
      else
        match parseOptExponent r3 with
        | some e => mkDecimal (digitsToNat (ip ++ fp)) fp.length e
        | none => JSNumber.nan
    | _ =>
      if ip = [] then JSNumber.nan
      else
        match parseOptExponent r1 with
        | some e => mkDecimal (digitsToNat ip) 0 e
        | none => JSNumber.nan

/-- Negation of a number. -/
def JSNumber.neg : JSNumber → JSNumber
  | JSNumber.nan => JSNumber.nan
  | JSNumber.fin q => JSNumber.fin (-q)
  | JSNumber.posInf => JSNumber.negInf
  | JSNumber.negInf => JSNumber.posInf

/-- A non-decimal integer literal body in the given radix. -/
def strRadixLiteral (radix : Nat) (ds : List Char) : JSNumber :=
  if ds = [] then JSNumber.nan
  else
    match radixDigitsToNat radix ds 0 with
    | some n => roundToDouble n 1
    | none => JSNumber.nan

/-- StringToNumber: the numeric value of a string, `NaN` when it is not a StringNumericLiteral. -/
def stringToNumber (cs : List Char) : JSNumber :=
  match jsTrim cs with
  | [] => JSNumber.fin 0
  | '0' :: 'x' :: ds => strRadixLiteral 16 ds
  | '0' :: 'X' :: ds => strRadixLiteral 16 ds
  | '0' :: 'o' :: ds => strRadixLiteral 8 ds
  | '0' :: 'O' :: ds => strRadixLiteral 8 ds
  | '0' :: 'b' :: ds => strRadixLiteral 2 ds
  | '0' :: 'B' :: ds => strRadixLiteral 2 ds
  | '+' :: ds => strUnsignedDecimal ds
  | '-' :: ds => (strUnsignedDecimal ds).neg
  | ds => strUnsignedDecimal ds

/-- Up to `fuel` digits of the decimal expansion of `r / d` for `r < d`. -/
def fractionDigits (d : Nat) : Nat → Nat → List Char
  | 0, _ => []
  | fuel + 1, r =>
    if r = 0 then []
    else Nat.digitChar (10 * r / d) :: fractionDigits d fuel (10 * r % d)

/-- Number::toString in plain decimal notation: the digits of an integer, and for any other
number its decimal expansion, which for a double ends within 1074 fractional digits. -/
def numberToString : JSNumber → List Char
  | JSNumber.nan => "NaN".toList
  | JSNumber.posInf => "Infinity".toList
  | JSNumber.negInf => "-Infinity".toList
  | JSNumber.fin q =>
    let n := q.num.natAbs
    let body := Nat.toDigits 10 (n / q.den) ++
      (if n % q.den = 0 then [] else '.' :: fractionDigits q.den 1100 (n % q.den))
    if q < 0 then '-' :: body else body

mutual
/-- ToString of a value (for an array: `join(",")`), when the conversion completes: on the
values for which `convertThrows` holds ToString raises instead, and the text given here is
not used. -/
def toStr : JSValue → List Char
  | JSValue.undefined => "undefined".toList
  | JSValue.null => "null".toList
  | JSValue.bool true => "true".toList
  | JSValue.bool false => "false".toList
  | JSValue.num n => numberToString n
  | JSValue.str s => s.toList
  | JSValue.arr xs => joinStr xs
  | JSValue.obj _ => "[object Object]".toList
  | JSValue.date _ => "[object Date]".toList
/-- The method `Array.prototype.join` with separator `","`: `null` and `undefined` elements
contribute the empty string. -/
def joinStr : List JSValue → List Char
  | [] => []
  | [x] => elemStr x
  | x :: y :: rest => elemStr x ++ ',' :: joinStr (y :: rest)
/-- One element of a joined array. -/
def elemStr : JSValue → List Char
  | JSValue.undefined => []
  | JSValue.null => []
  | JSValue.bool true => "true".toList
  | JSValue.bool false => "false".toList
  | JSValue.num n => numberToString n
  | JSValue.str s => s.toList
  | JSValue.arr xs => joinStr xs
  | JSValue.obj _ => "[object Object]".toList
  | JSValue.date _ => "[object Date]".toList
end

/-- ToNumber, as applied by `Number(v)`, by `v <= 0` and by `v - 1`, when the conversion
completes: on the values for which `convertThrows` holds ToNumber raises instead, and the
number given here is not used. -/
def toNumber : JSValue → JSNumber
  | JSValue.undefined => JSNumber.nan
  | JSValue.null => JSNumber.fin 0
  | JSValue.bool true => JSNumber.fin 1
  | JSValue.bool false => JSNumber.fin 0
  | JSValue.num n => n
  | JSValue.str s => stringToNumber s.toList
  | JSValue.arr xs => stringToNumber (toStr (JSValue.arr xs))
  | JSValue.obj _ => JSNumber.nan
  | JSValue.date (some t) => JSNumber.fin (t : ℚ)
  | JSValue.date none => JSNumber.nan

/-- The message of the TypeError that ToPrimitive raises. -/
def conversionError : JSError := ⟨"Cannot convert object to primitive value"⟩

mutual
/-- Whether ToPrimitive, and with it ToString and ToNumber, raises a TypeError on the value.
On an object the method `toString` (and, for ToNumber, first `valueOf`, which is
`Object.prototype.valueOf` or not callable and so yields no primitive) is looked up on the
object: an own property `toString` of a parsed value is not callable, and the conversion
raises; without it `Object.prototype.toString` answers.  An array is joined, which converts
each element other than `null` and `undefined`. -/
def convertThrows : JSValue → Bool
  | JSValue.obj fields => (fields.lookup "toString").isSome
  | JSValue.arr xs => anyConvertThrows xs
  | _ => false
/-- Whether the conversion of some element of an array raises. -/
def anyConvertThrows : List JSValue → Bool
  | [] => false
  | x :: rest => convertThrows x || anyConvertThrows rest
end

/-- The test `isNaN(n)`. -/
def JSNumber.isNaN : JSNumber → Bool
  | JSNumber.nan => true
  | _ => false

/-- The comparison `a <= b` of two numbers (`false` when either is `NaN`). -/
def JSNumber.le : JSNumber → JSNumber → Bool
  | JSNumber.nan, _ => false
  | _, JSNumber.nan => false
  | JSNumber.negInf, _ => true
  | _, JSNumber.posInf => true
  | JSNumber.posInf, _ => false
  | _, JSNumber.negInf => false
  | JSNumber.fin a, JSNumber.fin b => decide (a ≤ b)

/-- The comparison `a < b` of two numbers (`false` when either is `NaN`). -/
def JSNumber.lt : JSNumber → JSNumber → Bool
  | JSNumber.nan, _ => false
  | _, JSNumber.nan => false
  | _, JSNumber.negInf => false
  | JSNumber.posInf, _ => false
  | JSNumber.negInf, _ => true
  | _, JSNumber.posInf => true
  | JSNumber.fin a, JSNumber.fin b => decide (a < b)

/-- The subtraction `a - 1`. -/
def JSNumber.pred : JSNumber → JSNumber
  | JSNumber.nan => JSNumber.nan
  | JSNumber.fin q => JSNumber.fin (q - 1)
  | JSNumber.posInf => JSNumber.posInf
  | JSNumber.negInf => JSNumber.negInf

/-! ## Dates -/

/-- The clock of a request: the time value of `new Date()`, the standard offset of local time
from UTC in minutes, and the daylight-saving shift in minutes in force at a local time value
(`0` where the zone has none), so that local = UTC + offset + shift. -/
structure Clock where
  now : Int
  tzOffsetMinutes : Int
  dstShiftMinutes : Int → Int

/-- The time value of a local time value (the abstract operation UTC). -/
def Clock.utcOfLocal (clock : Clock) (t : Int) : Int :=
  t - (clock.tzOffsetMinutes + clock.dstShiftMinutes t) * 60000

/-- Day number of a civil date (MakeDay): months beyond their last day run on into the next
month. -/
def daysFromCivil (y m d : Int) : Int :=
  let y1 := if m ≤ 2 then y - 1 else y
  let era := y1 / 400
  let yoe := y1 - era * 400
  let mp := if m ≤ 2 then m + 9 else m - 3
  let doy := (153 * mp + 2) / 5 + d - 1
  let doe := yoe * 365 + yoe / 4 - yoe / 100 + doy
  era * 146097 + doe - 719468

/-- The test `/^\d{4}-\d{2}-\d{2}$/.test(s)`. -/
def dateRegexTest (cs : List Char) : Bool :=
  match cs with
  | [y1, y2, y3, y4, a, m1, m2, b, d1, d2] =>
    isDigit y1 && isDigit y2 && isDigit y3 && isDigit y4 && decide (a = '-') &&
      isDigit m1 && isDigit m2 && decide (b = '-') && isDigit d1 && isDigit d2
  | _ => false

/-- The test `/^([01]?[0-9]|2[0-3]):[0-5][0-9]$/.test(s)`. -/
def timeRegexTest (cs : List Char) : Bool :=
  match cs with
  | [h, c, m1, m2] =>
    isDigit h && decide (c = ':') && (isDigit m1 && decide (m1.toNat ≤ 53)) && isDigit m2
  | [h1, h2, c, m1, m2] =>
    (((decide (h1 = '0') || decide (h1 = '1')) && isDigit h2) ||
        (decide (h1 = '2') && (isDigit h2 && decide (h2.toNat ≤ 51)))) &&
      decide (c = ':') && (isDigit m1 && decide (m1.toNat ≤ 53)) && isDigit m2
  | _ => false

/-- The three numbers of a text `dddd-dd-dd`. -/
def parseDayNumbers (cs : List Char) : Option (Nat × Nat × Nat) :=
  match cs with
  | [y1, y2, y3, y4, a, m1, m2, b, d1, d2] =>
    if isDigit y1 && isDigit y2 && isDigit y3 && isDigit y4 && decide (a = '-') &&
        isDigit m1 && isDigit m2 && decide (b = '-') && isDigit d1 && isDigit d2 then
      some (digitsToNat [y1, y2, y3, y4], digitsToNat [m1, m2], digitsToNat [d1, d2])
    else none
  | _ => none

/-- The year of the legacy date syntax: a year below 50 is of the 2000s, a year from 50 to 99 of
the 1900s. -/
def legacyYear (y : Nat) : Nat :=
  if y ≤ 49 then y + 2000 else if y ≤ 99 then y + 1900 else y

/-- Day number of the numbers `a-b-c` read by the legacy date syntax: month, day and year when
`a` can be a day of the month (1..31), year, month and day otherwise; the month must be 1..12
and the day 1..31. -/
def legacyDay (a b c : Nat) : Option Int :=
  let year := if 1 ≤ a ∧ a ≤ 31 then legacyYear c else legacyYear a
  let month := if 1 ≤ a ∧ a ≤ 31 then a else b
  let day := if 1 ≤ a ∧ a ≤ 31 then b else c
  if 1 ≤ month ∧ month ≤ 12 ∧ 1 ≤ day ∧ day ≤ 31 then some (daysFromCivil year month day)
  else none

/-- Minutes since midnight of the text `H:MM` or `HH:MM` (hour at most 23, minute at most 59). -/
def parseClockMinutes (cs : List Char) : Option Int :=
  match cs with
  | [h, c, m1, m2] =>
    if isDigit h && decide (c = ':') && isDigit m1 && isDigit m2 then
      let mi := digitsToNat [m1, m2]
      if mi ≤ 59 then some ((digitVal h * 60 + mi : Nat) : Int) else none
    else none
  | [h1, h2, c, m1, m2] =>
    if isDigit h1 && isDigit h2 && decide (c = ':') && isDigit m1 && isDigit m2 then
      let h := digitsToNat [h1, h2]
      let mi := digitsToNat [m1, m2]
      if h ≤ 23 ∧ mi ≤ 59 then some ((h * 60 + mi : Nat) : Int) else none
    else none
  | _ => none

/-- Date.parse on the two shapes the handlers build once their format checks passed.
`YYYY-MM-DD` with a month 1..12 and a day 1..31 is the ISO date-only form: midnight UTC of that
day (a day beyond the end of its month runs on into the next month).  Any other `dddd-dd-dd`,
and every `dddd-dd-dd H:MM` (a space, not `T`), is read by the legacy syntax, as a local time.
Any other text is an invalid date here. -/
def dateParse (clock : Clock) (cs : List Char) : Option Int :=
  match cs.drop 10 with
  | [] =>
    match parseDayNumbers cs with
    | some (y, m, d) =>
      if 1 ≤ m ∧ m ≤ 12 ∧ 1 ≤ d ∧ d ≤ 31 then some (daysFromCivil y m d * 86400000)
      else
        match legacyDay y m d with
        | some day => some (clock.utcOfLocal (day * 86400000))
        | none => none
    | none => none
  | sep :: time =>
    if sep = ' ' then
      match parseDayNumbers (cs.take 10), parseClockMinutes time with
      | some (y, m, d), some minutes =>
        match legacyDay y m d with
        | some day => some (clock.utcOfLocal (day * 86400000 + minutes * 60000))
        | none => none
      | _, _ => none
    else none

/-- TimeClip of a number given to the Date constructor. -/
def timeClip : JSNumber → Option Int
  | JSNumber.fin q =>
    let t : Int := if 0 ≤ q then ⌊q⌋ else ⌈q⌉
    if -8640000000000000 ≤ t ∧ t ≤ 8640000000000000 then some t else none
  | _ => none

/-- The time value of `new Date(v)`: text is parsed, arrays and objects are first converted to
text, other values to a number. -/
def newDate (clock : Clock) (v : JSValue) : Option Int :=
  match v with
  | JSValue.str s => dateParse clock s.toList
  | JSValue.arr xs => dateParse clock (toStr (JSValue.arr xs))
  | JSValue.obj fields => dateParse clock (toStr (JSValue.obj fields))
  | JSValue.date t => t
  | other => timeClip (toNumber other)

/-- The comparison `a < b` of two Date objects (`false` when either is invalid). -/
def dateLt (a b : Option Int) : Bool :=
  match a, b with
  | some x, some y => decide (x < y)
  | _, _ => false

/-- The comparison `a <= b` of two Date objects (`false` when either is invalid). -/
def dateLe (a b : Option Int) : Bool :=
  match a, b with
  | some x, some y => decide (x ≤ y)
  | _, _ => false

/-- The difference `a - b` of two Date objects divided by `1000 * 60 * 60`. -/
def hoursBetween (a b : Option Int) : JSNumber :=
  match a, b with
  | some x, some y => JSNumber.fin (mkRat (x - y) (1000 * 60 * 60))
  | _, _ => JSNumber.nan

/-! ## Responses -/

/-- A response sent with `res.status(status).json(body)`. -/
structure Response where
  status : Nat
  body : JSObject

/-- What a middleware does with a request: hand it on with `next()` or answer it. -/
inductive Outcome where
  | next
  | respond (r : Response)

/-- The response `res.status(status).json({ success: false, message, ...extra })`. -/
def failure (status : Nat) (message : String) (extra : JSObject) : Response :=
  { status := status
    body := [("success", JSValue.bool false), ("message", JSValue.str message)] ++ extra }

/-- The response `res.status(status).json({ success: true, message, ...extra })`. -/
def success (status : Nat) (message : String) (extra : JSObject) : Response :=
  { status := status
    body := [("success", JSValue.bool true), ("message", JSValue.str message)] ++ extra }

/-! ## `tripValidation.middleware.js` -/

/-- The constant `VALID_ROUTES`: pairs of `id` and `name`. -/
def VALID_ROUTES : List (String × String) :=
  [("boyaca", "Boyacá"), ("autopista", "Autopista Norte"), ("septima", "7ma"),
   ("novena", "9na"), ("zipa", "Zipa"), ("heroes", "Héroes"), ("suba", "Suba"),
   ("mosquera", "Mosquera"), ("calle80", "Calle 80"), ("chia", "Chía")]

/-- The constant `VALID_PAYMENT_METHODS`. -/
def VALID_PAYMENT_METHODS : List String := ["nequi", "daviplata", "efectivo"]

/-- The array `VALID_ROUTES` as the value sent in a response. -/
def validRoutesValue : JSValue :=
  JSValue.arr (VALID_ROUTES.map fun r =>
    JSValue.obj [("id", JSValue.str r.1), ("name", JSValue.str r.2)])

/-- The array `VALID_PAYMENT_METHODS` as the value sent in a response. -/
def validPaymentMethodsValue : JSValue :=
  JSValue.arr (VALID_PAYMENT_METHODS.map JSValue.str)

/-- The local `requiredFields` of `validateTrip`. -/
def requiredFields : List String :=
  ["tripDate", "origin", "destination", "arrivalTime", "departureTime", "cost",
   "paymentMethods", "routeTag"]

/-- The local `textFields` of `validateTrip`: pairs of `field` and `name`. -/
def textFields : List (String × String) :=
  [("origin", "Origen"), ("destination", "Destino")]

/-- The call `xs.includes(v)` on an array of strings (SameValueZero): only an equal string is
found. -/
def includesValue (xs : List String) (v : JSValue) : Bool :=
  match v with
  | JSValue.str s => xs.contains s
  | _ => false

/-- The method call `v.trim()`: a TypeError unless `v` is a string. -/
def callTrim (v : JSValue) : Except JSError (List Char) :=
  match v with
  | JSValue.str s => Except.ok (jsTrim s.toList)
  | JSValue.undefined => Except.error ⟨"Cannot read properties of undefined (reading 'trim')"⟩
  | JSValue.null => Except.error ⟨"Cannot read properties of null (reading 'trim')"⟩
  | _ => Except.error ⟨"req.body[field].trim is not a function"⟩

/-- The method call `v.filter(p)`: a TypeError unless `v` is an array. -/
def callFilter (v : JSValue) (p : JSValue → Bool) : Except JSError (List JSValue) :=
  match v with
  | JSValue.arr xs => Except.ok (xs.filter p)
  | JSValue.undefined => Except.error ⟨"Cannot read properties of undefined (reading 'filter')"⟩
  | JSValue.null => Except.error ⟨"Cannot read properties of null (reading 'filter')"⟩
  | _ => Except.error ⟨"paymentMethods.filter is not a function"⟩

/-- The test `v.length === 0`. -/
def lengthIsZero (v : JSValue) : Bool :=
  match v with
  | JSValue.arr xs => decide (xs.length = 0)
  | JSValue.str s => decide (s.length = 0)
  | _ => false

/-- The loop of `validateTrip` over `textFields` (lines 70-77): the first field that is not a
string or is blank answers 400. -/
def checkTextFields (body : JSObject) : List (String × String) → Except JSError (Option Response)
  | [] => Except.ok none
  | (field, name) :: rest =>
    if !isString (getProp body field) then
      Except.ok (some (failure 400
        ("El campo " ++ name ++ " no puede estar vacío y debe ser texto") []))
    else
      match callTrim (getProp body field) with
      | Except.error e => Except.error e
      | Except.ok trimmed =>
        if trimmed.length = 0 then
          Except.ok (some (failure 400
            ("El campo " ++ name ++ " no puede estar vacío y debe ser texto") []))
        else checkTextFields body rest

/-- The checks of `validateTrip` on payment methods, route and optional fields
(lines 165-214), after the time checks. -/
def validatePayment (body : JSObject) : Except JSError Outcome :=
  let paymentMethods := getProp body "paymentMethods"
  let routeTag := getProp body "routeTag"
  let affinity := getProp body "affinity"
  let description := getProp body "description"
  if !isArray paymentMethods || lengthIsZero paymentMethods then
    Except.ok (Outcome.respond (failure 400
      "Debe seleccionar al menos un método de pago" []))
  else
    match callFilter paymentMethods
        (fun method => !includesValue VALID_PAYMENT_METHODS method) with
    | Except.error e => Except.error e
    | Except.ok invalidPaymentMethods =>
      if invalidPaymentMethods.length > 0 then
        Except.ok (Outcome.respond (failure 400 "Métodos de pago no válidos"
          [("invalidPaymentMethods", JSValue.arr invalidPaymentMethods),
           ("validPaymentMethods", validPaymentMethodsValue)]))
      else
        let validRouteIds := VALID_ROUTES.map fun route => route.1
        if !includesValue validRouteIds routeTag then
          Except.ok (Outcome.respond (failure 400 "Ruta no válida"
            [("validRoutes", validRoutesValue)]))
        else if truthy affinity && !isString affinity then
          Except.ok (Outcome.respond (failure 400 "El campo afinidad debe ser texto" []))
        else if truthy description && !isString description then
          Except.ok (Outcome.respond (failure 400
            "El campo descripción debe ser texto" []))
        else Except.ok Outcome.next

/-- The Date object `new Date(tripDate + " " + time)` built by `validateTrip` from the trip
date and one of its times (lines 132-133).  The template literal converts values that the
pattern tests of lines 97 and 124 have converted before, so it raises nothing. -/
def timeOnTripDate (clock : Clock) (body : JSObject) (timeField : String) : Option Int :=
  newDate clock (JSValue.str (String.mk
    (toStr (getProp body "tripDate") ++ ' ' :: toStr (getProp body timeField))))

/-- The checks of `validateTrip` on times (lines 122-163), after the date checks.  The pattern
test converts its argument to text, which may raise; the test of `arrivalTime` is made only
when `departureTime` matches. -/
def validateSchedule (clock : Clock) (body : JSObject) : Except JSError Outcome :=
  let arrivalTime := getProp body "arrivalTime"
  let departureTime := getProp body "departureTime"
  let now : Option Int := some clock.now
  if convertThrows departureTime then Except.error conversionError
  else if !timeRegexTest (toStr departureTime) then
    Except.ok (Outcome.respond (failure 400 "El formato de hora debe ser HH:MM" []))
  else if convertThrows arrivalTime then Except.error conversionError
  else if !timeRegexTest (toStr arrivalTime) then
    Except.ok (Outcome.respond (failure 400 "El formato de hora debe ser HH:MM" []))
  else
    let departureTimeObj := timeOnTripDate clock body "departureTime"
    let arrivalTimeObj := timeOnTripDate clock body "arrivalTime"
    if departureTimeObj.isNone || arrivalTimeObj.isNone then
      Except.ok (Outcome.respond (failure 400 "Horarios inválidos" []))
    else if dateLt departureTimeObj now then
      Except.ok (Outcome.respond (failure 400
        "La hora de salida no puede ser anterior a la hora actual" []))
    else if dateLe arrivalTimeObj departureTimeObj then
      Except.ok (Outcome.respond (failure 400
        "La hora de llegada debe ser posterior a la hora de salida" []))
    else
      let tripDuration := hoursBetween arrivalTimeObj departureTimeObj
      if (JSNumber.fin 3).lt tripDuration then
        Except.ok (Outcome.respond (failure 400 "El viaje no puede durar más de 3 horas" []))
      else validatePayment body

/-- The checks of `validateTrip` on the trip date (lines 96-120), after the cost checks.  The
pattern test converts `tripDate` to text, which may raise. -/
def validateDate (clock : Clock) (body : JSObject) : Except JSError Outcome :=
  let tripDate := getProp body "tripDate"
  if convertThrows tripDate then Except.error conversionError
  else if !dateRegexTest (toStr tripDate) then
    Except.ok (Outcome.respond (failure 400 "El formato de fecha debe ser YYYY-MM-DD" []))
  else
    let tripDateObj := newDate clock tripDate
    let now : Option Int := some clock.now
    if tripDateObj.isNone then
      Except.ok (Outcome.respond (failure 400 "Fecha inválida" []))
    else if dateLt tripDateObj now then
      Except.ok (Outcome.respond (failure 400
        "La fecha del viaje no puede ser anterior a la fecha actual" []))
    else validateSchedule clock body

/-- The body of the `try` block of `validateTrip` (lines 29-214): required fields, text fields
and cost, then the checks on date, times, payment methods, route and optional fields.  The
call `Number(cost)` may raise. -/
def validateTripTry (clock : Clock) (body : JSObject) : Except JSError Outcome :=
  let cost := getProp body "cost"
  let missingFields := requiredFields.filter fun field => !truthy (getProp body field)
  if missingFields.length > 0 then
    Except.ok (Outcome.respond (failure 400 "Faltan campos obligatorios"
      [("missingFields", JSValue.arr (missingFields.map JSValue.str))]))
  else
    match checkTextFields body textFields with
    | Except.error e => Except.error e
    | Except.ok (some r) => Except.ok (Outcome.respond r)
    | Except.ok none =>
      if convertThrows cost then Except.error conversionError
      else
        let costNumber := toNumber cost
        if costNumber.isNaN || costNumber.le (JSNumber.fin 0) then
          Except.ok (Outcome.respond (failure 400
            "El costo debe ser un número válido mayor a 0" []))
        else if costNumber.lt (JSNumber.fin 1000) || (JSNumber.fin 100000).lt costNumber then
          Except.ok (Outcome.respond (failure 400
            "El costo debe estar entre 1000 y 100000 pesos" []))
        else validateDate clock body

/-- The middleware `validateTrip(req, res, next)` on `req.body`: the `try` block, an exception
answered with status 500 by the `catch`. -/
def validateTrip (clock : Clock) (body : JSObject) : Outcome :=
  match validateTripTry clock body with
  | Except.ok outcome => outcome
  | Except.error e =>
    Outcome.respond (failure 500 "Error en la validación del viaje"
      [("error", JSValue.str e.message)])

/-! ## The document store

The collections of `req.app.locals.collections` are collections of the Firestore client
library, used through `doc(id).get()`, `add`, `doc(id).update` and `doc(id).delete()`:
`get` of an absent id reports that the document does not exist, `add` stores the document
under the fresh id the store assigns, `update` merges top-level fields and fails on an absent
document, `delete` removes the document. -/

/-- A collection: documents by id. -/
abbrev Store := List (String × JSObject)

/-- The call `collection.doc(id).get()`: `none` when `exists` is false, else `data()`. -/
def getDoc (s : Store) (id : String) : Option JSObject := s.lookup id

/-- The call `collection.add(doc)`, the store assigning the id `newId`. -/
def addDoc (s : Store) (newId : String) (doc : JSObject) : Store := s ++ [(newId, doc)]

/-- The call `collection.doc(id).update(fields)`: a merge, rejected when the document is
absent. -/
def updateDoc (s : Store) (id : String) (fields : JSObject) : Except JSError Store :=
  match getDoc s id with
  | none => Except.error ⟨"5 NOT_FOUND: No document to update"⟩
  | some _ =>
    Except.ok (s.map fun e => if e.1 = id then (e.1, mergeFields e.2 fields) else e)

/-- The call `collection.doc(id).delete()`. -/
def deleteDoc (s : Store) (id : String) : Store := s.filter fun e => decide (e.1 ≠ id)

/-! ## `book.routes.js` -/

/-- The call `v.includes(userId)`: membership in an array (SameValueZero against a string),
substring search in a string, a TypeError on any other value. -/
def callIncludes (v : JSValue) (userId : String) : Except JSError Bool :=
  match v with
  | JSValue.arr xs => Except.ok (xs.any fun x => includesValue [userId] x)
  | JSValue.str s =>
    Except.ok ((List.range (s.length + 1)).any fun i =>
      decide ((s.toList.drop i).take userId.length = userId.toList))
  | JSValue.undefined =>
    Except.error ⟨"Cannot read properties of undefined (reading 'includes')"⟩
  | JSValue.null => Except.error ⟨"Cannot read properties of null (reading 'includes')"⟩
  | _ => Except.error ⟨"tripData.passengers.includes is not a function"⟩

/-- The elements of the spread `[...v]`: those of an array, the characters of a string, a
TypeError on any other value. -/
def spreadElements (v : JSValue) : Except JSError (List JSValue) :=
  match v with
  | JSValue.arr xs => Except.ok xs
  | JSValue.str s => Except.ok (s.toList.map fun c => JSValue.str (String.singleton c))
  | _ => Except.error ⟨"object is not iterable"⟩

/-- What the booking handler does once it has read the trip: answer, or write fields and then
answer 200. -/
inductive BookStep where
  | reply (r : Response)
  | write (fields : JSObject)

/-- Lines 14-43 of the booking handler, on the snapshot returned by `tripRef.get()`.  The
comparison `availableSeats <= 0` converts the stored value to a number, which may raise. -/
def bookDecide (tripDoc : Option JSObject) (userId : String) : Except JSError BookStep :=
  match tripDoc with
  | none => Except.ok (BookStep.reply (failure 404 "Viaje no encontrado" []))
  | some tripData =>
    let passengers := getProp tripData "passengers"
    let availableSeats := getProp tripData "availableSeats"
    match (if truthy passengers then callIncludes passengers userId else Except.ok false) with
    | Except.error e => Except.error e
    | Except.ok true =>
      Except.ok (BookStep.reply (failure 400
        "El usuario ya está registrado como pasajero en este viaje" []))
    | Except.ok false =>
      if convertThrows availableSeats then Except.error conversionError
      else if (toNumber availableSeats).le (JSNumber.fin 0) then
        Except.ok (BookStep.reply (failure 400 "No hay asientos disponibles en este viaje" []))
      else
        match spreadElements (if truthy passengers then passengers else JSValue.arr []) with
        | Except.error e => Except.error e
        | Except.ok elements =>
          Except.ok (BookStep.write
            [("passengers", JSValue.arr (elements ++ [JSValue.str userId])),
             ("availableSeats", JSValue.num (toNumber availableSeats).pred)])

/-- The answer of the `catch` block of the booking handler. -/
def bookError (e : JSError) : Response :=
  failure 500 "Error al reservar el viaje" [("error", JSValue.str e.message)]

/-- Lines 14-56 of the booking handler once `tripRef.get()` has returned the snapshot
`tripDoc`: the checks on the snapshot, then `tripRef.update` on the store as it is now. -/
def bookFinish (trips : Store) (tripId userId : String) (tripDoc : Option JSObject) :
    Response × Store :=
  match bookDecide tripDoc userId with
  | Except.error e => (bookError e, trips)
  | Except.ok (BookStep.reply r) => (r, trips)
  | Except.ok (BookStep.write fields) =>
    match updateDoc trips tripId fields with
    | Except.error e => (bookError e, trips)
    | Except.ok trips' => (success 200 "Viaje reservado exitosamente" [], trips')

/-- The handler `POST /:tripId` run to completion for the authenticated user `userId`, no
other request touching the store in between: the response and the trips collection
afterwards. -/
def book (trips : Store) (tripId userId : String) : Response × Store :=
  bookFinish trips tripId userId (getDoc trips tripId)

/-! ### Concurrent bookings

The handler suspends at `await tripRef.get()` and at `await tripRef.update(...)`; between the
two the runtime may run steps of other requests.  A request therefore takes two steps on the
shared store: it reads its snapshot, and later it decides on that snapshot and writes. -/

/-- The progress of one booking request. -/
inductive BookTask where
  | start
  | holding (snapshot : Option JSObject)
  | done (r : Response)

/-- The next step of a booking request of `userId` on the store. -/
def stepTask (tripId userId : String) (trips : Store) : BookTask → BookTask × Store
  | BookTask.start => (BookTask.holding (getDoc trips tripId), trips)
  | BookTask.holding snapshot =>
    (BookTask.done (bookFinish trips tripId userId snapshot).1,
      (bookFinish trips tripId userId snapshot).2)
  | BookTask.done r => (BookTask.done r, trips)

/-- The trips collection and the booking requests in flight, each with its user. -/
structure BookSystem where
  trips : Store
  tasks : List (String × BookTask)

/-- The system in which the users of `users` have each sent one booking request. -/
def startSystem (trips : Store) (users : List String) : BookSystem :=
  { trips := trips, tasks := users.map fun u => (u, BookTask.start) }

/-- The request number `i` takes its next step (nothing happens when there is none). -/
def stepSystem (tripId : String) (sys : BookSystem) (i : Nat) : BookSystem :=
  match sys.tasks.get? i with
  | none => sys
  | some (userId, task) =>
    { trips := (stepTask tripId userId sys.trips task).2
      tasks := sys.tasks.set i (userId, (stepTask tripId userId sys.trips task).1) }

/-- An interleaving: the requests take their steps in the order given by `schedule`. -/
def runSchedule (tripId : String) (sys : BookSystem) : List Nat → BookSystem
  | [] => sys
  | i :: rest => runSchedule tripId (stepSystem tripId sys i) rest

/-- Whether a request has been answered. -/
def BookTask.isDone : BookTask → Bool
  | BookTask.done _ => true
  | _ => false

/-- Whether a request has been answered with status 200. -/
def BookTask.succeeded : BookTask → Bool
  | BookTask.done r => decide (r.status = 200)
  | _ => false

/-- Whether every request has been answered. -/
def allDone (sys : BookSystem) : Bool := sys.tasks.all fun t => t.2.isDone

/-- The number of requests answered with status 200. -/
def successCount (sys : BookSystem) : Nat := sys.tasks.countP fun t => t.2.succeeded

/-! ## `trips.routes.js` -/

/-- The test `v !== userId` against a string. -/
def strictNeStr (v : JSValue) (userId : String) : Bool :=
  match v with
  | JSValue.str s => decide (s ≠ userId)
  | _ => true

/-- The value `v || fallback`. -/
def orElse (v fallback : JSValue) : JSValue := if truthy v then v else fallback

/-- The object `newTrip` built by `POST /` (lines 45-69). -/
def newTrip (clock : Clock) (userId : String) (userData body : JSObject) : JSObject :=
  let vehicle := getProp userData "vehicle"
  [("driverId", JSValue.str userId),
   ("driverName", getProp userData "name"),
   ("driverVehicle", JSValue.obj
      [("plate", getMember vehicle "plate"),
       ("color", getMember vehicle "color"),
       ("availableSeats", getMember vehicle "availableSeats"),
       ("brand", getMember vehicle "brand"),
       ("model", getMember vehicle "model")]),
   ("tripDate", JSValue.date (newDate clock (getProp body "tripDate"))),
   ("origin", getProp body "origin"),
   ("destination", getProp body "destination"),
   ("arrivalTime", getProp body "arrivalTime"),
   ("departureTime", getProp body "departureTime"),
   ("cost", JSValue.num (toNumber (getProp body "cost"))),
   ("paymentMethods", getProp body "paymentMethods"),
   ("routeTag", getProp body "routeTag"),
   ("affinity", orElse (getProp body "affinity") (JSValue.str "No especificada")),
   ("description", orElse (getProp body "description") (JSValue.str "")),
   ("createdAt", JSValue.date (some clock.now)),
   ("status", JSValue.str "scheduled"),
   ("passengers", JSValue.arr []),
   ("availableSeats", getMember vehicle "availableSeats")]

/-- The answer of the `catch` block of `POST /`. -/
def createError (e : JSError) : Response :=
  failure 500 "Error al crear el viaje" [("error", JSValue.str e.message)]

/-- The handler of `POST /` (lines 8-99) for the authenticated user `userId`, the store
assigning `newId` to the added document.  Building `newTrip` converts `tripDate` (line 55) and
`cost` (line 60), which may raise. -/
def createTripHandler (clock : Clock) (users trips : Store) (newId userId : String)
    (body : JSObject) : Response × Store :=
  match getDoc users userId with
  | none => (failure 404 "Usuario no encontrado" [], trips)
  | some userData =>
    if !truthy (getProp userData "vehicle") then
      (failure 400 "El usuario no tiene un vehículo registrado" [], trips)
    else if convertThrows (getProp body "tripDate") || convertThrows (getProp body "cost") then
      (createError conversionError, trips)
    else
      let trip := newTrip clock userId userData body
      let trips' := addDoc trips newId trip
      match getDoc trips' newId with
      | none => (createError ⟨"Cannot read properties of undefined (reading 'routeTag')"⟩, trips')
      | some savedData =>
        if !truthy (getProp savedData "routeTag") then
          (createError ⟨"Route tag was not saved correctly"⟩, trips')
        else
          (success 201 "Viaje creado exitosamente"
            [("data", JSValue.obj (("id", JSValue.str newId) :: trip))], trips')

/-- The route `POST /` with its middleware `validateTrip`. -/
def createTrip (clock : Clock) (users trips : Store) (newId userId : String)
    (body : JSObject) : Response × Store :=
  match validateTrip clock body with
  | Outcome.respond r => (r, trips)
  | Outcome.next => createTripHandler clock users trips newId userId body

/-- The object `updatedData` built by `PUT /:id` (lines 191-195). -/
def updatedData (clock : Clock) (body : JSObject) : JSObject :=
  setField "updatedAt" (JSValue.date (some clock.now))
    (setField "routeTag" (getProp body "routeTag") body)

/-- The answer of the `catch` block of `PUT /:id`. -/
def updateError (e : JSError) : Response :=
  failure 500 "Error al actualizar el viaje" [("error", JSValue.str e.message)]

/-- The handler of `PUT /:id` (lines 171-211) for the authenticated user `userId`. -/
def updateTripHandler (clock : Clock) (trips : Store) (tripId userId : String)
    (body : JSObject) : Response × Store :=
  match getDoc trips tripId with
  | none => (failure 404 "Viaje no encontrado" [], trips)
  | some tripData =>
    if strictNeStr (getProp tripData "driverId") userId then
      (failure 403 "No tienes permiso para modificar este viaje" [], trips)
    else
      match updateDoc trips tripId (updatedData clock body) with
      | Except.error e => (updateError e, trips)
      | Except.ok trips' => (success 200 "Viaje actualizado exitosamente" [], trips')

/-- The route `PUT /:id` with its middleware `validateTrip`. -/
def updateTrip (clock : Clock) (trips : Store) (tripId userId : String)
    (body : JSObject) : Response × Store :=
  match validateTrip clock body with
  | Outcome.respond r => (r, trips)
  | Outcome.next => updateTripHandler clock trips tripId userId body

/-- The route `DELETE /:id` (lines 214-249) for the authenticated user `userId`. -/
def deleteTrip (trips : Store) (tripId userId : String) : Response × Store :=
  match getDoc trips tripId with
  | none => (failure 404 "Viaje no encontrado" [], trips)
  | some tripData =>
    if strictNeStr (getProp tripData "driverId") userId then
      (failure 403 "No tienes permiso para eliminar este viaje" [], trips)
    else (success 200 "Viaje eliminado exitosamente" [], deleteDoc trips tripId)

/-! ## Sequences of bookings and the seat-accounting invariant -/

/-- A finite sequence of booking calls `(tripId, userId)`, each run to completion before the
next starts. -/
def bookAll (trips : Store) : List (String × String) → Store
  | [] => trips
  | (tripId, userId) :: rest => bookAll (book trips tripId userId).2 rest

/-- The seat-accounting invariant of a trip document for a vehicle of capacity `c`:
`passengers` is an array, `availableSeats` is the number `c - |passengers|`, and that number is
not negative. -/
def SeatInvariant (c : ℕ) (doc : JSObject) : Prop :=
  ∃ (ps : List JSValue) (a : ℚ),
    getProp doc "passengers" = JSValue.arr ps ∧
    getProp doc "availableSeats" = JSValue.num (JSNumber.fin a) ∧
    a = (c : ℚ) - (ps.length : ℚ) ∧ 0 ≤ a

/-- The number of elements of `ps` that `includes(userId)` finds. -/
def occurrences (userId : String) (ps : List JSValue) : Nat :=
  ps.countP fun x => includesValue [userId] x

/-- The passengers a booking sees on a trip document: the elements of the array `passengers`,
or none when the field is absent or otherwise falsy (the handler then uses `[]`). -/
def PassengersAre (doc : JSObject) (ps : List JSValue) : Prop :=
  getProp doc "passengers" = JSValue.arr ps ∨
    (truthy (getProp doc "passengers") = false ∧ ps = [])

/-- The response of a successful booking. -/
def bookedResponse : Response := success 200 "Viaje reservado exitosamente" []

/-- The AlreadyBooked refusal. -/
def alreadyBookedResponse : Response :=
  failure 400 "El usuario ya está registrado como pasajero en este viaje" []

/-- The SeatsUnavailable refusal. -/
def seatsUnavailableResponse : Response :=
  failure 400 "No hay asientos disponibles en este viaje" []

/-- The fields a successful booking of `userId` writes on a trip with passengers `ps` and `a`
available seats. -/
def bookingFields (ps : List JSValue) (a : ℚ) (userId : String) : JSObject :=
  [("passengers", JSValue.arr (ps ++ [JSValue.str userId])),
   ("availableSeats", JSValue.num (JSNumber.fin (a - 1)))]

/-- A one-seat trip document whose seat is free. -/
def SeatFree (doc : JSObject) : Prop :=
  getProp doc "passengers" = JSValue.arr [] ∧
    getProp doc "availableSeats" = JSValue.num (JSNumber.fin 1)

/-- A one-seat trip document whose seat is taken. -/
def SeatTaken (doc : JSObject) : Prop :=
  ∃ u : String, getProp doc "passengers" = JSValue.arr [JSValue.str u] ∧
    getProp doc "availableSeats" = JSValue.num (JSNumber.fin 0)

/-- A request on a one-seat trip is in order: its snapshot is the trip with the seat free or
taken, its answer is a success or one of the two refusals. -/
def TaskOk : BookTask → Prop
  | BookTask.start => True
  | BookTask.holding snapshot => ∃ d, snapshot = some d ∧ (SeatFree d ∨ SeatTaken d)
  | BookTask.done r =>
    r = bookedResponse ∨ r = seatsUnavailableResponse ∨ r = alreadyBookedResponse

/-- A request that has not been answered and has seen the seat free, if it has read at all. -/
def TaskEarly : BookTask → Prop
  | BookTask.start => True
  | BookTask.holding snapshot => ∃ d, snapshot = some d ∧ SeatFree d
  | BookTask.done _ => False

/-- The invariant of concurrent bookings of a one-seat trip: the seat is free and no request
has been answered, or the seat is taken and some request has been answered with a success. -/
def OneSeatInv (tripId : String) (sys : BookSystem) : Prop :=
  ∃ doc, getDoc sys.trips tripId = some doc ∧
    (∀ t ∈ sys.tasks, TaskOk t.2) ∧
    ((SeatFree doc ∧ ∀ t ∈ sys.tasks, TaskEarly t.2) ∨
      (SeatTaken doc ∧ ∃ t ∈ sys.tasks, t.2 = BookTask.done bookedResponse))

/-- The invariant of a stored trip: the capacity snapshot `driverVehicle.availableSeats` is a
non-negative integer `c`, `passengers` is an array without duplicates, and `availableSeats` is
the number `c - |passengers|`, not negative. -/
def StoredTripInvariant (doc : JSObject) : Prop :=
  ∃ (c : ℕ) (ps : List JSValue) (a : ℚ),
    getMember (getProp doc "driverVehicle") "availableSeats" =
      JSValue.num (JSNumber.fin (c : ℚ)) ∧
    getProp doc "passengers" = JSValue.arr ps ∧
    getProp doc "availableSeats" = JSValue.num (JSNumber.fin a) ∧
    a = (c : ℚ) - (ps.length : ℚ) ∧ 0 ≤ a ∧ ps.Nodup

/-- The Forbidden answer of `PUT /:id`. -/
def forbiddenUpdate : Response := failure 403 "No tienes permiso para modificar este viaje" []

/-- The Forbidden answer of `DELETE /:id`. -/
def forbiddenDelete : Response := failure 403 "No tienes permiso para eliminar este viaje" []

/-- The answer of `validateTrip` to a payload with missing fields. -/
def missingFieldsResponse (missingFields : List String) : Response :=
  failure 400 "Faltan campos obligatorios"
    [("missingFields", JSValue.arr (missingFields.map JSValue.str))]

/-- Two payloads that differ at most in their field `cost`. -/
def AgreeExceptCost (b1 b2 : JSObject) : Prop :=
  ∀ k : String, k ≠ "cost" → getProp b1 k = getProp b2 k

/-- Three hours in milliseconds. -/
def threeHoursMs : Int := 3 * 60 * 60 * 1000

/-! ## Sample data -/

/-- A clock: 14 November 2023, 22:13:20 UTC, local time five hours behind UTC. -/
def sampleClock : Clock :=
  { now := 1700000000000, tzOffsetMinutes := -300, dstShiftMinutes := fun _ => 0 }

/-- A payload that meets every check of `validateTrip` at `sampleClock`. -/
def sampleBody : JSObject :=
  [("tripDate", JSValue.str "2030-01-01"), ("origin", JSValue.str "Chía"),
   ("destination", JSValue.str "Campus"), ("arrivalTime", JSValue.str "09:00"),
   ("departureTime", JSValue.str "08:00"), ("cost", JSValue.num (JSNumber.fin 50000)),
   ("paymentMethods", JSValue.arr [JSValue.str "nequi"]), ("routeTag", JSValue.str "chia")]

/-- The profile of a driver whose vehicle has two seats. -/
def sampleDriver : JSObject :=
  [("name", JSValue.str "Ana"),
   ("vehicle", JSValue.obj
      [("plate", JSValue.str "ABC123"), ("color", JSValue.str "rojo"),
       ("availableSeats", JSValue.num (JSNumber.fin 2)),
       ("brand", JSValue.str "Mazda"), ("model", JSValue.str "3")])]

/-- A users collection with the one driver `d1`. -/
def sampleUsers : Store := [("d1", sampleDriver)]

/-- A trip document with two free seats and no passengers, owned by `d1`. -/
def sampleTrip : JSObject :=
  [("driverId", JSValue.str "d1"), ("passengers", JSValue.arr []),
   ("availableSeats", JSValue.num (JSNumber.fin 2))]

/-- A trip document with one free seat and no passengers, owned by `d1`. -/
def sampleOneSeatTrip : JSObject :=
  [("driverId", JSValue.str "d1"), ("passengers", JSValue.arr []),
   ("availableSeats", JSValue.num (JSNumber.fin 1))]

/-- Two concurrent bookings of the one-seat sample trip by `A` and `B` in which both requests
read the trip before either writes. -/
def sampleRace : BookSystem :=
  runSchedule "t1" (startSystem [("t1", sampleOneSeatTrip)] ["A", "B"]) [0, 1, 0, 1]

/-- A stored trip of driver `d1` with a two-seat vehicle and no passengers. -/
def sampleStoredTrip : JSObject :=
  [("driverId", JSValue.str "d1"),
   ("driverVehicle", JSValue.obj [("availableSeats", JSValue.num (JSNumber.fin 2))]),
   ("passengers", JSValue.arr []),
   ("availableSeats", JSValue.num (JSNumber.fin 2))]

/-- The sample payload with an extra field `driverId`. -/
def sampleBodyWithDriver : JSObject := sampleBody ++ [("driverId", JSValue.str "d2")]

/-- The sample payload with an extra field `availableSeats`. -/
def sampleBodyWithSeats : JSObject :=
  sampleBody ++ [("availableSeats", JSValue.num (JSNumber.fin 99))]

/-- The sample payload without `tripDate` and with `cost` equal to 0. -/
def sampleBodyZeroCost : JSObject :=
  [("origin", JSValue.str "Chía"),
   ("destination", JSValue.str "Campus"), ("arrivalTime", JSValue.str "09:00"),
   ("departureTime", JSValue.str "08:00"), ("cost", JSValue.num (JSNumber.fin 0)),
   ("paymentMethods", JSValue.arr [JSValue.str "nequi"]), ("routeTag", JSValue.str "chia")]

/-- The sample payload with an arrival four and a half hours after the departure. -/
def sampleBodyLongTrip : JSObject :=
  setField "arrivalTime" (JSValue.str "12:30") sampleBody

/-- A payload whose only field is an unknown route. -/
def sampleBodyOnlyRoute : JSObject := [("routeTag", JSValue.str "unknown")]

/-- The sample payload with an unknown route. -/
def sampleBodyUnknownRoute : JSObject :=
  setField "routeTag" (JSValue.str "unknown") sampleBody

/-- The sample payload with an arrival four and a half hours after the departure and an
unknown route. -/
def sampleBodyLongUnknownRoute : JSObject :=
  setField "routeTag" (JSValue.str "unknown") sampleBodyLongTrip

/-- A clock on the day of the sample payload: 1 January 2030, 10:00 UTC, which is 05:00 of the
same day in local time. -/
def sampleTodayClock : Clock :=
  { now := 1893492000000, tzOffsetMinutes := -300, dstShiftMinutes := fun _ => 0 }

/-- The sample payload with a valid, an unknown and a non-text payment method. -/
def sampleBodyBadMethods : JSObject :=
  setField "paymentMethods"
    (JSValue.arr [JSValue.str "nequi", JSValue.str "bitcoin", JSValue.num (JSNumber.fin 5)])
    sampleBody

/-- The sample payload with the extra field `affinity: 0`. -/
def sampleBodyAffinityZero : JSObject :=
  sampleBody ++ [("affinity", JSValue.num (JSNumber.fin 0))]

/-- The sample payload with the extra field `affinity: 7`. -/
def sampleBodyAffinitySeven : JSObject :=
  sampleBody ++ [("affinity", JSValue.num (JSNumber.fin 7))]

/-- A full trip document: one seat, taken by `A`. -/
def sampleFullTrip : JSObject :=
  [("driverId", JSValue.str "d1"), ("passengers", JSValue.arr [JSValue.str "A"]),
   ("availableSeats", JSValue.num (JSNumber.fin 0))]

/-! ## The check categories of `validateTrip`

Each of the eleven checks of `validateTrip`, as a test on the payload in the words of the
source, numbered in the order required fields, text fields, cost, trip date, time format and
parse, departure not in the past, arrival after departure, duration, payment methods, route,
optional fields. -/

/-- Category 1 (lines 54-56): a required field is absent or falsy. -/
def missingRequired (body : JSObject) : Bool :=
  decide ((requiredFields.filter fun field => !truthy (getProp body field)).length > 0)

/-- The test of lines 71 on one value: not a string, or blank once trimmed. -/
def blankText (v : JSValue) : Bool :=
  match v with
  | JSValue.str s => decide ((jsTrim s.toList).length = 0)
  | _ => true

/-- Category 2 (lines 70-77): `origin` or `destination` is not a string or is blank. -/
def textInvalid (body : JSObject) : Bool :=
  textFields.any fun f => blankText (getProp body f.1)

/-- Category 3 (lines 80-94): the cost cannot be converted to a number, or the number is
`NaN`, not positive, or outside `[1000, 100000]`. -/
def costInvalid (body : JSObject) : Bool :=
  convertThrows (getProp body "cost") ||
    (((toNumber (getProp body "cost")).isNaN ||
        (toNumber (getProp body "cost")).le (JSNumber.fin 0)) ||
      ((toNumber (getProp body "cost")).lt (JSNumber.fin 1000) ||
        (JSNumber.fin 100000).lt (toNumber (getProp body "cost"))))

/-- Category 4 (lines 97-120): the trip date cannot be converted to text, has not the format
`YYYY-MM-DD`, is no date, or its Date object is earlier than `now`. -/
def dateInvalid (clock : Clock) (body : JSObject) : Bool :=
  (convertThrows (getProp body "tripDate") ||
      !dateRegexTest (toStr (getProp body "tripDate"))) ||
    ((newDate clock (getProp body "tripDate")).isNone ||
      dateLt (newDate clock (getProp body "tripDate")) (some clock.now))

/-- Whether a time of the payload cannot be converted to text or has not the format `HH:MM`. -/
def timeTextInvalid (v : JSValue) : Bool :=
  convertThrows v || !timeRegexTest (toStr v)

/-- Category 5 (lines 123-140): a time cannot be converted to text or has not the format
`HH:MM`, or a time on the trip date is no date. -/
def timeInvalid (clock : Clock) (body : JSObject) : Bool :=
  (timeTextInvalid (getProp body "departureTime") ||
      timeTextInvalid (getProp body "arrivalTime")) ||
    ((timeOnTripDate clock body "departureTime").isNone ||
      (timeOnTripDate clock body "arrivalTime").isNone)

/-- Whether the check of the given category raises an exception on the payload, once the
checks before it have passed: `Number(cost)` in category 3, the pattern test of `tripDate` in
category 4, and in category 5 the pattern test of `departureTime` or, when `departureTime`
matches, that of `arrivalTime`. -/
def raisesAt (body : JSObject) : Nat → Bool
  | 3 => convertThrows (getProp body "cost")
  | 4 => convertThrows (getProp body "tripDate")
  | 5 => convertThrows (getProp body "departureTime") ||
      (timeRegexTest (toStr (getProp body "departureTime")) &&
        convertThrows (getProp body "arrivalTime"))
  | _ => false

/-- The answer of the `catch` block of `validateTrip` to a conversion that raised. -/
def conversionErrorResponse : Response :=
  failure 500 "Error en la validación del viaje" [("error", JSValue.str conversionError.message)]

/-- Category 6 (lines 142-147): the departure is earlier than `now`. -/
def departurePast (clock : Clock) (body : JSObject) : Bool :=
  dateLt (timeOnTripDate clock body "departureTime") (some clock.now)

/-- Category 7 (lines 149-154): the arrival is not later than the departure. -/
def arrivalNotAfter (clock : Clock) (body : JSObject) : Bool :=
  dateLe (timeOnTripDate clock body "arrivalTime") (timeOnTripDate clock body "departureTime")

/-- Category 8 (lines 157-163): the trip lasts more than 3 hours. -/
def tripTooLong (clock : Clock) (body : JSObject) : Bool :=
  (JSNumber.fin 3).lt (hoursBetween (timeOnTripDate clock body "arrivalTime")
    (timeOnTripDate clock body "departureTime"))

/-- The elements of an array of payment methods that are not valid methods (lines 174-176). -/
def invalidMethods (xs : List JSValue) : List JSValue :=
  xs.filter fun method => !includesValue VALID_PAYMENT_METHODS method

/-- Category 9 (lines 166-185): `paymentMethods` is not an array, is empty, or has an element
that is not a valid method. -/
def paymentInvalid (body : JSObject) : Bool :=
  (!isArray (getProp body "paymentMethods") || lengthIsZero (getProp body "paymentMethods")) ||
    match getProp body "paymentMethods" with
    | JSValue.arr xs => decide ((invalidMethods xs).length > 0)
    | _ => false

/-- Category 10 (lines 188-196): `routeTag` is not the id of a valid route. -/
def routeInvalid (body : JSObject) : Bool :=
  !includesValue (VALID_ROUTES.map fun route => route.1) (getProp body "routeTag")

/-- Category 11 (lines 199-211): `affinity` or `description` is truthy and not a string. -/
def optionalInvalid (body : JSObject) : Bool :=
  (truthy (getProp body "affinity") && !isString (getProp body "affinity")) ||
    (truthy (getProp body "description") && !isString (getProp body "description"))

/-- Whether the payload violates the check category of the given number. -/
def violates (clock : Clock) (body : JSObject) : Nat → Bool
  | 1 => missingRequired body
  | 2 => textInvalid body
  | 3 => costInvalid body
  | 4 => dateInvalid clock body
  | 5 => timeInvalid clock body
  | 6 => departurePast clock body
  | 7 => arrivalNotAfter clock body
  | 8 => tripTooLong clock body
  | 9 => paymentInvalid body
  | 10 => routeInvalid body
  | 11 => optionalInvalid body
  | _ => false

/-- The messages of `validateTrip`, each with the number of the check category that sends
it. -/
def reasonTable : List (Nat × String) :=
  [(1, "Faltan campos obligatorios"),
   (2, "El campo Origen no puede estar vacío y debe ser texto"),
   (2, "El campo Destino no puede estar vacío y debe ser texto"),
   (3, "El costo debe ser un número válido mayor a 0"),
   (3, "El costo debe estar entre 1000 y 100000 pesos"),
   (4, "El formato de fecha debe ser YYYY-MM-DD"),
   (4, "Fecha inválida"),
   (4, "La fecha del viaje no puede ser anterior a la fecha actual"),
   (5, "El formato de hora debe ser HH:MM"),
   (5, "Horarios inválidos"),
   (6, "La hora de salida no puede ser anterior a la hora actual"),
   (7, "La hora de llegada debe ser posterior a la hora de salida"),
   (8, "El viaje no puede durar más de 3 horas"),
   (9, "Debe seleccionar al menos un método de pago"),
   (9, "Métodos de pago no válidos"),
   (10, "Ruta no válida"),
   (11, "El campo afinidad debe ser texto"),
   (11, "El campo descripción debe ser texto")]

/-- The check category whose reason a message is, if it is a message of `validateTrip`. -/
def reasonCategory (message : String) : Option Nat :=
  match reasonTable.find? fun e => e.2 == message with
  | some e => some e.1
  | none => none

/-- The category of the reason a response carries in its `message`. -/
def responseCategory (r : Response) : Option Nat :=
  match getProp r.body "message" with
  | JSValue.str message => reasonCategory message
  | _ => none

/-- The answer of `validateTrip` to a blank or non-text field named `name`. -/
def blankTextResponse (name : String) : Response :=
  failure 400 ("El campo " ++ name ++ " no puede estar vacío y debe ser texto") []

/-- The answer of `validateTrip` to invalid payment methods. -/
def invalidMethodsResponse (invalid : List JSValue) : Response :=
  failure 400 "Métodos de pago no válidos"
    [("invalidPaymentMethods", JSValue.arr invalid),
     ("validPaymentMethods", validPaymentMethodsValue)]

/-- The answer of `validateTrip` to an unknown route. -/
def invalidRouteResponse : Response :=
  failure 400 "Ruta no válida" [("validRoutes", validRoutesValue)]

/-- The middleware `validateTrip` on a request: what it does, and `req.body` afterwards; no
statement of `validateTrip` assigns to `req` or to a property of `req.body`. -/
def runValidateTrip (clock : Clock) (body : JSObject) : Outcome × JSObject :=
  (validateTrip clock body, body)

/-- The answer of `POST /` when the re-read trip has no truthy `routeTag` (lines 80-82, through
the `catch`). -/
def routeTagNotSavedResponse : Response :=
  createError ⟨"Route tag was not saved correctly"⟩

/-- The NotFound answer of the booking handler. -/
def tripNotFoundResponse : Response := failure 404 "Viaje no encontrado" []

/-- The fields a successful booking of `userId` writes on a trip whose `passengers` is the array
`ps` and whose `availableSeats` is the value `seats`. -/
def bookingWrite (ps : List JSValue) (seats : JSValue) (userId : String) : JSObject :=
  [("passengers", JSValue.arr (ps ++ [JSValue.str userId])),
   ("availableSeats", JSValue.num (toNumber seats).pred)]

/-- The answer of a successful `POST /`: the trip and its id. -/
def createdResponse (newId : String) (trip : JSObject) : Response :=
  success 201 "Viaje creado exitosamente"
    [("data", JSValue.obj (("id", JSValue.str newId) :: trip))]

/-- The snapshot `driverVehicle` of a vehicle: its plate, color, seat capacity, brand and
model. -/
def vehicleSnapshot (vehicle : JSValue) : JSValue :=
  JSValue.obj
    [("plate", getMember vehicle "plate"),
     ("color", getMember vehicle "color"),
     ("availableSeats", getMember vehicle "availableSeats"),
     ("brand", getMember vehicle "brand"),
     ("model", getMember vehicle "model")]

/-! ## The check categories in words

The eleven check categories once more, as properties of the payload stated without the
operations of the validator: first as the validator tests them (`TestedViolates`), then as the
specification words them (`SpecViolates`), which differs in the categories 1, 4 and 11.  The
patterns `YYYY-MM-DD` and `HH:MM` are those of the validator (the latter admits a one-digit
hour), the instants of departure and arrival are the Date objects of lines 132-133. -/

/-- No conversion of the validator raises on the payload. -/
def NoConversionRaises (body : JSObject) : Prop :=
  convertThrows (getProp body "cost") = false ∧
    convertThrows (getProp body "tripDate") = false ∧
    convertThrows (getProp body "departureTime") = false ∧
    convertThrows (getProp body "arrivalTime") = false

/-- A falsy value: `undefined` (also the value of an absent field), `null`, `false`, `NaN`, `0`
or the empty string. -/
def IsFalsy (v : JSValue) : Prop :=
  v = JSValue.undefined ∨ v = JSValue.null ∨ v = JSValue.bool false ∨
    v = JSValue.num JSNumber.nan ∨ v = JSValue.num (JSNumber.fin 0) ∨ v = JSValue.str ""

/-- A value that is text. -/
def IsText (v : JSValue) : Prop := ∃ s : String, v = JSValue.str s

/-- Blank text: every character is white space, so that nothing is left once the text is
trimmed. -/
def IsBlank (s : String) : Prop := ∀ c ∈ s.toList, isJSWhiteSpace c = true

/-- The value converts to the finite number `c`. -/
def ConvertsTo (v : JSValue) (c : ℚ) : Prop :=
  convertThrows v = false ∧ toNumber v = JSNumber.fin c

/-- The cost of the payload converts to a number within `[1000, 100000]`. -/
def CostInRange (body : JSObject) : Prop :=
  ∃ c : ℚ, ConvertsTo (getProp body "cost") c ∧ 1000 ≤ c ∧ c ≤ 100000

/-- The value converts to text of the pattern `YYYY-MM-DD`. -/
def MatchesDatePattern (v : JSValue) : Prop :=
  convertThrows v = false ∧ dateRegexTest (toStr v) = true

/-- The value converts to text of the pattern `HH:MM`. -/
def MatchesTimePattern (v : JSValue) : Prop :=
  convertThrows v = false ∧ timeRegexTest (toStr v) = true

/-- The instants of departure and arrival of the payload, when both exist. -/
def TripInstants (clock : Clock) (body : JSObject) (dep arr : Int) : Prop :=
  timeOnTripDate clock body "departureTime" = some dep ∧
    timeOnTripDate clock body "arrivalTime" = some arr

/-- Whether the payload violates the check category of the given number, each category being
what the validator tests: (1) a required field is absent or falsy; (2) `origin` or
`destination` is not text or is blank; (3) the cost does not convert to a number within
`[1000, 100000]`; (4) the trip date has not the pattern `YYYY-MM-DD`, or its Date object is
invalid or earlier than the current instant; (5) a time has not the pattern `HH:MM`, or an
instant of departure or arrival does not exist; (6) the departure is earlier than the current
instant; (7) the arrival is not later than the departure; (8) the arrival is more than three
hours after the departure; (9) `paymentMethods` is not an array, is empty, or has an element
that is not a valid method; (10) `routeTag` is not the id of a valid route; (11) `affinity` or
`description` is neither falsy nor text. -/
def TestedViolates (clock : Clock) (body : JSObject) : Nat → Prop
  | 1 => ∃ f ∈ requiredFields, IsFalsy (getProp body f)
  | 2 => ∃ f ∈ ["origin", "destination"],
      ∀ s : String, getProp body f = JSValue.str s → IsBlank s
  | 3 => ¬ CostInRange body
  | 4 => ¬ MatchesDatePattern (getProp body "tripDate") ∨
      ∀ t : Int, newDate clock (getProp body "tripDate") = some t → t < clock.now
  | 5 => ¬ MatchesTimePattern (getProp body "departureTime") ∨
      ¬ MatchesTimePattern (getProp body "arrivalTime") ∨
      timeOnTripDate clock body "departureTime" = none ∨
      timeOnTripDate clock body "arrivalTime" = none
  | 6 => ∃ dep : Int, timeOnTripDate clock body "departureTime" = some dep ∧ dep < clock.now
  | 7 => ∃ dep arr : Int, TripInstants clock body dep arr ∧ arr ≤ dep
  | 8 => ∃ dep arr : Int, TripInstants clock body dep arr ∧ threeHoursMs < arr - dep
  | 9 => ∀ xs : List JSValue, getProp body "paymentMethods" = JSValue.arr xs →
      xs = [] ∨ ∃ x ∈ xs, ∀ m ∈ VALID_PAYMENT_METHODS, x ≠ JSValue.str m
  | 10 => ∀ route ∈ VALID_ROUTES, getProp body "routeTag" ≠ JSValue.str route.1
  | 11 => ∃ f ∈ ["affinity", "description"],
      ¬ IsFalsy (getProp body f) ∧ ¬ IsText (getProp body f)
  | _ => False

/-- The number of days of month `m` of year `y`. -/
def daysInMonth (y m : Nat) : Nat :=
  if m = 2 then (if (y % 4 = 0 ∧ y % 100 ≠ 0) ∨ y % 400 = 0 then 29 else 28)
  else if m = 4 ∨ m = 6 ∨ m = 9 ∨ m = 11 then 30
  else 31

/-- The trip date of the payload is text `YYYY-MM-DD` that names day `d` of month `m` of year
`y`, a date of the calendar. -/
def TripDateIs (body : JSObject) (y m d : Nat) : Prop :=
  MatchesDatePattern (getProp body "tripDate") ∧
    parseDayNumbers (toStr (getProp body "tripDate")) = some (y, m, d) ∧
    1 ≤ m ∧ m ≤ 12 ∧ 1 ≤ d ∧ d ≤ daysInMonth y m

/-- The day number of the current date, in UTC. -/
def currentDay (clock : Clock) : Int := clock.now / 86400000

/-- The day number of the current date in local time. -/
def currentLocalDay (clock : Clock) : Int :=
  (clock.now + clock.tzOffsetMinutes * 60000) / 86400000

/-- Whether the payload violates the check category of the given number, each category being
what the specification words: as `TestedViolates`, except that (1) a required field is absent
from the payload; (4) the trip date is no date of the calendar written `YYYY-MM-DD`, or is
earlier than the current date; (11) `affinity` or `description` is present and is not text. -/
def SpecViolates (clock : Clock) (body : JSObject) : Nat → Prop
  | 1 => ∃ f ∈ requiredFields, body.lookup f = none
  | 4 => ¬ ∃ y m d : Nat, TripDateIs body y m d ∧ currentDay clock ≤ daysFromCivil y m d
  | 11 => ∃ f ∈ ["affinity", "description"], ∃ v, body.lookup f = some v ∧ ¬ IsText v
  | k => TestedViolates clock body k

/-- The constraints of the validator on the fields other than `cost`, as the validator tests
them: no required field other than `cost` is absent or falsy, and no category other than 1 and
3 is violated. -/
def OtherFieldsValid (clock : Clock) (body : JSObject) : Prop :=
  (∀ f ∈ requiredFields, f ≠ "cost" → ¬ IsFalsy (getProp body f)) ∧
    ∀ j, j ≠ 1 → j ≠ 3 → ¬ TestedViolates clock body j

/-- The constraints of the specification on the fields other than `cost`: no required field
other than `cost` is absent, and no category other than 1 and 3 is violated. -/
def SpecOtherFieldsValid (clock : Clock) (body : JSObject) : Prop :=
  (∀ f ∈ requiredFields, f ≠ "cost" → body.lookup f ≠ none) ∧
    ∀ j, j ≠ 1 → j ≠ 3 → ¬ SpecViolates clock body j

/-- A field value of the kinds a flat request body holds: a string, a number, a boolean, `null`
or an array of strings. -/
def FlatValue (v : JSValue) : Prop :=
  (∃ s : String, v = JSValue.str s) ∨ (∃ n : JSNumber, v = JSValue.num n) ∨
    (∃ b : Bool, v = JSValue.bool b) ∨ v = JSValue.null ∨
    ∃ ss : List String, v = JSValue.arr (ss.map JSValue.str)

/-- A request body all of whose field values are flat. -/
def FlatBody (body : JSObject) : Prop := ∀ kv ∈ body, FlatValue kv.2

/-- An object on which the conversion to a primitive raises: `{"toString": 1}`. -/
def sampleThrowingObject : JSValue := JSValue.obj [("toString", JSValue.num (JSNumber.fin 1))]

/-- The sample payload with the cost `{"toString": 1}`. -/
def sampleBodyThrowingCost : JSObject := setField "cost" sampleThrowingObject sampleBody

/-- The sample payload with the cost 0. -/
def sampleBodyCostZero : JSObject :=
  setField "cost" (JSValue.num (JSNumber.fin 0)) sampleBody

/-- The sample payload with an arrival at 07:00, one hour before the departure, and the cost
`{"toString": 1}`. -/
def sampleBodyBackwardsThrowingCost : JSObject :=
  setField "arrivalTime" (JSValue.str "07:00") sampleBodyThrowingCost

/-- The sample payload with the text `nequi` for `paymentMethods` and the cost
`{"toString": 1}`. -/
def sampleBodyTextMethodsThrowingCost : JSObject :=
  setField "paymentMethods" (JSValue.str "nequi") sampleBodyThrowingCost

/-- The sample payload with an unknown route and the cost `{"toString": 1}`. -/
def sampleBodyUnknownRouteThrowingCost : JSObject :=
  setField "routeTag" (JSValue.str "unknown") sampleBodyThrowingCost

/-- A clock of a zone with daylight saving: standard time five hours behind UTC, and one hour
of daylight saving from 10 March 2024, 02:00, to 3 November 2024, 02:00, local time. -/
def sampleDstClock : Clock :=
  { now := 1700000000000, tzOffsetMinutes := -300,
    dstShiftMinutes := fun t => if 1710036000000 ≤ t ∧ t < 1730599200000 then 60 else 0 }

/-- The sample payload dated on the day daylight saving begins at `sampleDstClock`, with the
departure at 01:30 and the arrival at 03:30 local time. -/
def sampleBodyDstDay : JSObject :=
  setField "tripDate" (JSValue.str "2024-03-10")
    (setField "departureTime" (JSValue.str "01:30")
      (setField "arrivalTime" (JSValue.str "03:30") sampleBody))

/-! ## Evaluations of the conversions and of the parsers -/

/-- StringToNumber: decimal literals with white space around them, signs, exponents, radix
literals, `Infinity`, the empty text and text that is no number. -/
theorem stringToNumber_samples :
    stringToNumber "5000".toList = JSNumber.fin 5000 ∧
      stringToNumber " 12.5e2\n".toList = JSNumber.fin 1250 ∧
      stringToNumber "-5000".toList = JSNumber.fin (-5000) ∧
      stringToNumber "+.5e1".toList = JSNumber.fin 5 ∧
      stringToNumber "0x1F".toList = JSNumber.fin 31 ∧
      stringToNumber "0b101".toList = JSNumber.fin 5 ∧
      stringToNumber "-Infinity".toList = JSNumber.negInf ∧
      stringToNumber "".toList = JSNumber.fin 0 ∧
      stringToNumber "5000 pesos".toList = JSNumber.nan ∧
      stringToNumber "1e".toList = JSNumber.nan ∧
      stringToNumber "-0x1F".toList = JSNumber.nan ∧
      stringToNumber "[object Object]".toList = JSNumber.nan := by
  decide

/-- StringToNumber rounds to the nearest double: a literal just above 100000 is 100000, the
literal `0.1` is the double nearest to one tenth, and `9007199254740993` is rounded to the even
neighbour. -/
theorem stringToNumber_rounds :
    stringToNumber "100000.00000000000000001".toList = JSNumber.fin 100000 ∧
      stringToNumber "999.99999999999999999".toList = JSNumber.fin 1000 ∧
      stringToNumber "0.1".toList =
        JSNumber.fin (mkRat 3602879701896397 36028797018963968) ∧
      stringToNumber "9007199254740993".toList = JSNumber.fin 9007199254740992 := by
  decide!

/-- StringToNumber underflows to `0` and overflows to `Infinity`. -/
theorem stringToNumber_underflow_overflow :
    stringToNumber "1e-400".toList = JSNumber.fin 0 ∧
      stringToNumber "1e400".toList = JSNumber.posInf ∧
      stringToNumber "1.7976931348623157e308".toList =
        JSNumber.fin ((2 ^ 53 - 1) * 2 ^ 971 : Nat) ∧
      stringToNumber "1.7976931348623159e308".toList = JSNumber.posInf := by
  decide!

/-- ToNumber of values that are no text: `null`, booleans, arrays, and an object without an own
`toString`. -/
theorem toNumber_samples :
    toNumber JSValue.null = JSNumber.fin 0 ∧
      toNumber (JSValue.bool true) = JSNumber.fin 1 ∧
      toNumber JSValue.undefined = JSNumber.nan ∧
      toNumber (JSValue.arr []) = JSNumber.fin 0 ∧
      toNumber (JSValue.arr [JSValue.num (JSNumber.fin 5000)]) = JSNumber.fin 5000 ∧
      toNumber (JSValue.arr [JSValue.str "2500"]) = JSNumber.fin 2500 ∧
      toNumber (JSValue.arr [JSValue.num (JSNumber.fin 1), JSValue.num (JSNumber.fin 2)])
        = JSNumber.nan ∧
      toNumber (JSValue.arr
        [JSValue.num (JSNumber.fin (mkRat 3602879701896397 36028797018963968))])
        = JSNumber.fin (mkRat 3602879701896397 36028797018963968) ∧
      toNumber (JSValue.obj [("valueOf", JSValue.num (JSNumber.fin 1))]) = JSNumber.nan := by
  decide!

/-- The values on which a conversion raises: an object with an own `toString`, whatever its
value, and an array with such an element at any depth; not an object with an own `valueOf`
only, nor an array of primitives. -/
theorem convertThrows_samples :
    convertThrows sampleThrowingObject = true ∧
      convertThrows (JSValue.obj [("toString", JSValue.null)]) = true ∧
      convertThrows (JSValue.obj [("valueOf", JSValue.num (JSNumber.fin 1))]) = false ∧
      convertThrows (JSValue.obj []) = false ∧
      convertThrows (JSValue.arr [JSValue.arr [sampleThrowingObject]]) = true ∧
      convertThrows (JSValue.arr [JSValue.null, JSValue.str "a"]) = false ∧
      convertThrows (JSValue.str "toString") = false := by
  decide

/-- The method `trim` removes white space at both ends only. -/
theorem jsTrim_samples :
    jsTrim " \t Chía  norte \n".toList = "Chía  norte".toList ∧
      jsTrim "   ".toList = [] ∧ jsTrim "a".toList = "a".toList := by
  decide

/-- The patterns of the validator. -/
theorem pattern_samples :
    dateRegexTest "2030-01-01".toList = true ∧
      dateRegexTest "2030-1-01".toList = false ∧
      dateRegexTest "2030/01/01".toList = false ∧
      dateRegexTest "2030-01-01 ".toList = false ∧
      dateRegexTest "9999-99-99".toList = true ∧
      timeRegexTest "08:00".toList = true ∧
      timeRegexTest "8:00".toList = true ∧
      timeRegexTest "23:59".toList = true ∧
      timeRegexTest "24:00".toList = false ∧
      timeRegexTest "19:60".toList = false ∧
      timeRegexTest "08:0".toList = false ∧
      timeRegexTest "08-00".toList = false := by
  decide

/-- Date.parse at a clock five hours behind UTC: the date-only form is midnight UTC, and its
31st of February runs on into March; the form with a time is local; a month 13 is no date; in
the form with a time the year 0005 is read as a month and the year as 2001, and in the
date-only form `0012-31-49` is read as 31 December 2049, local time. -/
theorem dateParse_samples :
    dateParse sampleClock "2030-01-01".toList = some 1893456000000 ∧
      dateParse sampleClock "2030-02-31".toList = some 1898726400000 ∧
      dateParse sampleClock "2030-01-01 08:00".toList = some 1893502800000 ∧
      dateParse sampleClock "2030-01-01 8:00".toList = some 1893502800000 ∧
      dateParse sampleClock "2030-13-01".toList = none ∧
      dateParse sampleClock "2030-13-01 08:00".toList = none ∧
      dateParse sampleClock "2030-01-01T08:00".toList = none ∧
      dateParse sampleClock "0005-01-01".toList = some (-62009366400000) ∧
      dateParse sampleClock "0005-01-01 08:00".toList = some 988722000000 ∧
      dateParse sampleClock "0000-01-01 08:00".toList = some 946731600000 ∧
      dateParse sampleClock "0005-13-01".toList = some 989730000000 ∧
      dateParse sampleClock "0012-31-49".toList = some 2524539600000 := by
  decide

/-- Local times on the day daylight saving begins: 01:30 is standard time and 03:30 is
daylight-saving time, so that the two instants are one hour apart. -/
theorem daylight_saving_day :
    timeOnTripDate sampleDstClock sampleBodyDstDay "departureTime" = some 1710052200000 ∧
      timeOnTripDate sampleDstClock sampleBodyDstDay "arrivalTime" = some 1710055800000 ∧
      (1710055800000 : Int) - 1710052200000 = 3600000 ∧
      hoursBetween (some 1710055800000) (some 1710052200000) = JSNumber.fin 1 := by
  refine ⟨rfl, rfl, by decide, ?_⟩
  simp only [hoursBetween, JSNumber.fin.injEq]
  norm_num [Rat.mkRat_eq_div]

/-- The comparisons of Date objects and of numbers. -/
theorem comparison_samples :
    dateLt (some 5) (some 5) = false ∧ dateLt (some 4) (some 5) = true ∧
      dateLe (some 5) (some 5) = true ∧ dateLe (some 6) (some 5) = false ∧
      dateLe none (some 5) = false ∧ dateLt (some 5) none = false ∧
      (JSNumber.fin 0).le (JSNumber.fin 0) = true ∧
      (JSNumber.fin 1000).lt (JSNumber.fin 1000) = false ∧
      (JSNumber.fin 999).lt (JSNumber.fin 1000) = true ∧
      JSNumber.nan.le (JSNumber.fin 0) = false ∧
      JSNumber.negInf.le (JSNumber.fin 0) = true ∧
      (JSNumber.fin 100000).lt JSNumber.posInf = true := by
  decide

/-- The validator on payloads whose cost, date or time raises on conversion, and on one whose
departure does not match the pattern while its arrival would raise. -/
theorem validateTrip_raising_samples :
    validateTrip sampleClock sampleBodyThrowingCost =
        Outcome.respond conversionErrorResponse ∧
      validateTrip sampleClock (setField "tripDate" sampleThrowingObject sampleBody) =
        Outcome.respond conversionErrorResponse ∧
      validateTrip sampleClock (setField "departureTime" sampleThrowingObject sampleBody) =
        Outcome.respond conversionErrorResponse ∧
      validateTrip sampleClock (setField "arrivalTime" sampleThrowingObject sampleBody) =
        Outcome.respond conversionErrorResponse ∧
      validateTrip sampleClock (setField "departureTime" (JSValue.str "8h")
          (setField "arrivalTime" sampleThrowingObject sampleBody)) =
        Outcome.respond (failure 400 "El formato de hora debe ser HH:MM" []) ∧
      validateTrip sampleClock (setField "cost" (JSValue.obj []) sampleBody) =
        Outcome.respond (failure 400 "El costo debe ser un número válido mayor a 0" []) ∧
      getProp conversionErrorResponse.body "error" =
        JSValue.str "Cannot convert object to primitive value" ∧
      conversionErrorResponse.status = 500 :=
  ⟨rfl, rfl, rfl, rfl, rfl, rfl, rfl, rfl⟩

/-! ## Lemmas on objects and the store -/

theorem lookup_cons_ite {β : Type} (k k1 : String) (v : β) (rest : List (String × β)) :
    List.lookup k ((k1, v) :: rest) = if k = k1 then some v else List.lookup k rest := by
  by_cases h : k = k1
  · have hb : (k == k1) = true := by simpa using h
    simp [List.lookup, hb, h]
  · have hb : (k == k1) = false := by simpa using h
    simp [List.lookup, hb, h]

theorem lookup_setField (k : String) (v : JSValue) (o : JSObject) (k' : String) :
    (setField k v o).lookup k' = if k' = k then some v else o.lookup k' := by
  induction o with
  | nil =>
    show List.lookup k' [(k, v)] = _
    rw [lookup_cons_ite]
  | cons e rest ih =>
    obtain ⟨k1, v1⟩ := e
    by_cases h1 : k1 = k
    · subst h1
      have hs : setField k1 v ((k1, v1) :: rest) = (k1, v) :: rest := by simp [setField]
      rw [hs, lookup_cons_ite, lookup_cons_ite]
      by_cases h : k' = k1 <;> simp [h]
    · have hs : setField k v ((k1, v1) :: rest) = (k1, v1) :: setField k v rest := by
        simp [setField, h1]
      rw [hs, lookup_cons_ite, lookup_cons_ite, ih]
      by_cases h : k' = k1
      · subst h
        simp [h1]
      · simp [h]

theorem getProp_setField (k : String) (v : JSValue) (o : JSObject) (k' : String) :
    getProp (setField k v o) k' = if k' = k then v else getProp o k' := by
  unfold getProp
  rw [lookup_setField]
  by_cases h : k' = k <;> simp [h]

theorem lookup_mergeFields (doc upd : JSObject) (k : String) :
    (mergeFields doc upd).lookup k =
      match upd.lookup k with
      | some v => some v
      | none => doc.lookup k := by
  induction upd with
  | nil => simp [mergeFields, List.lookup]
  | cons e rest ih =>
    obtain ⟨k1, v1⟩ := e
    have hm : mergeFields doc ((k1, v1) :: rest) = setField k1 v1 (mergeFields doc rest) := rfl
    rw [hm, lookup_setField, lookup_cons_ite]
    by_cases h : k = k1
    · simp [h]
    · simp [h, ih]

theorem getProp_mergeFields (doc upd : JSObject) (k : String) :
    getProp (mergeFields doc upd) k =
      match upd.lookup k with
      | some v => v
      | none => getProp doc k := by
  unfold getProp
  rw [lookup_mergeFields]
  cases upd.lookup k <;> rfl

theorem getDoc_map_merge (s : Store) (id : String) (fields : JSObject) (id' : String) :
    getDoc (s.map fun e => if e.1 = id then (e.1, mergeFields e.2 fields) else e) id' =
      if id' = id then (getDoc s id).map (fun d => mergeFields d fields) else getDoc s id' := by
  induction s with
  | nil => simp [getDoc, List.lookup]
  | cons e rest ih =>
    obtain ⟨k1, d1⟩ := e
    unfold getDoc at ih ⊢
    by_cases h1 : k1 = id
    · subst h1
      have hm : List.map (fun e : String × JSObject =>
          if e.1 = k1 then (e.1, mergeFields e.2 fields) else e) ((k1, d1) :: rest) =
          (k1, mergeFields d1 fields) :: List.map (fun e : String × JSObject =>
            if e.1 = k1 then (e.1, mergeFields e.2 fields) else e) rest := by
        simp
      rw [hm, lookup_cons_ite, lookup_cons_ite, lookup_cons_ite, ih]
      by_cases h : id' = k1 <;> simp [h]
    · have hm : List.map (fun e : String × JSObject =>
          if e.1 = id then (e.1, mergeFields e.2 fields) else e) ((k1, d1) :: rest) =
          (k1, d1) :: List.map (fun e : String × JSObject =>
            if e.1 = id then (e.1, mergeFields e.2 fields) else e) rest := by
        simp [h1]
      rw [hm, lookup_cons_ite, lookup_cons_ite, lookup_cons_ite, ih]
      by_cases h : id' = k1
      · subst h
        simp [h1]
      · by_cases h2 : id = k1
        · exact absurd h2.symm h1
        · simp [h, h2]

theorem getDoc_updateDoc {s s' : Store} {id : String} {fields : JSObject}
    (h : updateDoc s id fields = Except.ok s') (id' : String) :
    getDoc s' id' =
      if id' = id then (getDoc s id).map (fun d => mergeFields d fields) else getDoc s id' := by
  unfold updateDoc at h
  cases hg : getDoc s id with
  | none => rw [hg] at h; cases h
  | some d =>
    rw [hg] at h
    injection h with h
    subst h
    rw [getDoc_map_merge, hg]

theorem updateDoc_of_getDoc {s : Store} {id : String} {d : JSObject} (fields : JSObject)
    (h : getDoc s id = some d) :
    ∃ s', updateDoc s id fields = Except.ok s' := by
  unfold updateDoc
  rw [h]
  exact ⟨_, rfl⟩

theorem getDoc_addDoc (s : Store) (newId : String) (doc : JSObject) (id : String) :
    getDoc (addDoc s newId doc) id =
      match getDoc s id with
      | some d => some d
      | none => if id = newId then some doc else none := by
  unfold getDoc addDoc
  induction s with
  | nil =>
    show List.lookup id [(newId, doc)] = _
    rw [lookup_cons_ite]
    rfl
  | cons e rest ih =>
    obtain ⟨k1, d1⟩ := e
    show List.lookup id ((k1, d1) :: (rest ++ [(newId, doc)])) = _
    rw [lookup_cons_ite, lookup_cons_ite, ih]
    by_cases h : id = k1 <;> simp [h]

theorem getDoc_deleteDoc_self (s : Store) (id : String) : getDoc (deleteDoc s id) id = none := by
  unfold getDoc deleteDoc
  induction s with
  | nil => simp [List.lookup]
  | cons e rest ih =>
    obtain ⟨k1, d1⟩ := e
    by_cases h : k1 = id
    · have hf : List.filter (fun e : String × JSObject => decide (e.1 ≠ id)) ((k1, d1) :: rest) =
          List.filter (fun e : String × JSObject => decide (e.1 ≠ id)) rest := by
        simp [List.filter, h]
      rw [hf, ih]
    · have hf : List.filter (fun e : String × JSObject => decide (e.1 ≠ id)) ((k1, d1) :: rest) =
          (k1, d1) :: List.filter (fun e : String × JSObject => decide (e.1 ≠ id)) rest := by
        simp [List.filter, h]
      have h2 : ¬ id = k1 := fun h3 => h h3.symm
      rw [hf, lookup_cons_ite, ih]
      simp [h2]

/-! ## Lemmas on the booking handler -/

theorem includesValue_singleton (userId : String) (x : JSValue) :
    includesValue [userId] x = true ↔ x = JSValue.str userId := by
  cases x <;> simp [includesValue]

theorem any_includes_iff (userId : String) (ps : List JSValue) :
    (ps.any fun x => includesValue [userId] x) = true ↔ JSValue.str userId ∈ ps := by
  rw [List.any_eq_true]
  constructor
  · rintro ⟨x, hx, hi⟩
    rw [includesValue_singleton] at hi
    rw [← hi]
    exact hx
  · intro h
    exact ⟨_, h, (includesValue_singleton userId _).2 rfl⟩

theorem any_includes_false (userId : String) (ps : List JSValue)
    (h : JSValue.str userId ∉ ps) : (ps.any fun x => includesValue [userId] x) = false := by
  cases hb : (ps.any fun x => includesValue [userId] x) with
  | false => rfl
  | true => exact absurd ((any_includes_iff userId ps).1 hb) h

theorem bookDecide_booked {doc : JSObject} {ps : List JSValue} {userId : String}
    (hp : getProp doc "passengers" = JSValue.arr ps) (hin : JSValue.str userId ∈ ps) :
    bookDecide (some doc) userId = Except.ok (BookStep.reply alreadyBookedResponse) := by
  have hany := (any_includes_iff userId ps).2 hin
  simp [bookDecide, hp, truthy, callIncludes, hany, alreadyBookedResponse]

theorem bookDecide_full {doc : JSObject} {ps : List JSValue} {a : ℚ} {userId : String}
    (hp : PassengersAre doc ps) (hnot : JSValue.str userId ∉ ps)
    (ha : getProp doc "availableSeats" = JSValue.num (JSNumber.fin a)) (hle : a ≤ 0) :
    bookDecide (some doc) userId = Except.ok (BookStep.reply seatsUnavailableResponse) := by
  rcases hp with hp | ⟨hp, _⟩
  · have hany := any_includes_false userId ps hnot
    simp [bookDecide, hp, truthy, callIncludes, hany, ha, toNumber, JSNumber.le, hle,
      seatsUnavailableResponse, convertThrows]
  · simp [bookDecide, hp, ha, toNumber, JSNumber.le, hle, seatsUnavailableResponse,
      convertThrows]

theorem bookDecide_free {doc : JSObject} {ps : List JSValue} {a : ℚ} {userId : String}
    (hp : PassengersAre doc ps) (hnot : JSValue.str userId ∉ ps)
    (ha : getProp doc "availableSeats" = JSValue.num (JSNumber.fin a)) (hpos : 0 < a) :
    bookDecide (some doc) userId = Except.ok (BookStep.write (bookingFields ps a userId)) := by
  have hnle : ¬ a ≤ 0 := not_le.2 hpos
  rcases hp with hp | ⟨hp, hnil⟩
  · have hany := any_includes_false userId ps hnot
    simp [bookDecide, hp, truthy, callIncludes, hany, ha, toNumber, JSNumber.le, hnle,
      spreadElements, JSNumber.pred, bookingFields, convertThrows]
  · subst hnil
    simp [bookDecide, hp, ha, toNumber, JSNumber.le, hnle, spreadElements, JSNumber.pred,
      bookingFields, convertThrows]

theorem book_of_reply {trips : Store} {tripId userId : String} {r : Response}
    (h : bookDecide (getDoc trips tripId) userId = Except.ok (BookStep.reply r)) :
    book trips tripId userId = (r, trips) := by
  simp [book, bookFinish, h]

theorem book_of_write {trips : Store} {tripId userId : String} {doc fields : JSObject}
    (hd : getDoc trips tripId = some doc)
    (h : bookDecide (getDoc trips tripId) userId = Except.ok (BookStep.write fields)) :
    (book trips tripId userId).1 = bookedResponse ∧
      ∀ id, getDoc (book trips tripId userId).2 id =
        if id = tripId then some (mergeFields doc fields) else getDoc trips id := by
  obtain ⟨s', hs'⟩ := updateDoc_of_getDoc fields hd
  have hb : book trips tripId userId = (bookedResponse, s') := by
    simp [book, bookFinish, h, hs', bookedResponse]
  rw [hb]
  refine ⟨rfl, fun id => ?_⟩
  rw [getDoc_updateDoc hs' id, hd]
  rfl

theorem book_other (trips : Store) (tripId userId id : String) (hne : id ≠ tripId) :
    getDoc (book trips tripId userId).2 id = getDoc trips id := by
  unfold book bookFinish
  cases hdec : bookDecide (getDoc trips tripId) userId with
  | error e => rfl
  | ok step =>
    cases step with
    | reply r => rfl
    | write fields =>
      cases hu : updateDoc trips tripId fields with
      | error e => simp [hu]
      | ok s' =>
        simp only [hu]
        rw [getDoc_updateDoc hu id]
        simp [hne]

theorem getProp_bookingFields_passengers (doc : JSObject) (ps : List JSValue) (a : ℚ)
    (userId : String) :
    getProp (mergeFields doc (bookingFields ps a userId)) "passengers" =
      JSValue.arr (ps ++ [JSValue.str userId]) := by
  rw [getProp_mergeFields]
  rfl

theorem getProp_bookingFields_seats (doc : JSObject) (ps : List JSValue) (a : ℚ)
    (userId : String) :
    getProp (mergeFields doc (bookingFields ps a userId)) "availableSeats" =
      JSValue.num (JSNumber.fin (a - 1)) := by
  rw [getProp_mergeFields]
  rfl

theorem getProp_bookingFields_other (doc : JSObject) (ps : List JSValue) (a : ℚ)
    (userId k : String) (h1 : k ≠ "passengers") (h2 : k ≠ "availableSeats") :
    getProp (mergeFields doc (bookingFields ps a userId)) k = getProp doc k := by
  rw [getProp_mergeFields]
  have : List.lookup k (bookingFields ps a userId) = none := by
    unfold bookingFields
    rw [lookup_cons_ite, lookup_cons_ite]
    simp [h1, h2]
  rw [this]

theorem book_preserves_seatInvariant (c : ℕ) (trips : Store) (tripId userId id : String)
    (doc : JSObject) (hd : getDoc trips id = some doc) (hinv : SeatInvariant c doc) :
    ∃ doc', getDoc (book trips tripId userId).2 id = some doc' ∧ SeatInvariant c doc' := by
  by_cases hid : id = tripId
  · subst hid
    obtain ⟨ps, a, hp, ha, hac, hnn⟩ := hinv
    by_cases hin : JSValue.str userId ∈ ps
    · have hdec : bookDecide (getDoc trips id) userId =
          Except.ok (BookStep.reply alreadyBookedResponse) := by
        rw [hd]; exact bookDecide_booked hp hin
      rw [book_of_reply hdec]
      exact ⟨doc, hd, ps, a, hp, ha, hac, hnn⟩
    · by_cases hle : a ≤ 0
      · have hdec : bookDecide (getDoc trips id) userId =
            Except.ok (BookStep.reply seatsUnavailableResponse) := by
          rw [hd]; exact bookDecide_full (Or.inl hp) hin ha hle
        rw [book_of_reply hdec]
        exact ⟨doc, hd, ps, a, hp, ha, hac, hnn⟩
      · have hpos : 0 < a := not_le.1 hle
        have hdec : bookDecide (getDoc trips id) userId =
            Except.ok (BookStep.write (bookingFields ps a userId)) := by
          rw [hd]; exact bookDecide_free (Or.inl hp) hin ha hpos
        obtain ⟨_, hget⟩ := book_of_write hd hdec
        refine ⟨mergeFields doc (bookingFields ps a userId), ?_, ps ++ [JSValue.str userId],
          a - 1, getProp_bookingFields_passengers _ _ _ _, getProp_bookingFields_seats _ _ _ _,
          ?_, ?_⟩
        · rw [hget id]; simp
        · rw [hac]; simp; ring
        · have hlt : (ps.length : ℚ) < (c : ℚ) := by rw [hac] at hpos; linarith
          have hlt' : ps.length < c := by exact_mod_cast hlt
          have hle' : ((ps.length + 1 : ℕ) : ℚ) ≤ (c : ℚ) := by exact_mod_cast hlt'
          rw [hac]; push_cast at hle'; linarith
  · rw [book_other trips tripId userId id hid]
    exact ⟨doc, hd, hinv⟩

theorem bookAll_preserves_seatInvariant (c : ℕ) (id : String) (calls : List (String × String)) :
    ∀ (trips : Store) (doc : JSObject), getDoc trips id = some doc → SeatInvariant c doc →
      ∃ doc', getDoc (bookAll trips calls) id = some doc' ∧ SeatInvariant c doc' := by
  induction calls with
  | nil => intro trips doc hd hinv; exact ⟨doc, hd, hinv⟩
  | cons call rest ih =>
    intro trips doc hd hinv
    obtain ⟨tripId, userId⟩ := call
    obtain ⟨doc1, hd1, hinv1⟩ := book_preserves_seatInvariant c trips tripId userId id doc hd hinv
    exact ih _ doc1 hd1 hinv1

/-! ## Lemmas on the validator -/

theorem checkTextFields_ne_error (body : JSObject) (fs : List (String × String)) (e : JSError) :
    checkTextFields body fs ≠ Except.error e := by
  induction fs with
  | nil => simp [checkTextFields]
  | cons f rest ih =>
    obtain ⟨field, name⟩ := f
    unfold checkTextFields
    cases hv : getProp body field <;> simp [isString, callTrim]
    split
    · simp
    · exact ih

theorem checkTextFields_status {body : JSObject} {fs : List (String × String)} {r : Response}
    (h : checkTextFields body fs = Except.ok (some r)) : r.status = 400 := by
  induction fs with
  | nil => simp [checkTextFields] at h
  | cons f rest ih =>
    obtain ⟨field, name⟩ := f
    unfold checkTextFields at h
    cases hv : getProp body field <;> rw [hv] at h <;> simp [isString, callTrim] at h
    all_goals first
      | (subst h; rfl)
      | skip
    split at h
    · simp at h; subst h; rfl
    · exact ih h

theorem validatePayment_ne_error (body : JSObject) (e : JSError) :
    validatePayment body ≠ Except.error e := by
  intro h
  unfold validatePayment at h
  simp only [] at h
  by_cases hc : (!isArray (getProp body "paymentMethods") ||
      lengthIsZero (getProp body "paymentMethods")) = true
  · rw [if_pos hc] at h; cases h
  · rw [if_neg hc] at h
    cases hp : getProp body "paymentMethods" with
    | arr xs =>
      rw [hp] at h
      simp only [callFilter] at h
      split_ifs at h
    | _ => rw [hp] at hc; simp [isArray] at hc

theorem validatePayment_status {body : JSObject} {r : Response}
    (h : validatePayment body = Except.ok (Outcome.respond r)) : r.status = 400 := by
  unfold validatePayment at h
  simp only [] at h
  by_cases hc : (!isArray (getProp body "paymentMethods") ||
      lengthIsZero (getProp body "paymentMethods")) = true
  · rw [if_pos hc] at h
    injection h with h; injection h with h; subst h; rfl
  · rw [if_neg hc] at h
    cases hp : getProp body "paymentMethods" with
    | arr xs =>
      rw [hp] at h
      simp only [callFilter] at h
      split_ifs at h
      all_goals first
        | (cases h; rfl)
        | cases h
    | _ => rw [hp] at hc; simp [isArray] at hc

theorem validateSchedule_status {clock : Clock} {body : JSObject} {r : Response}
    (h : validateSchedule clock body = Except.ok (Outcome.respond r)) : r.status = 400 := by
  unfold validateSchedule at h
  simp only [] at h
  split_ifs at h
  all_goals first
    | (cases h; rfl)
    | exact validatePayment_status h

theorem validateSchedule_error {clock : Clock} {body : JSObject} {e : JSError}
    (h : validateSchedule clock body = Except.error e) : e = conversionError := by
  unfold validateSchedule at h
  simp only [] at h
  split_ifs at h
  all_goals first
    | (cases h; rfl)
    | exact absurd h (validatePayment_ne_error _ _)

theorem validateDate_status {clock : Clock} {body : JSObject} {r : Response}
    (h : validateDate clock body = Except.ok (Outcome.respond r)) : r.status = 400 := by
  unfold validateDate at h
  simp only [] at h
  split_ifs at h
  all_goals first
    | (cases h; rfl)
    | exact validateSchedule_status h

theorem validateDate_error {clock : Clock} {body : JSObject} {e : JSError}
    (h : validateDate clock body = Except.error e) : e = conversionError := by
  unfold validateDate at h
  simp only [] at h
  split_ifs at h
  all_goals first
    | (cases h; rfl)
    | exact validateSchedule_error h

/-- The only exception the `try` block of `validateTrip` raises is that of a conversion. -/
theorem validateTripTry_error {clock : Clock} {body : JSObject} {e : JSError}
    (h : validateTripTry clock body = Except.error e) : e = conversionError := by
  unfold validateTripTry at h
  simp only [] at h
  by_cases hm : (requiredFields.filter fun field => !truthy (getProp body field)).length > 0
  · rw [if_pos hm] at h; cases h
  · rw [if_neg hm] at h
    cases hct : checkTextFields body textFields with
    | error e1 => exact absurd hct (checkTextFields_ne_error _ _ _)
    | ok o =>
      rw [hct] at h
      cases o with
      | some r1 => cases h
      | none =>
        simp only [] at h
        split_ifs at h
        all_goals first
          | (cases h; rfl)
          | exact validateDate_error h

theorem validateTripTry_status {clock : Clock} {body : JSObject} {r : Response}
    (h : validateTripTry clock body = Except.ok (Outcome.respond r)) : r.status = 400 := by
  unfold validateTripTry at h
  simp only [] at h
  by_cases hm : (requiredFields.filter fun field => !truthy (getProp body field)).length > 0
  · rw [if_pos hm] at h
    cases h; rfl
  · rw [if_neg hm] at h
    cases hct : checkTextFields body textFields with
    | error e1 => exact absurd hct (checkTextFields_ne_error _ _ _)
    | ok o =>
      rw [hct] at h
      cases o with
      | some r1 =>
        cases h
        exact checkTextFields_status hct
      | none =>
        simp only [] at h
        split_ifs at h
        all_goals first
          | (cases h; rfl)
          | exact validateDate_status h

theorem validateTrip_eq_next_iff (clock : Clock) (body : JSObject) :
    validateTrip clock body = Outcome.next ↔
      validateTripTry clock body = Except.ok Outcome.next := by
  unfold validateTrip
  cases h : validateTripTry clock body with
  | error e => simp
  | ok o => cases o <;> simp

/-- The cost checks of `validateTrip` pass (lines 80-94). -/
theorem cost_checks_iff (n : JSNumber) :
    ((n.isNaN || n.le (JSNumber.fin 0)) = false ∧
      (n.lt (JSNumber.fin 1000) || (JSNumber.fin 100000).lt n) = false) ↔
      ∃ c : ℚ, n = JSNumber.fin c ∧ 1000 ≤ c ∧ c ≤ 100000 := by
  cases n with
  | nan => simp [JSNumber.isNaN]
  | posInf => simp [JSNumber.isNaN, JSNumber.le, JSNumber.lt]
  | negInf => simp [JSNumber.isNaN, JSNumber.le, JSNumber.lt]
  | fin q =>
    simp only [JSNumber.isNaN, JSNumber.le, JSNumber.lt, Bool.false_or, decide_eq_false_iff_not,
      Bool.or_eq_false_iff, not_le, not_lt, JSNumber.fin.injEq, exists_eq_left']
    constructor
    · rintro ⟨_, h1, h2⟩
      exact ⟨h1, h2⟩
    · rintro ⟨h1, h2⟩
      exact ⟨by linarith, h1, h2⟩

/-- Acceptance by the `try` block, check by check. -/
theorem validateTripTry_next_iff (clock : Clock) (body : JSObject) :
    validateTripTry clock body = Except.ok Outcome.next ↔
      (requiredFields.filter fun field => !truthy (getProp body field)) = [] ∧
      checkTextFields body textFields = Except.ok none ∧
      (convertThrows (getProp body "cost") = false ∧
        ∃ c : ℚ, toNumber (getProp body "cost") = JSNumber.fin c ∧ 1000 ≤ c ∧ c ≤ 100000) ∧
      validateDate clock body = Except.ok Outcome.next := by
  rw [← cost_checks_iff]
  unfold validateTripTry
  simp only []
  by_cases hm : (requiredFields.filter fun field => !truthy (getProp body field)).length > 0
  · rw [if_pos hm]
    have hne : (requiredFields.filter fun field => !truthy (getProp body field)) ≠ [] :=
      List.length_pos.1 hm
    simp [hne]
  · rw [if_neg hm]
    have hnil : (requiredFields.filter fun field => !truthy (getProp body field)) = [] := by
      cases hl : (requiredFields.filter fun field => !truthy (getProp body field)) with
      | nil => rfl
      | cons a l => rw [hl] at hm; simp at hm
    cases hct : checkTextFields body textFields with
    | error e1 => exact absurd hct (checkTextFields_ne_error _ _ _)
    | ok o =>
      cases o with
      | some r1 => simp
      | none =>
        simp only []
        cases h0 : convertThrows (getProp body "cost") with
        | true => simp
        | false =>
          simp only [Bool.false_eq_true, if_false]
          by_cases h1 : ((toNumber (getProp body "cost")).isNaN ||
              (toNumber (getProp body "cost")).le (JSNumber.fin 0)) = true
          · rw [if_pos h1]; simp [h1]
          · rw [if_neg h1]
            by_cases h2 : ((toNumber (getProp body "cost")).lt (JSNumber.fin 1000) ||
                (JSNumber.fin 100000).lt (toNumber (getProp body "cost"))) = true
            · rw [if_pos h2]; simp [h2]
            · rw [if_neg h2]
              have h1' := Bool.eq_false_iff.2 h1
              have h2' := Bool.eq_false_iff.2 h2
              simp [hnil, h1', h2']

theorem hoursBetween_not_gt_three (x : Int) :
    ¬ ((3 : ℚ) < mkRat x (1000 * 60 * 60)) ↔ x ≤ 10800000 := by
  rw [Rat.mkRat_eq_div]
  push_cast
  rw [not_lt, div_le_iff₀ (by norm_num)]
  constructor
  · intro h
    have : (x : ℚ) ≤ 10800000 := by linarith
    exact_mod_cast this
  · intro h
    have : (x : ℚ) ≤ 10800000 := by exact_mod_cast h
    linarith

theorem timeTextInvalid_eq_false_iff (v : JSValue) :
    timeTextInvalid v = false ↔ convertThrows v = false ∧ timeRegexTest (toStr v) = true := by
  unfold timeTextInvalid
  cases convertThrows v <;> cases timeRegexTest (toStr v) <;> simp

/-- Acceptance by the time checks, check by check. -/
theorem validateSchedule_next_iff (clock : Clock) (body : JSObject) :
    validateSchedule clock body = Except.ok Outcome.next ↔
      timeTextInvalid (getProp body "departureTime") = false ∧
      timeTextInvalid (getProp body "arrivalTime") = false ∧
      (∃ dep arr : Int,
        timeOnTripDate clock body "departureTime" = some dep ∧
        timeOnTripDate clock body "arrivalTime" = some arr ∧
        clock.now ≤ dep ∧ dep < arr ∧ arr - dep ≤ 10800000) ∧
      validatePayment body = Except.ok Outcome.next := by
  rw [timeTextInvalid_eq_false_iff, timeTextInvalid_eq_false_iff]
  unfold validateSchedule
  simp only []
  cases hc1 : convertThrows (getProp body "departureTime") with
  | true => simp
  | false =>
  cases hr1 : timeRegexTest (toStr (getProp body "departureTime")) with
  | false => simp
  | true =>
  cases hc2 : convertThrows (getProp body "arrivalTime") with
  | true => simp
  | false =>
    cases hr2 : timeRegexTest (toStr (getProp body "arrivalTime")) with
    | false => simp
    | true =>
      cases hd : timeOnTripDate clock body "departureTime" with
      | none => simp
      | some dep =>
        cases ha : timeOnTripDate clock body "arrivalTime" with
        | none => simp
        | some arr =>
          simp only [Bool.not_true, Bool.or_self, Bool.false_eq_true, if_false,
            Option.isNone_some, dateLt, dateLe, hoursBetween, JSNumber.lt,
            decide_eq_true_eq, true_and, Option.some.injEq, exists_and_left,
            exists_eq_left', and_self]
          by_cases h1 : dep < clock.now
          · rw [if_pos h1]
            constructor
            · intro h; cases h
            · intro h; omega
          · rw [if_neg h1]
            by_cases h2 : arr ≤ dep
            · rw [if_pos h2]
              constructor
              · intro h; cases h
              · intro h; omega
            · rw [if_neg h2]
              by_cases h3 : (3 : ℚ) < mkRat (arr - dep) (1000 * 60 * 60)
              · rw [if_pos h3]
                have h3' : ¬ arr - dep ≤ 10800000 :=
                  fun hle => (hoursBetween_not_gt_three _).2 hle h3
                constructor
                · intro h; cases h
                · intro h; omega
              · rw [if_neg h3]
                have h3' := (hoursBetween_not_gt_three _).1 h3
                constructor
                · intro h
                  exact ⟨⟨by omega, by omega, h3'⟩, h⟩
                · intro h
                  exact h.2

/-- Acceptance by the date checks, check by check. -/
theorem validateDate_next_iff (clock : Clock) (body : JSObject) :
    validateDate clock body = Except.ok Outcome.next ↔
      (convertThrows (getProp body "tripDate") = false ∧
        dateRegexTest (toStr (getProp body "tripDate")) = true) ∧
      (∃ t : Int, newDate clock (getProp body "tripDate") = some t ∧ clock.now ≤ t) ∧
      validateSchedule clock body = Except.ok Outcome.next := by
  unfold validateDate
  simp only []
  cases hc : convertThrows (getProp body "tripDate") with
  | true => simp
  | false =>
  cases hr : dateRegexTest (toStr (getProp body "tripDate")) with
  | false => simp
  | true =>
    cases hd : newDate clock (getProp body "tripDate") with
    | none => simp
    | some t =>
      simp only [Bool.not_true, Bool.false_eq_true, if_false, Option.isNone_some, dateLt,
        decide_eq_true_eq, true_and, Option.some.injEq, exists_eq_left', and_self]
      by_cases h1 : t < clock.now
      · rw [if_pos h1]
        constructor
        · intro h; cases h
        · intro h; omega
      · rw [if_neg h1]
        constructor
        · intro h
          exact ⟨by omega, h⟩
        · intro h
          exact h.2

theorem missing_eq_nil_iff (body : JSObject) :
    (requiredFields.filter fun field => !truthy (getProp body field)) = [] ↔
      ∀ field ∈ requiredFields, truthy (getProp body field) = true := by
  rw [List.filter_eq_nil_iff]
  constructor
  · intro h field hf
    have := h field hf
    simpa using this
  · intro h field hf
    simp [h field hf]

/-- A value whose number lies within the cost bounds is truthy. -/
theorem truthy_of_cost_in_range (v : JSValue) (c : ℚ) (hv : toNumber v = JSNumber.fin c)
    (hc : 1000 ≤ c) : truthy v = true := by
  cases v with
  | undefined => simp [toNumber] at hv
  | null =>
    simp only [toNumber, JSNumber.fin.injEq] at hv
    rw [← hv] at hc; norm_num at hc
  | bool b =>
    cases b
    · simp only [toNumber, JSNumber.fin.injEq] at hv
      rw [← hv] at hc; norm_num at hc
    · rfl
  | num n =>
    cases n with
    | nan => simp [toNumber] at hv
    | fin q =>
      simp only [toNumber, JSNumber.fin.injEq] at hv
      subst hv
      have : q ≠ 0 := by intro h0; rw [h0] at hc; norm_num at hc
      simp [truthy, this]
    | posInf => rfl
    | negInf => rfl
  | str s =>
    by_cases hs : s = ""
    · subst hs
      have h0 : toNumber (JSValue.str "") = JSNumber.fin 0 := by decide
      rw [h0] at hv
      injection hv with hv
      rw [← hv] at hc; norm_num at hc
    · simp [truthy, hs]
  | arr xs => rfl
  | obj fields => rfl
  | date t => rfl

theorem checkTextFields_congr {b1 b2 : JSObject} (fs : List (String × String))
    (h : ∀ f ∈ fs, getProp b1 f.1 = getProp b2 f.1) :
    checkTextFields b1 fs = checkTextFields b2 fs := by
  induction fs with
  | nil => rfl
  | cons f rest ih =>
    obtain ⟨field, name⟩ := f
    have h1 : getProp b1 field = getProp b2 field := h (field, name) (by simp)
    have h2 : checkTextFields b1 rest = checkTextFields b2 rest :=
      ih fun f hf => h f (List.mem_cons_of_mem _ hf)
    unfold checkTextFields
    rw [h1, h2]

theorem validatePayment_congr {b1 b2 : JSObject} (h : AgreeExceptCost b1 b2) :
    validatePayment b1 = validatePayment b2 := by
  unfold validatePayment
  rw [h "paymentMethods" (by decide), h "routeTag" (by decide), h "affinity" (by decide),
    h "description" (by decide)]

theorem timeOnTripDate_congr {b1 b2 : JSObject} (clock : Clock) (timeField : String)
    (h : AgreeExceptCost b1 b2) (hf : timeField ≠ "cost") :
    timeOnTripDate clock b1 timeField = timeOnTripDate clock b2 timeField := by
  unfold timeOnTripDate
  rw [h "tripDate" (by decide), h timeField hf]

theorem validateSchedule_congr {b1 b2 : JSObject} (clock : Clock) (h : AgreeExceptCost b1 b2) :
    validateSchedule clock b1 = validateSchedule clock b2 := by
  unfold validateSchedule
  rw [h "arrivalTime" (by decide), h "departureTime" (by decide),
    timeOnTripDate_congr clock "departureTime" h (by decide),
    timeOnTripDate_congr clock "arrivalTime" h (by decide), validatePayment_congr h]

theorem validateDate_congr {b1 b2 : JSObject} (clock : Clock) (h : AgreeExceptCost b1 b2) :
    validateDate clock b1 = validateDate clock b2 := by
  unfold validateDate
  rw [h "tripDate" (by decide), validateSchedule_congr clock h]

/-- Between two payloads that differ at most in `cost`, one of them accepted, the other is
accepted exactly when its cost converts to a number within the bounds. -/
theorem validateTripTry_next_iff_of_agree {clock : Clock} {b1 b2 : JSObject}
    (h : AgreeExceptCost b1 b2) (h2 : validateTripTry clock b2 = Except.ok Outcome.next) :
    validateTripTry clock b1 = Except.ok Outcome.next ↔
      (convertThrows (getProp b1 "cost") = false ∧
        ∃ c : ℚ, toNumber (getProp b1 "cost") = JSNumber.fin c ∧ 1000 ≤ c ∧ c ≤ 100000) := by
  rw [validateTripTry_next_iff] at h2 ⊢
  obtain ⟨hm2, ht2, _, hd2⟩ := h2
  constructor
  · intro h1
    exact h1.2.2.1
  · rintro ⟨hthrow, c, hc, hlo, hhi⟩
    refine ⟨?_, ?_, ⟨hthrow, c, hc, hlo, hhi⟩, ?_⟩
    · rw [missing_eq_nil_iff] at hm2 ⊢
      intro field hf
      by_cases hcost : field = "cost"
      · subst hcost
        exact truthy_of_cost_in_range _ c hc hlo
      · rw [h field hcost]
        exact hm2 field hf
    · rw [@checkTextFields_congr b1 b2 textFields]
      · exact ht2
      · intro f hf
        apply h
        simp only [textFields, List.mem_cons, List.mem_singleton, List.not_mem_nil,
          or_false] at hf
        rcases hf with rfl | rfl <;> decide
    · rw [validateDate_congr clock h]
      exact hd2

theorem agreeExceptCost_setField (body : JSObject) (v : JSValue) :
    AgreeExceptCost (setField "cost" v body) body := by
  intro k hk
  rw [getProp_setField]
  simp [hk]

theorem agreeExceptCost_symm {b1 b2 : JSObject} (h : AgreeExceptCost b1 b2) :
    AgreeExceptCost b2 b1 := fun k hk => (h k hk).symm

theorem agreeExceptCost_trans {b1 b2 b3 : JSObject} (h12 : AgreeExceptCost b1 b2)
    (h23 : AgreeExceptCost b2 b3) : AgreeExceptCost b1 b3 :=
  fun k hk => (h12 k hk).trans (h23 k hk)

theorem getProp_setField_cost (body : JSObject) (v : JSValue) :
    getProp (setField "cost" v body) "cost" = v := by
  rw [getProp_setField]
  simp

/-- The validator hands the request on, answers with status 400, or answers a conversion that
raised with its status 500 response. -/
theorem validateTrip_next_or_400_or_500 (clock : Clock) (body : JSObject) :
    validateTrip clock body = Outcome.next ∨
      (∃ r, validateTrip clock body = Outcome.respond r ∧ r.status = 400) ∨
      (validateTripTry clock body = Except.error conversionError ∧
        validateTrip clock body = Outcome.respond conversionErrorResponse) := by
  unfold validateTrip
  cases h : validateTripTry clock body with
  | error e =>
    have he := validateTripTry_error h
    subst he
    exact Or.inr (Or.inr ⟨rfl, rfl⟩)
  | ok o =>
    cases o with
    | next => exact Or.inl rfl
    | respond r => exact Or.inr (Or.inl ⟨r, rfl, validateTripTry_status h⟩)

theorem validateTrip_respond_status {clock : Clock} {body : JSObject} {r : Response}
    (h : validateTrip clock body = Outcome.respond r) : r.status = 400 ∨ r.status = 500 := by
  rcases validateTrip_next_or_400_or_500 clock body with hn | ⟨r', hr', hs⟩ | ⟨_, hr'⟩
  · rw [hn] at h; cases h
  · rw [hr'] at h; injection h with h; subst h; exact Or.inl hs
  · rw [hr'] at h; injection h with h; subst h; exact Or.inr rfl

/-! ## Lemmas on trip creation -/

/-- The conversions of `POST /` raise nothing on an accepted payload: the validator has made
them before. -/
theorem convertThrows_of_next {clock : Clock} {body : JSObject}
    (hv : validateTrip clock body = Outcome.next) :
    (convertThrows (getProp body "tripDate") || convertThrows (getProp body "cost")) = false := by
  rw [validateTrip_eq_next_iff, validateTripTry_next_iff] at hv
  have hc := hv.2.2.1.1
  have hd := hv.2.2.2
  rw [validateDate_next_iff] at hd
  rw [hd.1.1, hc]
  rfl

theorem createTrip_created {clock : Clock} {users trips : Store} {newId userId : String}
    {body userData : JSObject} (huser : getDoc users userId = some userData)
    (hcreated : (createTrip clock users trips newId userId body).1.status = 201) :
    validateTrip clock body = Outcome.next ∧
      (createTrip clock users trips newId userId body).2 =
        addDoc trips newId (newTrip clock userId userData body) := by
  unfold createTrip at hcreated ⊢
  cases hv : validateTrip clock body with
  | respond r =>
    exfalso
    rw [hv] at hcreated
    have h400 := validateTrip_respond_status hv
    simp only [] at hcreated
    omega
  | next =>
    rw [hv] at hcreated
    refine ⟨rfl, ?_⟩
    have hguard := convertThrows_of_next hv
    simp only [createTripHandler, huser] at hcreated ⊢
    by_cases hveh : truthy (getProp userData "vehicle") = true
    · simp only [hveh, hguard, Bool.not_true, Bool.false_eq_true, if_false] at hcreated ⊢
      split
      · rfl
      · split <;> rfl
    · exfalso
      simp [hveh, failure] at hcreated

theorem getProp_newTrip_passengers (clock : Clock) (userId : String) (userData body : JSObject) :
    getProp (newTrip clock userId userData body) "passengers" = JSValue.arr [] := by
  rfl

theorem getProp_newTrip_availableSeats (clock : Clock) (userId : String)
    (userData body : JSObject) :
    getProp (newTrip clock userId userData body) "availableSeats" =
      getMember (getProp userData "vehicle") "availableSeats" := by
  rfl

theorem getDoc_createTrip {clock : Clock} {users trips : Store} {newId userId : String}
    {body userData : JSObject} (hfresh : getDoc trips newId = none)
    (huser : getDoc users userId = some userData)
    (hcreated : (createTrip clock users trips newId userId body).1.status = 201) :
    getDoc (createTrip clock users trips newId userId body).2 newId =
      some (newTrip clock userId userData body) := by
  rw [(createTrip_created huser hcreated).2, getDoc_addDoc, hfresh]
  simp

theorem occurrences_append_new (userId : String) (ps : List JSValue)
    (hnot : JSValue.str userId ∉ ps) :
    occurrences userId (ps ++ [JSValue.str userId]) = 1 := by
  unfold occurrences
  rw [List.countP_append]
  have h0 : List.countP (fun x => includesValue [userId] x) ps = 0 := by
    rw [List.countP_eq_zero]
    intro x hx hi
    rw [includesValue_singleton] at hi
    rw [hi] at hx
    exact hnot hx
  have h1 : List.countP (fun x => includesValue [userId] x) [JSValue.str userId] = 1 := by
    simp [List.countP_cons, includesValue]
  rw [h0, h1]

/-- A booking of a free seat by a user who is not a passenger: the response, and the trip
afterwards. -/
theorem book_free {trips : Store} {tripId userId : String} {doc : JSObject}
    {ps : List JSValue} {a : ℚ} (hd : getDoc trips tripId = some doc)
    (hp : PassengersAre doc ps) (hnot : JSValue.str userId ∉ ps)
    (ha : getProp doc "availableSeats" = JSValue.num (JSNumber.fin a)) (hpos : 0 < a) :
    (book trips tripId userId).1 = bookedResponse ∧
      getDoc (book trips tripId userId).2 tripId =
        some (mergeFields doc (bookingFields ps a userId)) := by
  have hdec : bookDecide (getDoc trips tripId) userId =
      Except.ok (BookStep.write (bookingFields ps a userId)) := by
    rw [hd]; exact bookDecide_free hp hnot ha hpos
  obtain ⟨hr, hget⟩ := book_of_write hd hdec
  refine ⟨hr, ?_⟩
  rw [hget tripId]; simp

/-- A booking by a user who is already a passenger. -/
theorem book_booked {trips : Store} {tripId userId : String} {doc : JSObject}
    {ps : List JSValue} (hd : getDoc trips tripId = some doc)
    (hp : getProp doc "passengers" = JSValue.arr ps) (hin : JSValue.str userId ∈ ps) :
    book trips tripId userId = (alreadyBookedResponse, trips) := by
  apply book_of_reply
  rw [hd]; exact bookDecide_booked hp hin

/-- A booking on a trip without free seats by a user who is not a passenger. -/
theorem book_full {trips : Store} {tripId userId : String} {doc : JSObject}
    {ps : List JSValue} {a : ℚ} (hd : getDoc trips tripId = some doc)
    (hp : PassengersAre doc ps) (hnot : JSValue.str userId ∉ ps)
    (ha : getProp doc "availableSeats" = JSValue.num (JSNumber.fin a)) (hle : a ≤ 0) :
    book trips tripId userId = (seatsUnavailableResponse, trips) := by
  apply book_of_reply
  rw [hd]; exact bookDecide_full hp hnot ha hle

/-! ## Lemmas on concurrent bookings -/

theorem mem_set_of_mem_ne {α : Type} {l : List α} {i : Nat} {x y t : α}
    (hget : l.get? i = some x) (ht : t ∈ l) (hne : t ≠ x) : t ∈ l.set i y := by
  induction l generalizing i with
  | nil => cases ht
  | cons a rest ih =>
    cases i with
    | zero =>
      simp only [List.get?, Option.some.injEq] at hget
      subst hget
      simp only [List.set, List.mem_cons] at ht ⊢
      rcases ht with h | h
      · exact absurd h hne
      · exact Or.inr h
    | succ j =>
      simp only [List.get?] at hget
      simp only [List.set, List.mem_cons] at ht ⊢
      rcases ht with h | h
      · exact Or.inl h
      · exact Or.inr (ih hget h)

theorem mem_set_self_of_get {α : Type} {l : List α} {i : Nat} {x : α} (y : α)
    (hget : l.get? i = some x) : y ∈ l.set i y := by
  induction l generalizing i with
  | nil => cases hget
  | cons a rest ih =>
    cases i with
    | zero => simp [List.set]
    | succ j =>
      simp only [List.get?] at hget
      simp only [List.set, List.mem_cons]
      exact Or.inr (ih hget)

theorem set_get_self {α : Type} {l : List α} {i : Nat} {x : α}
    (hget : l.get? i = some x) : l.set i x = l := by
  induction l generalizing i with
  | nil => rfl
  | cons a rest ih =>
    cases i with
    | zero =>
      simp only [List.get?, Option.some.injEq] at hget
      subst hget
      rfl
    | succ j =>
      simp only [List.get?] at hget
      simp only [List.set]
      rw [ih hget]

theorem mem_of_get {α : Type} {l : List α} {i : Nat} {x : α}
    (hget : l.get? i = some x) : x ∈ l := by
  induction l generalizing i with
  | nil => cases hget
  | cons a rest ih =>
    cases i with
    | zero =>
      simp only [List.get?, Option.some.injEq] at hget
      subst hget
      simp
    | succ j =>
      simp only [List.get?] at hget
      exact List.mem_cons_of_mem _ (ih hget)

theorem seatFree_not_taken {d : JSObject} (hf : SeatFree d) (ht : SeatTaken d) : False := by
  obtain ⟨u, _, h0⟩ := ht
  have h := hf.2
  rw [h0] at h
  injection h with h
  injection h with h
  norm_num at h

theorem bookFinish_free {trips : Store} {tripId userId : String} {doc d : JSObject}
    (hd : getDoc trips tripId = some doc) (hf : SeatFree d) :
    (bookFinish trips tripId userId (some d)).1 = bookedResponse ∧
      ∃ doc', getDoc (bookFinish trips tripId userId (some d)).2 tripId = some doc' ∧
        SeatTaken doc' := by
  have hdec : bookDecide (some d) userId =
      Except.ok (BookStep.write (bookingFields [] 1 userId)) :=
    bookDecide_free (Or.inl hf.1) (by simp) hf.2 (by norm_num)
  obtain ⟨s', hs'⟩ := updateDoc_of_getDoc (bookingFields [] 1 userId) hd
  have hb : bookFinish trips tripId userId (some d) = (bookedResponse, s') := by
    simp [bookFinish, hdec, hs', bookedResponse]
  rw [hb]
  refine ⟨rfl, mergeFields doc (bookingFields [] 1 userId), ?_, userId, ?_, ?_⟩
  · show getDoc s' tripId = _
    rw [getDoc_updateDoc hs' tripId, hd]; simp
  · exact getProp_bookingFields_passengers _ _ _ _
  · rw [getProp_bookingFields_seats]; norm_num

theorem bookFinish_taken {trips : Store} {tripId userId : String} {d : JSObject}
    (ht : SeatTaken d) :
    (bookFinish trips tripId userId (some d)).2 = trips ∧
      ((bookFinish trips tripId userId (some d)).1 = seatsUnavailableResponse ∨
        (bookFinish trips tripId userId (some d)).1 = alreadyBookedResponse) := by
  obtain ⟨u, hp, ha⟩ := ht
  by_cases hu : u = userId
  · subst hu
    have hdec : bookDecide (some d) u = Except.ok (BookStep.reply alreadyBookedResponse) :=
      bookDecide_booked hp (by simp)
    have hb : bookFinish trips tripId u (some d) = (alreadyBookedResponse, trips) := by
      simp [bookFinish, hdec]
    rw [hb]; exact ⟨rfl, Or.inr rfl⟩
  · have hnot : JSValue.str userId ∉ [JSValue.str u] := by
      simp; exact fun h => hu h.symm
    have hdec : bookDecide (some d) userId =
        Except.ok (BookStep.reply seatsUnavailableResponse) :=
      bookDecide_full (Or.inl hp) hnot ha (le_refl 0)
    have hb : bookFinish trips tripId userId (some d) = (seatsUnavailableResponse, trips) := by
      simp [bookFinish, hdec]
    rw [hb]; exact ⟨rfl, Or.inl rfl⟩

theorem stepSystem_inv {tripId : String} {sys : BookSystem} (i : Nat)
    (hinv : OneSeatInv tripId sys) : OneSeatInv tripId (stepSystem tripId sys i) := by
  unfold stepSystem
  cases hget : sys.tasks.get? i with
  | none => exact hinv
  | some ut =>
    obtain ⟨userId, task⟩ := ut
    obtain ⟨doc, hd, hok, hstate⟩ := hinv
    have hmem := mem_of_get hget
    cases task with
    | start =>
      refine ⟨doc, hd, ?_, ?_⟩
      · intro t ht
        rcases List.mem_or_eq_of_mem_set ht with h | h
        · exact hok t h
        · subst h
          rcases hstate with ⟨hf, _⟩ | ⟨htk, _⟩
          · exact ⟨doc, hd, Or.inl hf⟩
          · exact ⟨doc, hd, Or.inr htk⟩
      · rcases hstate with ⟨hf, hearly⟩ | ⟨htk, t, ht, hdone⟩
        · refine Or.inl ⟨hf, fun t ht => ?_⟩
          rcases List.mem_or_eq_of_mem_set ht with h | h
          · exact hearly t h
          · subst h
            exact ⟨doc, hd, hf⟩
        · refine Or.inr ⟨htk, t, mem_set_of_mem_ne hget ht ?_, hdone⟩
          intro h
          rw [h] at hdone
          cases hdone
    | holding snapshot =>
      obtain ⟨d, hsnap, hgood⟩ := hok _ hmem
      subst hsnap
      rcases hgood with hfd | htd
      · obtain ⟨hr, doc', hd', htk'⟩ := @bookFinish_free sys.trips tripId userId doc d hd hfd
        refine ⟨doc', hd', ?_, Or.inr ⟨htk', _, mem_set_self_of_get _ hget, ?_⟩⟩
        · intro t ht
          rcases List.mem_or_eq_of_mem_set ht with h | h
          · exact hok t h
          · subst h
            exact Or.inl hr
        · show BookTask.done _ = _
          rw [hr]
      · obtain ⟨hs, hr⟩ := @bookFinish_taken sys.trips tripId userId d htd
        refine ⟨doc, ?_, ?_, ?_⟩
        · show getDoc (bookFinish sys.trips tripId userId (some d)).2 tripId = _
          rw [hs]; exact hd
        · intro t ht
          rcases List.mem_or_eq_of_mem_set ht with h | h
          · exact hok t h
          · subst h
            rcases hr with hr | hr
            · exact Or.inr (Or.inl hr)
            · exact Or.inr (Or.inr hr)
        · rcases hstate with ⟨_, hearly⟩ | ⟨htk, t, ht, hdone⟩
          · obtain ⟨d', hd', hfd'⟩ := hearly _ hmem
            injection hd' with hd'
            subst hd'
            exact absurd htd (fun h => seatFree_not_taken hfd' h)
          · refine Or.inr ⟨htk, t, mem_set_of_mem_ne hget ht ?_, hdone⟩
            intro h
            rw [h] at hdone
            cases hdone
    | done r =>
      have hset : sys.tasks.set i (userId, BookTask.done r) = sys.tasks := set_get_self hget
      refine ⟨doc, hd, ?_, ?_⟩
      · intro t ht
        have ht' : t ∈ sys.tasks := by
          have := ht
          simp only [stepTask] at this
          rw [hset] at this
          exact this
        exact hok t ht'
      · rcases hstate with ⟨_, hearly⟩ | ⟨htk, t, ht, hdone⟩
        · exact absurd (hearly _ hmem) (fun h => h)
        · refine Or.inr ⟨htk, t, ?_, hdone⟩
          simp only [stepTask]
          rw [hset]
          exact ht

theorem runSchedule_inv {tripId : String} (schedule : List Nat) :
    ∀ sys : BookSystem, OneSeatInv tripId sys →
      OneSeatInv tripId (runSchedule tripId sys schedule) := by
  induction schedule with
  | nil => intro sys h; exact h
  | cons i rest ih => intro sys h; exact ih _ (stepSystem_inv i h)

theorem stepSystem_length (tripId : String) (sys : BookSystem) (i : Nat) :
    (stepSystem tripId sys i).tasks.length = sys.tasks.length := by
  unfold stepSystem
  cases hget : sys.tasks.get? i with
  | none => rfl
  | some ut => simp

theorem runSchedule_length (tripId : String) (schedule : List Nat) :
    ∀ sys : BookSystem, (runSchedule tripId sys schedule).tasks.length = sys.tasks.length := by
  induction schedule with
  | nil => intro sys; rfl
  | cons i rest ih =>
    intro sys
    show (runSchedule tripId (stepSystem tripId sys i) rest).tasks.length = _
    rw [ih, stepSystem_length]

theorem startSystem_inv {trips : Store} {tripId : String} {doc : JSObject}
    (users : List String) (hd : getDoc trips tripId = some doc) (hf : SeatFree doc) :
    OneSeatInv tripId (startSystem trips users) := by
  refine ⟨doc, hd, ?_, Or.inl ⟨hf, ?_⟩⟩
  · intro t ht
    simp only [startSystem, List.mem_map] at ht
    obtain ⟨u, _, rfl⟩ := ht
    trivial
  · intro t ht
    simp only [startSystem, List.mem_map] at ht
    obtain ⟨u, _, rfl⟩ := ht
    trivial

/-! ## Lemmas on update and delete -/

theorem strictNeStr_iff (v : JSValue) (userId : String) :
    strictNeStr v userId = true ↔ v ≠ JSValue.str userId := by
  cases v <;> simp [strictNeStr]

theorem lookup_updatedData (clock : Clock) (body : JSObject) (k : String)
    (h1 : k ≠ "routeTag") (h2 : k ≠ "updatedAt") :
    (updatedData clock body).lookup k = body.lookup k := by
  unfold updatedData
  rw [lookup_setField, lookup_setField]
  simp [h1, h2]

/-- A successful `PUT /:id`: the payload was accepted, the caller owns the trip, and the trip
is the old one merged with `updatedData`. -/
theorem updateTrip_success {clock : Clock} {trips : Store} {tripId userId : String}
    {body doc : JSObject} (hd : getDoc trips tripId = some doc)
    (hok : (updateTrip clock trips tripId userId body).1.status = 200) :
    validateTrip clock body = Outcome.next ∧
      getProp doc "driverId" = JSValue.str userId ∧
      getDoc (updateTrip clock trips tripId userId body).2 tripId =
        some (mergeFields doc (updatedData clock body)) := by
  unfold updateTrip at hok ⊢
  cases hv : validateTrip clock body with
  | respond r =>
    exfalso
    rw [hv] at hok
    have h400 := validateTrip_respond_status hv
    simp only [] at hok
    omega
  | next =>
    rw [hv] at hok
    simp only [updateTripHandler, hd] at hok ⊢
    by_cases hne : strictNeStr (getProp doc "driverId") userId = true
    · exfalso
      rw [if_pos hne] at hok
      simp [failure] at hok
    · rw [if_neg hne] at hok ⊢
      obtain ⟨s', hs'⟩ := updateDoc_of_getDoc (updatedData clock body) hd
      rw [hs']
      refine ⟨trivial, ?_, ?_⟩
      · by_contra hcon
        exact hne ((strictNeStr_iff _ _).2 hcon)
      · show getDoc s' tripId = _
        rw [getDoc_updateDoc hs' tripId, hd]; simp

/-- A `PUT /:id` by the owner with an accepted payload succeeds and merges `updatedData` into
the trip. -/
theorem updateTrip_by_owner {clock : Clock} {trips : Store} {tripId userId : String}
    {body doc : JSObject} (hd : getDoc trips tripId = some doc)
    (hv : validateTrip clock body = Outcome.next)
    (hown : getProp doc "driverId" = JSValue.str userId) :
    (updateTrip clock trips tripId userId body).1.status = 200 ∧
      getDoc (updateTrip clock trips tripId userId body).2 tripId =
        some (mergeFields doc (updatedData clock body)) := by
  have hne : ¬ strictNeStr (getProp doc "driverId") userId = true := by
    rw [strictNeStr_iff]
    exact fun h => h hown
  obtain ⟨s', hs'⟩ := updateDoc_of_getDoc (updatedData clock body) hd
  have hupd : updateTrip clock trips tripId userId body =
      (success 200 "Viaje actualizado exitosamente" [], s') := by
    unfold updateTrip
    rw [hv]
    simp only [updateTripHandler, hd]
    rw [if_neg hne, hs']
  rw [hupd]
  refine ⟨rfl, ?_⟩
  show getDoc s' tripId = _
  rw [getDoc_updateDoc hs' tripId, hd]; simp

theorem getProp_update_kept (clock : Clock) (doc body : JSObject) (k : String)
    (h1 : k ≠ "routeTag") (h2 : k ≠ "updatedAt") (hk : body.lookup k = none) :
    getProp (mergeFields doc (updatedData clock body)) k = getProp doc k := by
  rw [getProp_mergeFields, lookup_updatedData clock body k h1 h2, hk]

theorem getProp_update_written (clock : Clock) (doc body : JSObject) (k : String) (v : JSValue)
    (h1 : k ≠ "routeTag") (h2 : k ≠ "updatedAt") (hk : body.lookup k = some v) :
    getProp (mergeFields doc (updatedData clock body)) k = v := by
  rw [getProp_mergeFields, lookup_updatedData clock body k h1 h2, hk]

/-! ## Lemmas on the required fields -/

theorem truthy_getProp_absent (body : JSObject) (k : String) (h : body.lookup k = none) :
    truthy (getProp body k) = false := by
  unfold getProp
  rw [h]
  rfl

theorem validateTrip_missing {clock : Clock} {body : JSObject}
    (h : (requiredFields.filter fun field => !truthy (getProp body field)) ≠ []) :
    validateTrip clock body = Outcome.respond (missingFieldsResponse
      (requiredFields.filter fun field => !truthy (getProp body field))) := by
  have hlen : (requiredFields.filter fun field => !truthy (getProp body field)).length > 0 :=
    List.length_pos.2 h
  unfold validateTrip validateTripTry
  simp only []
  rw [if_pos hlen]
  rfl

/-! ## Claims -/

/-- C1. Seat-accounting invariant under sequential use: a trip created by `POST /trips` from a
vehicle whose capacity `c` is a non-negative integer satisfies
`availableSeats = c - |passengers|` and `availableSeats >= 0` after every call of every finite
sequence of sequential booking calls, successful or not (`n` counts the calls made so far). -/
theorem seat_accounting_sequential (clock : Clock) (users trips : Store)
    (newId driverId : String) (body userData : JSObject) (c : ℕ)
    (calls : List (String × String))
    (hfresh : getDoc trips newId = none)
    (huser : getDoc users driverId = some userData)
    (hcap : getMember (getProp userData "vehicle") "availableSeats" =
      JSValue.num (JSNumber.fin (c : ℚ)))
    (hcreated : (createTrip clock users trips newId driverId body).1.status = 201) :
    ∀ n, ∃ doc,
      getDoc (bookAll (createTrip clock users trips newId driverId body).2 (calls.take n)) newId
        = some doc ∧ SeatInvariant c doc := by
  intro n
  refine bookAll_preserves_seatInvariant c newId (calls.take n) _ _
    (getDoc_createTrip hfresh huser hcreated) ?_
  refine ⟨[], (c : ℚ), getProp_newTrip_passengers _ _ _ _, ?_, by simp, by positivity⟩
  rw [getProp_newTrip_availableSeats, hcap]

/-- C1 at the sample driver (two seats) after four booking calls, one of them on another
trip. -/
theorem seat_accounting_sequential_witness :
    ∃ doc,
      getDoc (bookAll (createTrip sampleClock sampleUsers [] "t1" "d1" sampleBody).2
        ([("t1", "A"), ("t1", "B"), ("t2", "C"), ("t1", "C")].take 4)) "t1"
        = some doc ∧ SeatInvariant 2 doc :=
  seat_accounting_sequential sampleClock sampleUsers [] "t1" "d1" sampleBody sampleDriver 2
    [("t1", "A"), ("t1", "B"), ("t2", "C"), ("t1", "C")] rfl rfl rfl (by decide) 4

/-- C2. Booking idempotence: on an existing trip with `availableSeats > 0` and a user who is
not in `passengers`, two booking calls in sequence answer 200 and then the AlreadyBooked
refusal (400); afterwards `availableSeats` is exactly one less than before the first call and
the user occurs exactly once in `passengers`. -/
theorem booking_idempotent (trips : Store) (tripId userId : String) (doc : JSObject)
    (ps : List JSValue) (a : ℚ)
    (hd : getDoc trips tripId = some doc)
    (hp : PassengersAre doc ps) (hnot : JSValue.str userId ∉ ps)
    (ha : getProp doc "availableSeats" = JSValue.num (JSNumber.fin a)) (hpos : 0 < a) :
    (book trips tripId userId).1 = bookedResponse ∧
      (book (book trips tripId userId).2 tripId userId).1 = alreadyBookedResponse ∧
      bookedResponse.status = 200 ∧ alreadyBookedResponse.status = 400 ∧
      ∃ doc' ps',
        getDoc (book (book trips tripId userId).2 tripId userId).2 tripId = some doc' ∧
        getProp doc' "availableSeats" = JSValue.num (JSNumber.fin (a - 1)) ∧
        getProp doc' "passengers" = JSValue.arr ps' ∧
        occurrences userId ps' = 1 := by
  obtain ⟨hr1, hget1⟩ := book_free hd hp hnot ha hpos
  have hp1 := getProp_bookingFields_passengers doc ps a userId
  have hin1 : JSValue.str userId ∈ ps ++ [JSValue.str userId] := by simp
  have h2 := book_booked hget1 hp1 hin1
  refine ⟨hr1, ?_, rfl, rfl, mergeFields doc (bookingFields ps a userId),
    ps ++ [JSValue.str userId], ?_, getProp_bookingFields_seats _ _ _ _, hp1,
    occurrences_append_new userId ps hnot⟩
  · rw [h2]
  · rw [h2]; exact hget1

/-- C2 at a trip with two free seats and no passengers. -/
theorem booking_idempotent_witness :
    (book [("t1", sampleTrip)] "t1" "A").1 = bookedResponse ∧
      (book (book [("t1", sampleTrip)] "t1" "A").2 "t1" "A").1 = alreadyBookedResponse ∧
      bookedResponse.status = 200 ∧ alreadyBookedResponse.status = 400 ∧
      ∃ doc' ps',
        getDoc (book (book [("t1", sampleTrip)] "t1" "A").2 "t1" "A").2 "t1" = some doc' ∧
        getProp doc' "availableSeats" = JSValue.num (JSNumber.fin (2 - 1)) ∧
        getProp doc' "passengers" = JSValue.arr ps' ∧
        occurrences "A" ps' = 1 :=
  booking_idempotent [("t1", sampleTrip)] "t1" "A" sampleTrip [] 2 rfl (Or.inl rfl)
    (by simp) rfl (by norm_num)

/-- C3. Full trip refusal: on an existing trip with `availableSeats <= 0`, a booking by a user
who is not in `passengers` is refused with SeatsUnavailable (400) and the store is left
unchanged; and on a trip created with capacity 2 and booked by `A` then `B`, a third booking by
`C` is refused, the final state being `passengers = [A, B]`, `availableSeats = 0`. -/
theorem full_trip_refusal :
    (∀ (trips : Store) (tripId userId : String) (doc : JSObject) (ps : List JSValue) (a : ℚ),
      getDoc trips tripId = some doc → PassengersAre doc ps → JSValue.str userId ∉ ps →
      getProp doc "availableSeats" = JSValue.num (JSNumber.fin a) → a ≤ 0 →
      book trips tripId userId = (seatsUnavailableResponse, trips) ∧
        seatsUnavailableResponse.status = 400) ∧
    (∀ (clock : Clock) (users trips : Store) (newId driverId : String)
      (body userData : JSObject) (A B C : String),
      getDoc trips newId = none → getDoc users driverId = some userData →
      getMember (getProp userData "vehicle") "availableSeats" = JSValue.num (JSNumber.fin 2) →
      (createTrip clock users trips newId driverId body).1.status = 201 →
      A ≠ B → C ≠ A → C ≠ B →
      ∃ s1 s2 doc,
        book (createTrip clock users trips newId driverId body).2 newId A = (bookedResponse, s1) ∧
        book s1 newId B = (bookedResponse, s2) ∧
        book s2 newId C = (seatsUnavailableResponse, s2) ∧
        getDoc s2 newId = some doc ∧
        getProp doc "passengers" = JSValue.arr [JSValue.str A, JSValue.str B] ∧
        getProp doc "availableSeats" = JSValue.num (JSNumber.fin 0)) := by
  constructor
  · intro trips tripId userId doc ps a hd hp hnot ha hle
    exact ⟨book_full hd hp hnot ha hle, rfl⟩
  · intro clock users trips newId driverId body userData A B C hfresh huser hcap hcreated
      hAB hCA hCB
    have hd0 := getDoc_createTrip hfresh huser hcreated
    have hp0 : PassengersAre (newTrip clock driverId userData body) [] :=
      Or.inl (getProp_newTrip_passengers _ _ _ _)
    have ha0 : getProp (newTrip clock driverId userData body) "availableSeats" =
        JSValue.num (JSNumber.fin 2) := by
      rw [getProp_newTrip_availableSeats, hcap]
    obtain ⟨hr1, hget1⟩ := book_free hd0 hp0 (show JSValue.str A ∉ [] by simp) ha0 (by norm_num)
    have hp1 := getProp_bookingFields_passengers (newTrip clock driverId userData body) [] 2 A
    have ha1 := getProp_bookingFields_seats (newTrip clock driverId userData body) [] 2 A
    have hBnot : JSValue.str B ∉ [] ++ [JSValue.str A] := by
      simp; exact fun h => hAB h.symm
    obtain ⟨hr2, hget2⟩ := book_free hget1 (Or.inl hp1) hBnot ha1 (by norm_num)
    have hp2 := getProp_bookingFields_passengers
      (mergeFields (newTrip clock driverId userData body) (bookingFields [] 2 A))
      ([] ++ [JSValue.str A]) (2 - 1) B
    have ha2 := getProp_bookingFields_seats
      (mergeFields (newTrip clock driverId userData body) (bookingFields [] 2 A))
      ([] ++ [JSValue.str A]) (2 - 1) B
    have hCnot : JSValue.str C ∉ ([] ++ [JSValue.str A]) ++ [JSValue.str B] := by
      simp; exact ⟨hCA, hCB⟩
    have h3 := book_full hget2 (Or.inl hp2) hCnot ha2 (by norm_num)
    refine ⟨_, _, _, Prod.ext hr1 rfl, Prod.ext hr2 rfl, h3, hget2, ?_, ?_⟩
    · rw [hp2]; rfl
    · rw [ha2]; norm_num

/-- C3 at a full sample trip, and at the sample driver (two seats) with passengers `A`, `B`
and `C`. -/
theorem full_trip_refusal_witness :
    (book [("t1", sampleFullTrip)] "t1" "B" = (seatsUnavailableResponse, [("t1", sampleFullTrip)])
        ∧ seatsUnavailableResponse.status = 400) ∧
    (∃ s1 s2 doc,
        book (createTrip sampleClock sampleUsers [] "t1" "d1" sampleBody).2 "t1" "A"
          = (bookedResponse, s1) ∧
        book s1 "t1" "B" = (bookedResponse, s2) ∧
        book s2 "t1" "C" = (seatsUnavailableResponse, s2) ∧
        getDoc s2 "t1" = some doc ∧
        getProp doc "passengers" = JSValue.arr [JSValue.str "A", JSValue.str "B"] ∧
        getProp doc "availableSeats" = JSValue.num (JSNumber.fin 0)) :=
  ⟨full_trip_refusal.1 [("t1", sampleFullTrip)] "t1" "B" sampleFullTrip [JSValue.str "A"] 0
      rfl (Or.inl rfl) (by simp) rfl (le_refl 0),
    full_trip_refusal.2 sampleClock sampleUsers [] "t1" "d1" sampleBody sampleDriver
      "A" "B" "C" rfl rfl rfl (by decide) (by decide) (by decide) (by decide)⟩

/-- C4, counterexample. Two concurrent bookings of a one-seat trip by the distinct users `A`
and `B`, both reading before either writes: both requests are answered and both with status
200, so there is not exactly one success. -/
theorem concurrent_booking_two_successes :
    allDone sampleRace = true ∧ successCount sampleRace = 2 ∧ successCount sampleRace ≠ 1 := by
  decide

/-- C4, amended. For `N >= 2` concurrent bookings of a trip with one free seat and no
passengers, under every interleaving of the read and update steps (every `schedule`, so also
at every intermediate point): `availableSeats` is a number that is not negative and
`passengers` has at most one element; every answer is a success, SeatsUnavailable or
AlreadyBooked; and once all requests are answered at least one of them succeeded. -/
theorem concurrent_booking_at_least_one (trips : Store) (tripId : String) (doc : JSObject)
    (users : List String) (schedule : List Nat)
    (hd : getDoc trips tripId = some doc) (hfree : SeatFree doc) (hN : 2 ≤ users.length) :
    (∃ doc' ps a,
      getDoc (runSchedule tripId (startSystem trips users) schedule).trips tripId = some doc' ∧
      getProp doc' "passengers" = JSValue.arr ps ∧
      getProp doc' "availableSeats" = JSValue.num (JSNumber.fin a) ∧
      0 ≤ a ∧ ps.length ≤ 1) ∧
    (∀ t ∈ (runSchedule tripId (startSystem trips users) schedule).tasks, ∀ r,
      t.2 = BookTask.done r →
        r = bookedResponse ∨ r = seatsUnavailableResponse ∨ r = alreadyBookedResponse) ∧
    (allDone (runSchedule tripId (startSystem trips users) schedule) = true →
      1 ≤ successCount (runSchedule tripId (startSystem trips users) schedule)) := by
  obtain ⟨doc', hd', hok, hstate⟩ :=
    runSchedule_inv schedule _ (startSystem_inv users hd hfree)
  have hlen := runSchedule_length tripId schedule (startSystem trips users)
  refine ⟨?_, ?_, ?_⟩
  · rcases hstate with ⟨hf, _⟩ | ⟨⟨u, hp, ha⟩, _⟩
    · exact ⟨doc', [], 1, hd', hf.1, hf.2, by norm_num, by simp⟩
    · exact ⟨doc', [JSValue.str u], 0, hd', hp, ha, le_refl 0, by simp⟩
  · intro t ht r hr
    have h := hok t ht
    rw [hr] at h
    exact h
  · intro hall
    rcases hstate with ⟨_, hearly⟩ | ⟨_, t, ht, hdone⟩
    · exfalso
      have hne : (runSchedule tripId (startSystem trips users) schedule).tasks ≠ [] := by
        intro h
        rw [h] at hlen
        simp [startSystem] at hlen
        omega
      obtain ⟨t, ht⟩ := List.exists_mem_of_ne_nil _ hne
      have hdone : t.2.isDone = true := by
        unfold allDone at hall
        rw [List.all_eq_true] at hall
        exact hall t ht
      have he := hearly t ht
      cases h2 : t.2 with
      | start => rw [h2] at hdone; cases hdone
      | holding snapshot => rw [h2] at hdone; cases hdone
      | done r => rw [h2] at he; exact he
    · unfold successCount
      apply List.countP_pos_iff.2
      refine ⟨t, ht, ?_⟩
      rw [hdone]
      rfl

/-- C4, amended, at the two concurrent bookings of `sampleRace`. -/
theorem concurrent_booking_at_least_one_witness :
    2 ≤ ["A", "B"].length ∧
    (∃ doc' ps a,
      getDoc (runSchedule "t1" (startSystem [("t1", sampleOneSeatTrip)] ["A", "B"])
        [0, 1, 0, 1]).trips "t1" = some doc' ∧
      getProp doc' "passengers" = JSValue.arr ps ∧
      getProp doc' "availableSeats" = JSValue.num (JSNumber.fin a) ∧
      0 ≤ a ∧ ps.length ≤ 1) ∧
    1 ≤ successCount (runSchedule "t1" (startSystem [("t1", sampleOneSeatTrip)] ["A", "B"])
      [0, 1, 0, 1]) :=
  ⟨by decide,
    (concurrent_booking_at_least_one [("t1", sampleOneSeatTrip)] "t1" sampleOneSeatTrip
      ["A", "B"] [0, 1, 0, 1] rfl ⟨rfl, rfl⟩ (by decide)).1,
    (concurrent_booking_at_least_one [("t1", sampleOneSeatTrip)] "t1" sampleOneSeatTrip
      ["A", "B"] [0, 1, 0, 1] rfl ⟨rfl, rfl⟩ (by decide)).2.2 (by decide)⟩

/-- C6, counterexample. The driver `d1` updates their trip with an accepted payload that
carries the extra field `driverId: "d2"`: the update succeeds and the stored `driverId`
becomes `d2`. -/
theorem update_overwrites_driverId :
    validateTrip sampleClock sampleBodyWithDriver = Outcome.next ∧
      getProp sampleStoredTrip "driverId" = JSValue.str "d1" ∧
      (updateTrip sampleClock [("t1", sampleStoredTrip)] "t1" "d1"
        sampleBodyWithDriver).1.status = 200 ∧
      ∃ doc', getDoc (updateTrip sampleClock [("t1", sampleStoredTrip)] "t1" "d1"
          sampleBodyWithDriver).2 "t1" = some doc' ∧
        getProp doc' "driverId" = JSValue.str "d2" :=
  ⟨rfl, rfl, by decide, _, rfl, rfl⟩

/-- C6, amended. After a successful `PUT /:id` the stored `driverId` equals the `driverId`
before the update when the payload carries no `driverId` field, and equals the payload's
`driverId` field when it carries one. -/
theorem driverId_after_update (clock : Clock) (trips : Store) (tripId userId : String)
    (body doc : JSObject) (hd : getDoc trips tripId = some doc)
    (hok : (updateTrip clock trips tripId userId body).1.status = 200) :
    ∃ doc', getDoc (updateTrip clock trips tripId userId body).2 tripId = some doc' ∧
      (body.lookup "driverId" = none → getProp doc' "driverId" = getProp doc "driverId") ∧
      (∀ v, body.lookup "driverId" = some v → getProp doc' "driverId" = v) := by
  obtain ⟨_, _, hget⟩ := updateTrip_success hd hok
  refine ⟨_, hget, fun hk => ?_, fun v hk => ?_⟩
  · exact getProp_update_kept clock doc body "driverId" (by decide) (by decide) hk
  · exact getProp_update_written clock doc body "driverId" v (by decide) (by decide) hk

/-- C6, amended, at the sample stored trip updated by its driver with the sample payload. -/
theorem driverId_after_update_witness :
    ∃ doc', getDoc (updateTrip sampleClock [("t1", sampleStoredTrip)] "t1" "d1"
        sampleBody).2 "t1" = some doc' ∧
      getProp doc' "driverId" = getProp sampleStoredTrip "driverId" :=
  have h := driverId_after_update sampleClock [("t1", sampleStoredTrip)] "t1" "d1" sampleBody
    sampleStoredTrip rfl (by decide)
  h.elim fun doc' hd => ⟨doc', hd.1, hd.2.1 rfl⟩

/-- C7, counterexample. The driver updates a trip that satisfies the seat-accounting invariant
(capacity 2, no passengers, 2 seats) with an accepted payload carrying `availableSeats: 99`:
the update succeeds and the stored trip no longer satisfies the invariant. -/
theorem update_breaks_seat_invariant :
    StoredTripInvariant sampleStoredTrip ∧
      validateTrip sampleClock sampleBodyWithSeats = Outcome.next ∧
      (updateTrip sampleClock [("t1", sampleStoredTrip)] "t1" "d1"
        sampleBodyWithSeats).1.status = 200 ∧
      ∃ doc', getDoc (updateTrip sampleClock [("t1", sampleStoredTrip)] "t1" "d1"
          sampleBodyWithSeats).2 "t1" = some doc' ∧ ¬ StoredTripInvariant doc' := by
  refine ⟨⟨2, [], 2, rfl, rfl, rfl, by norm_num, by norm_num, List.nodup_nil⟩, rfl,
    by decide, _, rfl, ?_⟩
  rintro ⟨c, ps, a, hc, hp, ha, heq, _, _⟩
  have hc' : JSValue.num (JSNumber.fin 2) = JSValue.num (JSNumber.fin (c : ℚ)) := hc
  have hp' : JSValue.arr [] = JSValue.arr ps := hp
  have ha' : JSValue.num (JSNumber.fin 99) = JSValue.num (JSNumber.fin a) := ha
  injection hc' with hc'
  injection hc' with hc'
  injection hp' with hp'
  injection ha' with ha'
  injection ha' with ha'
  subst hp'
  rw [← hc', ← ha'] at heq
  norm_num at heq

/-- C7, amended. An update by the owner with an accepted payload that carries none of the
fields `availableSeats`, `passengers` and `driverVehicle` succeeds and preserves the
seat-accounting invariant of the stored trip. -/
theorem seat_invariant_across_update (clock : Clock) (trips : Store) (tripId userId : String)
    (body doc : JSObject) (hd : getDoc trips tripId = some doc)
    (hinv : StoredTripInvariant doc)
    (hown : getProp doc "driverId" = JSValue.str userId)
    (hv : validateTrip clock body = Outcome.next)
    (hseats : body.lookup "availableSeats" = none)
    (hpass : body.lookup "passengers" = none)
    (hveh : body.lookup "driverVehicle" = none) :
    (updateTrip clock trips tripId userId body).1.status = 200 ∧
    ∃ doc', getDoc (updateTrip clock trips tripId userId body).2 tripId = some doc' ∧
      StoredTripInvariant doc' := by
  obtain ⟨hok, hget⟩ := updateTrip_by_owner hd hv hown
  obtain ⟨c, ps, a, hc, hp, ha, heq, hnn, hnd⟩ := hinv
  refine ⟨hok, _, hget, c, ps, a, ?_, ?_, ?_, heq, hnn, hnd⟩
  · rw [getProp_update_kept clock doc body "driverVehicle" (by decide) (by decide) hveh]
    exact hc
  · rw [getProp_update_kept clock doc body "passengers" (by decide) (by decide) hpass]
    exact hp
  · rw [getProp_update_kept clock doc body "availableSeats" (by decide) (by decide) hseats]
    exact ha

/-- C7, amended, at the sample stored trip updated by its driver with the sample payload. -/
theorem seat_invariant_across_update_witness :
    StoredTripInvariant sampleStoredTrip ∧
      (updateTrip sampleClock [("t1", sampleStoredTrip)] "t1" "d1" sampleBody).1.status = 200 ∧
      ∃ doc', getDoc (updateTrip sampleClock [("t1", sampleStoredTrip)] "t1" "d1"
          sampleBody).2 "t1" = some doc' ∧ StoredTripInvariant doc' :=
  have hinv : StoredTripInvariant sampleStoredTrip :=
    ⟨2, [], 2, rfl, rfl, rfl, by norm_num, by norm_num, List.nodup_nil⟩
  ⟨hinv, seat_invariant_across_update sampleClock [("t1", sampleStoredTrip)] "t1" "d1"
    sampleBody sampleStoredTrip rfl hinv rfl rfl rfl rfl rfl⟩

/-- C8, counterexample. A payload without `tripDate` and with `cost: 0`: the answer has status
400 and its `missingFields` is `["tripDate", "cost"]`, although `cost` is present in the
payload. -/
theorem missing_fields_lists_present_cost :
    sampleBodyZeroCost.lookup "tripDate" = none ∧
      sampleBodyZeroCost.lookup "cost" = some (JSValue.num (JSNumber.fin 0)) ∧
      validateTrip sampleClock sampleBodyZeroCost =
        Outcome.respond (missingFieldsResponse ["tripDate", "cost"]) :=
  ⟨rfl, rfl, rfl⟩

/-- C8, amended. For every payload in which at least one of the eight required fields is
absent, `validateTrip` answers with status 400 and a `missingFields` list that consists, in the
order of `requiredFields`, of exactly the required fields whose value is absent or falsy
(`null`, `false`, `0`, `NaN`, the empty string); every absent required field is in the list. -/
theorem missing_fields_report (clock : Clock) (body : JSObject) (absent : String)
    (hreq : absent ∈ requiredFields) (habs : body.lookup absent = none) :
    ∃ missingFields : List String,
      validateTrip clock body = Outcome.respond (missingFieldsResponse missingFields) ∧
      (missingFieldsResponse missingFields).status = 400 ∧
      getProp (missingFieldsResponse missingFields).body "missingFields" =
        JSValue.arr (missingFields.map JSValue.str) ∧
      missingFields = (requiredFields.filter fun field => !truthy (getProp body field)) ∧
      (∀ field, field ∈ missingFields ↔
        field ∈ requiredFields ∧ truthy (getProp body field) = false) ∧
      (∀ field, field ∈ requiredFields → body.lookup field = none → field ∈ missingFields) := by
  have hmem : ∀ field, field ∈ (requiredFields.filter fun field => !truthy (getProp body field))
      ↔ field ∈ requiredFields ∧ truthy (getProp body field) = false := by
    intro field
    rw [List.mem_filter]
    simp
  have hin : absent ∈ (requiredFields.filter fun field => !truthy (getProp body field)) :=
    (hmem absent).2 ⟨hreq, truthy_getProp_absent body absent habs⟩
  refine ⟨_, validateTrip_missing (List.ne_nil_of_mem hin), rfl, rfl, rfl, hmem, ?_⟩
  intro field hf hnone
  exact (hmem field).2 ⟨hf, truthy_getProp_absent body field hnone⟩

/-- C8, amended, at the sample payload without `tripDate` and with `cost: 0`. -/
theorem missing_fields_report_witness :
    ∃ missingFields : List String,
      validateTrip sampleClock sampleBodyZeroCost =
        Outcome.respond (missingFieldsResponse missingFields) ∧
      (missingFieldsResponse missingFields).status = 400 ∧
      "tripDate" ∈ missingFields :=
  have h := missing_fields_report sampleClock sampleBodyZeroCost "tripDate" (by decide) rfl
  h.elim fun m hm => ⟨m, hm.1, hm.2.1, hm.2.2.2.2.2 "tripDate" (by decide) rfl⟩

/-! ## Further lemmas on the booking handler -/

theorem bookDecide_not_member {doc : JSObject} {ps : List JSValue} {userId : String}
    (hp : getProp doc "passengers" = JSValue.arr ps) (hnot : JSValue.str userId ∉ ps) :
    bookDecide (some doc) userId =
      if convertThrows (getProp doc "availableSeats") = true then
        Except.error conversionError
      else if (toNumber (getProp doc "availableSeats")).le (JSNumber.fin 0) = true then
        Except.ok (BookStep.reply seatsUnavailableResponse)
      else
        Except.ok (BookStep.write (bookingWrite ps (getProp doc "availableSeats") userId)) := by
  have hany := any_includes_false userId ps hnot
  by_cases hc : convertThrows (getProp doc "availableSeats") = true
  · simp [bookDecide, hp, truthy, callIncludes, hany, hc]
  · by_cases hle : (toNumber (getProp doc "availableSeats")).le (JSNumber.fin 0) = true
    · simp [bookDecide, hp, truthy, callIncludes, hany, hc, hle, seatsUnavailableResponse]
    · simp [bookDecide, hp, truthy, callIncludes, hany, hc, hle, spreadElements, bookingWrite]

theorem occurrences_le_one_of_nodup (userId : String) (ps : List JSValue) (h : ps.Nodup) :
    occurrences userId ps ≤ 1 := by
  unfold occurrences
  induction ps with
  | nil => simp
  | cons x rest ih =>
    rw [List.nodup_cons] at h
    rw [List.countP_cons]
    by_cases hx : includesValue [userId] x = true
    · have hxe := (includesValue_singleton userId x).1 hx
      have h0 : List.countP (fun x => includesValue [userId] x) rest = 0 := by
        rw [List.countP_eq_zero]
        intro y hy hi
        rw [includesValue_singleton] at hi
        rw [hi, ← hxe] at hy
        exact h.1 hy
      rw [h0]
      simp [hx]
    · have := ih h.2
      simp [hx]
      exact this

/-- Any booking keeps `passengers` an array without duplicates. -/
theorem book_preserves_nodup (trips : Store) (tripId userId id : String) (doc : JSObject)
    (ps : List JSValue) (hd : getDoc trips id = some doc)
    (hp : getProp doc "passengers" = JSValue.arr ps) (hnd : ps.Nodup) :
    ∃ doc' ps', getDoc (book trips tripId userId).2 id = some doc' ∧
      getProp doc' "passengers" = JSValue.arr ps' ∧ ps'.Nodup := by
  by_cases hid : id = tripId
  · subst hid
    by_cases hin : JSValue.str userId ∈ ps
    · rw [book_booked hd hp hin]
      exact ⟨doc, ps, hd, hp, hnd⟩
    · have hdec := bookDecide_not_member hp hin
      by_cases hc : convertThrows (getProp doc "availableSeats") = true
      · rw [if_pos hc] at hdec
        have hb : book trips id userId = (bookError conversionError, trips) := by
          simp [book, bookFinish, hd, hdec]
        rw [hb]
        exact ⟨doc, ps, hd, hp, hnd⟩
      · rw [if_neg hc] at hdec
        by_cases hle : (toNumber (getProp doc "availableSeats")).le (JSNumber.fin 0) = true
        · rw [if_pos hle] at hdec
          have hb : book trips id userId = (seatsUnavailableResponse, trips) := by
            apply book_of_reply
            rw [hd]; exact hdec
          rw [hb]
          exact ⟨doc, ps, hd, hp, hnd⟩
        · rw [if_neg hle] at hdec
          have hdec' : bookDecide (getDoc trips id) userId = Except.ok (BookStep.write
              (bookingWrite ps (getProp doc "availableSeats") userId)) := by
            rw [hd]; exact hdec
          obtain ⟨_, hget⟩ := book_of_write hd hdec'
          refine ⟨mergeFields doc (bookingWrite ps (getProp doc "availableSeats") userId),
            ps ++ [JSValue.str userId], ?_, ?_, ?_⟩
          · rw [hget id]; simp
          · rw [getProp_mergeFields]; rfl
          · rw [List.nodup_append]
            refine ⟨hnd, List.nodup_singleton _, ?_⟩
            intro x hx hx'
            rw [List.mem_singleton] at hx'
            rw [hx'] at hx
            exact hin hx
  · rw [book_other trips tripId userId id hid]
    exact ⟨doc, ps, hd, hp, hnd⟩

theorem bookAll_preserves_nodup (id : String) (calls : List (String × String)) :
    ∀ (trips : Store) (doc : JSObject) (ps : List JSValue), getDoc trips id = some doc →
      getProp doc "passengers" = JSValue.arr ps → ps.Nodup →
      ∃ doc' ps', getDoc (bookAll trips calls) id = some doc' ∧
        getProp doc' "passengers" = JSValue.arr ps' ∧ ps'.Nodup := by
  induction calls with
  | nil => intro trips doc ps hd hp hnd; exact ⟨doc, ps, hd, hp, hnd⟩
  | cons call rest ih =>
    intro trips doc ps hd hp hnd
    obtain ⟨tripId, userId⟩ := call
    obtain ⟨doc1, ps1, hd1, hp1, hnd1⟩ :=
      book_preserves_nodup trips tripId userId id doc ps hd hp hnd
    exact ih _ doc1 ps1 hd1 hp1 hnd1

/-! ## Further claims -/

/-- C14. Successful booking effect: on an existing trip with `availableSeats > 0` and a user
who is not in `passengers`, the booking answers 200 and the stored trip afterwards has
`passengers` equal to the previous list (the empty list when `passengers` was absent) with the
user appended at the end, `availableSeats` equal to the previous value minus 1, and every other
field unchanged; no other document of the store changes. -/
theorem successful_booking_effect (trips : Store) (tripId userId : String) (doc : JSObject)
    (ps : List JSValue) (a : ℚ)
    (hd : getDoc trips tripId = some doc)
    (hp : PassengersAre doc ps) (hnot : JSValue.str userId ∉ ps)
    (ha : getProp doc "availableSeats" = JSValue.num (JSNumber.fin a)) (hpos : 0 < a) :
    (book trips tripId userId).1 = bookedResponse ∧ bookedResponse.status = 200 ∧
      (∃ doc', getDoc (book trips tripId userId).2 tripId = some doc' ∧
        getProp doc' "passengers" = JSValue.arr (ps ++ [JSValue.str userId]) ∧
        getProp doc' "availableSeats" = JSValue.num (JSNumber.fin (a - 1)) ∧
        ∀ k : String, k ≠ "passengers" → k ≠ "availableSeats" →
          getProp doc' k = getProp doc k) ∧
      ∀ id : String, id ≠ tripId → getDoc (book trips tripId userId).2 id = getDoc trips id := by
  obtain ⟨hr, hget⟩ := book_free hd hp hnot ha hpos
  refine ⟨hr, rfl, ⟨_, hget, getProp_bookingFields_passengers _ _ _ _,
    getProp_bookingFields_seats _ _ _ _, ?_⟩, ?_⟩
  · intro k h1 h2
    exact getProp_bookingFields_other doc ps a userId k h1 h2
  · intro id hid
    exact book_other trips tripId userId id hid

/-- C14 at the sample trip (two free seats, no passengers) and the user `A`. -/
theorem successful_booking_effect_witness :
    (book [("t1", sampleTrip)] "t1" "A").1 = bookedResponse ∧
      ∃ doc', getDoc (book [("t1", sampleTrip)] "t1" "A").2 "t1" = some doc' ∧
        getProp doc' "passengers" = JSValue.arr ([] ++ [JSValue.str "A"]) ∧
        getProp doc' "availableSeats" = JSValue.num (JSNumber.fin (2 - 1)) ∧
        getProp doc' "driverId" = getProp sampleTrip "driverId" :=
  have h := successful_booking_effect [("t1", sampleTrip)] "t1" "A" sampleTrip [] 2 rfl
    (Or.inl rfl) (by simp) rfl (by norm_num)
  ⟨h.1, h.2.2.1.elim fun doc' hd =>
    ⟨doc', hd.1, hd.2.1, hd.2.2.1, hd.2.2.2 "driverId" (by decide) (by decide)⟩⟩

/-- C15. No duplicate passengers: a booking call by any user on any trip id leaves a stored
trip whose `passengers` list has no duplicates with a `passengers` list without duplicates;
hence in every state reached from `POST /trips` by sequential booking calls every user identity
occurs at most once in `passengers`. -/
theorem no_duplicate_passengers :
    (∀ (trips : Store) (tripId userId id : String) (doc : JSObject) (ps : List JSValue),
      getDoc trips id = some doc → getProp doc "passengers" = JSValue.arr ps → ps.Nodup →
      ∃ doc' ps', getDoc (book trips tripId userId).2 id = some doc' ∧
        getProp doc' "passengers" = JSValue.arr ps' ∧ ps'.Nodup ∧
        ∀ u : String, occurrences u ps' ≤ 1) ∧
    (∀ (clock : Clock) (users trips : Store) (newId driverId : String)
      (body userData : JSObject) (calls : List (String × String)),
      getDoc trips newId = none → getDoc users driverId = some userData →
      (createTrip clock users trips newId driverId body).1.status = 201 →
      ∃ doc ps,
        getDoc (bookAll (createTrip clock users trips newId driverId body).2 calls) newId
          = some doc ∧
        getProp doc "passengers" = JSValue.arr ps ∧ ps.Nodup ∧
        ∀ u : String, occurrences u ps ≤ 1) := by
  constructor
  · intro trips tripId userId id doc ps hd hp hnd
    obtain ⟨doc', ps', hd', hp', hnd'⟩ :=
      book_preserves_nodup trips tripId userId id doc ps hd hp hnd
    exact ⟨doc', ps', hd', hp', hnd', fun u => occurrences_le_one_of_nodup u ps' hnd'⟩
  · intro clock users trips newId driverId body userData calls hfresh huser hcreated
    obtain ⟨doc, ps, hd, hp, hnd⟩ := bookAll_preserves_nodup newId calls _ _ []
      (getDoc_createTrip hfresh huser hcreated) (getProp_newTrip_passengers _ _ _ _)
      List.nodup_nil
    exact ⟨doc, ps, hd, hp, hnd, fun u => occurrences_le_one_of_nodup u ps hnd⟩

/-- C15 at the full sample trip booked again by its passenger `A`, and at the sample driver's
trip after the bookings `A`, `A`, `B`. -/
theorem no_duplicate_passengers_witness :
    (∃ doc' ps', getDoc (book [("t1", sampleFullTrip)] "t1" "A").2 "t1" = some doc' ∧
        getProp doc' "passengers" = JSValue.arr ps' ∧ ps'.Nodup ∧
        ∀ u : String, occurrences u ps' ≤ 1) ∧
    (∃ doc ps,
        getDoc (bookAll (createTrip sampleClock sampleUsers [] "t1" "d1" sampleBody).2
          [("t1", "A"), ("t1", "A"), ("t1", "B")]) "t1" = some doc ∧
        getProp doc "passengers" = JSValue.arr ps ∧ ps.Nodup ∧
        ∀ u : String, occurrences u ps ≤ 1) :=
  ⟨no_duplicate_passengers.1 [("t1", sampleFullTrip)] "t1" "A" "t1" sampleFullTrip
      [JSValue.str "A"] rfl rfl (List.nodup_singleton _),
    no_duplicate_passengers.2 sampleClock sampleUsers [] "t1" "d1" sampleBody sampleDriver
      [("t1", "A"), ("t1", "A"), ("t1", "B")] rfl rfl (by decide)⟩

/-- C19. Booking refusal order: a booking by a user already present in `passengers` is refused
with AlreadyBooked (400) and leaves the store unchanged whatever the value of
`availableSeats` (no hypothesis on it, so also when it is `<= 0`): the membership check is
decided before the seat check; and a booking on an absent trip id is refused with NotFound
(404), before either check. -/
theorem booking_refusal_order :
    (∀ (trips : Store) (tripId userId : String) (doc : JSObject) (ps : List JSValue),
      getDoc trips tripId = some doc → getProp doc "passengers" = JSValue.arr ps →
      JSValue.str userId ∈ ps →
      book trips tripId userId = (alreadyBookedResponse, trips) ∧
        alreadyBookedResponse.status = 400) ∧
    (∀ (trips : Store) (tripId userId : String), getDoc trips tripId = none →
      book trips tripId userId = (tripNotFoundResponse, trips) ∧
        tripNotFoundResponse.status = 404) := by
  constructor
  · intro trips tripId userId doc ps hd hp hin
    exact ⟨book_booked hd hp hin, rfl⟩
  · intro trips tripId userId hd
    refine ⟨?_, rfl⟩
    apply book_of_reply
    rw [hd]
    rfl

/-- C19 at the full sample trip (`availableSeats = 0`) booked by its passenger `A`, and at a
trip id that is not in the store. -/
theorem booking_refusal_order_witness :
    (getProp sampleFullTrip "availableSeats" = JSValue.num (JSNumber.fin 0) ∧
      book [("t1", sampleFullTrip)] "t1" "A" = (alreadyBookedResponse, [("t1", sampleFullTrip)])
      ∧ alreadyBookedResponse.status = 400) ∧
    (book [("t1", sampleFullTrip)] "t2" "A" = (tripNotFoundResponse, [("t1", sampleFullTrip)])
      ∧ tripNotFoundResponse.status = 404) :=
  ⟨⟨rfl, booking_refusal_order.1 [("t1", sampleFullTrip)] "t1" "A" sampleFullTrip
      [JSValue.str "A"] rfl rfl (by simp)⟩,
    booking_refusal_order.2 [("t1", sampleFullTrip)] "t2" "A" rfl⟩

/-! ## Further lemmas on trip creation -/

theorem truthy_required_of_next {clock : Clock} {body : JSObject}
    (hv : validateTrip clock body = Outcome.next) (field : String)
    (hf : field ∈ requiredFields) : truthy (getProp body field) = true := by
  rw [validateTrip_eq_next_iff, validateTripTry_next_iff] at hv
  exact (missing_eq_nil_iff body).1 hv.1 field hf

theorem getDoc_addDoc_fresh {trips : Store} {newId : String} (doc : JSObject)
    (hfresh : getDoc trips newId = none) : getDoc (addDoc trips newId doc) newId = some doc := by
  rw [getDoc_addDoc, hfresh]
  simp

/-- The handler of `POST /` for a driver with a vehicle and an accepted payload, the store
assigning a fresh id. -/
theorem createTrip_accepted {clock : Clock} {users trips : Store} {newId userId : String}
    {body userData : JSObject} (hfresh : getDoc trips newId = none)
    (huser : getDoc users userId = some userData)
    (hveh : truthy (getProp userData "vehicle") = true)
    (hv : validateTrip clock body = Outcome.next) :
    createTrip clock users trips newId userId body =
      (createdResponse newId (newTrip clock userId userData body),
        addDoc trips newId (newTrip clock userId userData body)) := by
  have hroute : truthy (getProp (newTrip clock userId userData body) "routeTag") = true :=
    truthy_required_of_next hv "routeTag" (by decide)
  unfold createTrip
  rw [hv]
  simp only [createTripHandler, huser, hveh, convertThrows_of_next hv, Bool.not_true,
    Bool.false_eq_true, if_false]
  rw [getDoc_addDoc_fresh _ hfresh]
  simp only [hroute, Bool.not_true, Bool.false_eq_true, if_false]
  rfl

/-- C16. Creation postcondition: for a driver whose profile has a registered vehicle and a
payload accepted by `validateTrip`, `POST /trips` persists, under the id the store assigns, a
trip with `driverId` equal to the caller's identity, `availableSeats` equal to the vehicle's
seat capacity, `passengers` equal to the empty list, `status` equal to `scheduled`, `cost` equal
to the numeric value of the payload cost, and a `driverVehicle` snapshot of the vehicle's
plate, color, brand, model and capacity; it answers 201 with that trip and its id. -/
theorem creation_postcondition (clock : Clock) (users trips : Store) (newId driverId : String)
    (body userData : JSObject)
    (hfresh : getDoc trips newId = none)
    (huser : getDoc users driverId = some userData)
    (hveh : truthy (getProp userData "vehicle") = true)
    (hv : validateTrip clock body = Outcome.next) :
    ∃ trip : JSObject,
      (createTrip clock users trips newId driverId body).1 = createdResponse newId trip ∧
      (createdResponse newId trip).status = 201 ∧
      getProp (createdResponse newId trip).body "data" =
        JSValue.obj (("id", JSValue.str newId) :: trip) ∧
      getDoc (createTrip clock users trips newId driverId body).2 newId = some trip ∧
      (∀ id : String, id ≠ newId →
        getDoc (createTrip clock users trips newId driverId body).2 id = getDoc trips id) ∧
      getProp trip "driverId" = JSValue.str driverId ∧
      getProp trip "availableSeats" =
        getMember (getProp userData "vehicle") "availableSeats" ∧
      getProp trip "passengers" = JSValue.arr [] ∧
      getProp trip "status" = JSValue.str "scheduled" ∧
      getProp trip "cost" = JSValue.num (toNumber (getProp body "cost")) ∧
      getProp trip "driverVehicle" = vehicleSnapshot (getProp userData "vehicle") := by
  have hc := createTrip_accepted hfresh huser hveh hv
  refine ⟨newTrip clock driverId userData body, ?_, rfl, rfl, ?_, ?_, rfl, rfl, rfl, rfl, rfl,
    rfl⟩
  · rw [hc]
  · rw [hc]
    exact getDoc_addDoc_fresh _ hfresh
  · intro id hid
    rw [hc]
    show getDoc (addDoc trips newId _) id = _
    rw [getDoc_addDoc]
    cases getDoc trips id with
    | none => simp [hid]
    | some d => rfl

/-- C16 at the sample driver (two seats) and the sample payload. -/
theorem creation_postcondition_witness :
    ∃ trip : JSObject,
      (createTrip sampleClock sampleUsers [] "t1" "d1" sampleBody).1
        = createdResponse "t1" trip ∧
      getDoc (createTrip sampleClock sampleUsers [] "t1" "d1" sampleBody).2 "t1" = some trip ∧
      getProp trip "driverId" = JSValue.str "d1" ∧
      getProp trip "availableSeats" = JSValue.num (JSNumber.fin 2) ∧
      getProp trip "passengers" = JSValue.arr [] ∧
      getProp trip "status" = JSValue.str "scheduled" ∧
      getProp trip "cost" = JSValue.num (JSNumber.fin 50000) :=
  have h := creation_postcondition sampleClock sampleUsers [] "t1" "d1" sampleBody sampleDriver
    rfl rfl rfl rfl
  h.elim fun trip ht =>
    ⟨trip, ht.1, ht.2.2.2.1, ht.2.2.2.2.2.1, ht.2.2.2.2.2.2.1, ht.2.2.2.2.2.2.2.1,
      ht.2.2.2.2.2.2.2.2.1, ht.2.2.2.2.2.2.2.2.2.1⟩

/-! ## The validator, check by check -/

theorem validateTrip_of_ok {clock : Clock} {body : JSObject} {o : Outcome}
    (h : validateTripTry clock body = Except.ok o) : validateTrip clock body = o := by
  unfold validateTrip
  rw [h]

theorem checkTextFields_of_valid (body : JSObject) (fs : List (String × String))
    (h : (fs.any fun f => blankText (getProp body f.1)) = false) :
    checkTextFields body fs = Except.ok none := by
  induction fs with
  | nil => rfl
  | cons f rest ih =>
    obtain ⟨field, name⟩ := f
    rw [List.any_cons, Bool.or_eq_false_iff] at h
    obtain ⟨h1, h2⟩ := h
    unfold checkTextFields
    cases hv : getProp body field with
    | str s =>
      rw [hv] at h1
      have hlen : ¬ jsTrim s.data = [] := by simpa [blankText] using h1
      simp [isString, callTrim, hlen, ih h2]
    | _ => rw [hv] at h1; simp [blankText] at h1

theorem checkTextFields_of_invalid (body : JSObject) (fs : List (String × String))
    (h : (fs.any fun f => blankText (getProp body f.1)) = true) :
    ∃ f ∈ fs, checkTextFields body fs = Except.ok (some (blankTextResponse f.2)) := by
  induction fs with
  | nil => simp at h
  | cons f rest ih =>
    obtain ⟨field, name⟩ := f
    by_cases h1 : blankText (getProp body field) = true
    · refine ⟨(field, name), by simp, ?_⟩
      unfold checkTextFields
      cases hv : getProp body field with
      | str s =>
        rw [hv] at h1
        have hlen : jsTrim s.data = [] := by simpa [blankText] using h1
        simp [isString, callTrim, hlen, blankTextResponse]
      | _ => simp [isString, blankTextResponse]
    · have h2 : (rest.any fun f => blankText (getProp body f.1)) = true := by
        rw [List.any_cons] at h
        simpa [h1] using h
      obtain ⟨f, hf, hc⟩ := ih h2
      refine ⟨f, List.mem_cons_of_mem _ hf, ?_⟩
      unfold checkTextFields
      cases hv : getProp body field with
      | str s =>
        rw [hv] at h1
        have hlen : ¬ jsTrim s.data = [] := by simpa [blankText] using h1
        simp [isString, callTrim, hlen, hc]
      | _ => rw [hv] at h1; simp [blankText] at h1

theorem missingRequired_false_iff (body : JSObject) :
    missingRequired body = false ↔
      ¬ (requiredFields.filter fun field => !truthy (getProp body field)).length > 0 := by
  unfold missingRequired
  simp

theorem validateTripTry_of_missing {clock : Clock} {body : JSObject}
    (h : missingRequired body = true) :
    validateTripTry clock body = Except.ok (Outcome.respond (missingFieldsResponse
      (requiredFields.filter fun field => !truthy (getProp body field)))) := by
  have hlen : (requiredFields.filter fun field => !truthy (getProp body field)).length > 0 := by
    simpa [missingRequired] using h
  unfold validateTripTry
  simp only []
  rw [if_pos hlen]
  rfl

theorem validateTripTry_of_blank {clock : Clock} {body : JSObject}
    (h1 : missingRequired body = false) (h2 : textInvalid body = true) :
    ∃ f ∈ textFields,
      validateTripTry clock body = Except.ok (Outcome.respond (blankTextResponse f.2)) := by
  obtain ⟨f, hf, hc⟩ := checkTextFields_of_invalid body textFields h2
  refine ⟨f, hf, ?_⟩
  unfold validateTripTry
  simp only []
  rw [if_neg ((missingRequired_false_iff body).1 h1), hc]

theorem validateTripTry_of_cost {clock : Clock} {body : JSObject}
    (h1 : missingRequired body = false) (h2 : textInvalid body = false)
    (h3 : costInvalid body = true) :
    (raisesAt body 3 = true ∧ validateTripTry clock body = Except.error conversionError) ∨
    (raisesAt body 3 = false ∧
      (validateTripTry clock body = Except.ok (Outcome.respond
          (failure 400 "El costo debe ser un número válido mayor a 0" [])) ∨
        validateTripTry clock body = Except.ok (Outcome.respond
          (failure 400 "El costo debe estar entre 1000 y 100000 pesos" [])))) := by
  unfold validateTripTry
  simp only []
  rw [if_neg ((missingRequired_false_iff body).1 h1),
    checkTextFields_of_valid body textFields h2]
  simp only []
  by_cases hc : convertThrows (getProp body "cost") = true
  · rw [if_pos hc]
    exact Or.inl ⟨hc, rfl⟩
  · rw [if_neg hc]
    refine Or.inr ⟨Bool.eq_false_iff.2 hc, ?_⟩
    by_cases ha : ((toNumber (getProp body "cost")).isNaN ||
        (toNumber (getProp body "cost")).le (JSNumber.fin 0)) = true
    · rw [if_pos ha]
      exact Or.inl rfl
    · rw [if_neg ha]
      have hb : ((toNumber (getProp body "cost")).lt (JSNumber.fin 1000) ||
          (JSNumber.fin 100000).lt (toNumber (getProp body "cost"))) = true := by
        unfold costInvalid at h3
        rw [Bool.eq_false_iff.2 hc, Bool.eq_false_iff.2 ha, Bool.false_or, Bool.false_or] at h3
        exact h3
      rw [if_pos hb]
      exact Or.inr rfl

theorem validateTripTry_pass {clock : Clock} {body : JSObject}
    (h1 : missingRequired body = false) (h2 : textInvalid body = false)
    (h3 : costInvalid body = false) :
    validateTripTry clock body = validateDate clock body := by
  unfold costInvalid at h3
  rw [Bool.or_eq_false_iff, Bool.or_eq_false_iff] at h3
  unfold validateTripTry
  simp only []
  rw [if_neg ((missingRequired_false_iff body).1 h1),
    checkTextFields_of_valid body textFields h2]
  simp only []
  rw [if_neg (Bool.eq_false_iff.1 h3.1), if_neg (Bool.eq_false_iff.1 h3.2.1),
    if_neg (Bool.eq_false_iff.1 h3.2.2)]

theorem validateDate_of_invalid {clock : Clock} {body : JSObject}
    (h : dateInvalid clock body = true) :
    (raisesAt body 4 = true ∧ validateDate clock body = Except.error conversionError) ∨
    (raisesAt body 4 = false ∧
      (validateDate clock body = Except.ok (Outcome.respond
          (failure 400 "El formato de fecha debe ser YYYY-MM-DD" [])) ∨
        validateDate clock body =
          Except.ok (Outcome.respond (failure 400 "Fecha inválida" [])) ∨
        validateDate clock body = Except.ok (Outcome.respond
          (failure 400 "La fecha del viaje no puede ser anterior a la fecha actual" [])))) := by
  unfold validateDate
  simp only []
  by_cases hc : convertThrows (getProp body "tripDate") = true
  · rw [if_pos hc]
    exact Or.inl ⟨hc, rfl⟩
  · rw [if_neg hc]
    refine Or.inr ⟨Bool.eq_false_iff.2 hc, ?_⟩
    by_cases ha : (!dateRegexTest (toStr (getProp body "tripDate"))) = true
    · rw [if_pos ha]; exact Or.inl rfl
    · rw [if_neg ha]
      by_cases hb : (newDate clock (getProp body "tripDate")).isNone = true
      · rw [if_pos hb]; exact Or.inr (Or.inl rfl)
      · rw [if_neg hb]
        have hd : dateLt (newDate clock (getProp body "tripDate")) (some clock.now) = true := by
          unfold dateInvalid at h
          rw [Bool.eq_false_iff.2 hc, Bool.eq_false_iff.2 ha, Bool.eq_false_iff.2 hb,
            Bool.false_or, Bool.false_or, Bool.false_or] at h
          exact h
        rw [if_pos hd]; exact Or.inr (Or.inr rfl)

theorem validateDate_pass {clock : Clock} {body : JSObject}
    (h : dateInvalid clock body = false) :
    validateDate clock body = validateSchedule clock body := by
  unfold dateInvalid at h
  rw [Bool.or_eq_false_iff, Bool.or_eq_false_iff, Bool.or_eq_false_iff] at h
  unfold validateDate
  simp only []
  rw [if_neg (Bool.eq_false_iff.1 h.1.1), if_neg (Bool.eq_false_iff.1 h.1.2),
    if_neg (Bool.eq_false_iff.1 h.2.1), if_neg (Bool.eq_false_iff.1 h.2.2)]

theorem validateSchedule_of_time {clock : Clock} {body : JSObject}
    (h : timeInvalid clock body = true) :
    (raisesAt body 5 = true ∧ validateSchedule clock body = Except.error conversionError) ∨
    (raisesAt body 5 = false ∧
      (validateSchedule clock body = Except.ok (Outcome.respond
          (failure 400 "El formato de hora debe ser HH:MM" [])) ∨
        validateSchedule clock body = Except.ok (Outcome.respond
          (failure 400 "Horarios inválidos" [])))) := by
  unfold validateSchedule
  simp only []
  by_cases hc1 : convertThrows (getProp body "departureTime") = true
  · rw [if_pos hc1]
    exact Or.inl ⟨by simp [raisesAt, hc1], rfl⟩
  · rw [if_neg hc1]
    by_cases hr1 : (!timeRegexTest (toStr (getProp body "departureTime"))) = true
    · rw [if_pos hr1]
      refine Or.inr ⟨?_, Or.inl rfl⟩
      have hr1' : timeRegexTest (toStr (getProp body "departureTime")) = false := by
        simpa using hr1
      simp [raisesAt, hc1, hr1']
    · rw [if_neg hr1]
      have hr1' : timeRegexTest (toStr (getProp body "departureTime")) = true := by
        simpa using hr1
      by_cases hc2 : convertThrows (getProp body "arrivalTime") = true
      · rw [if_pos hc2]
        exact Or.inl ⟨by simp [raisesAt, hc2, hr1'], rfl⟩
      · rw [if_neg hc2]
        refine Or.inr ⟨by simp [raisesAt, hc1, hc2], ?_⟩
        by_cases hr2 : (!timeRegexTest (toStr (getProp body "arrivalTime"))) = true
        · rw [if_pos hr2]; exact Or.inl rfl
        · rw [if_neg hr2]
          have hb : ((timeOnTripDate clock body "departureTime").isNone ||
              (timeOnTripDate clock body "arrivalTime").isNone) = true := by
            unfold timeInvalid timeTextInvalid at h
            rw [Bool.eq_false_iff.2 hc1, Bool.eq_false_iff.2 hr1, Bool.eq_false_iff.2 hc2,
              Bool.eq_false_iff.2 hr2] at h
            simpa using h
          rw [if_pos hb]; exact Or.inr rfl

/-- The time checks once the formats and the two Date objects are in order. -/
theorem validateSchedule_after_time {clock : Clock} {body : JSObject}
    (h : timeInvalid clock body = false) :
    validateSchedule clock body =
      if departurePast clock body = true then
        Except.ok (Outcome.respond (failure 400
          "La hora de salida no puede ser anterior a la hora actual" []))
      else if arrivalNotAfter clock body = true then
        Except.ok (Outcome.respond (failure 400
          "La hora de llegada debe ser posterior a la hora de salida" []))
      else if tripTooLong clock body = true then
        Except.ok (Outcome.respond (failure 400 "El viaje no puede durar más de 3 horas" []))
      else validatePayment body := by
  unfold timeInvalid at h
  rw [Bool.or_eq_false_iff, Bool.or_eq_false_iff, timeTextInvalid_eq_false_iff,
    timeTextInvalid_eq_false_iff] at h
  obtain ⟨⟨⟨hc1, hr1⟩, hc2, hr2⟩, hnone⟩ := h
  unfold validateSchedule departurePast arrivalNotAfter tripTooLong
  simp only []
  rw [if_neg (Bool.eq_false_iff.1 hc1), if_neg (by simp [hr1]),
    if_neg (Bool.eq_false_iff.1 hc2), if_neg (by simp [hr2]),
    if_neg (Bool.eq_false_iff.1 hnone)]

theorem validatePayment_of_invalid {body : JSObject} (h : paymentInvalid body = true) :
    validatePayment body = Except.ok (Outcome.respond
        (failure 400 "Debe seleccionar al menos un método de pago" [])) ∨
      ∃ xs, getProp body "paymentMethods" = JSValue.arr xs ∧ xs ≠ [] ∧
        invalidMethods xs ≠ [] ∧
        validatePayment body =
          Except.ok (Outcome.respond (invalidMethodsResponse (invalidMethods xs))) := by
  unfold validatePayment
  simp only []
  by_cases ha : (!isArray (getProp body "paymentMethods") ||
      lengthIsZero (getProp body "paymentMethods")) = true
  · rw [if_pos ha]; exact Or.inl rfl
  · rw [if_neg ha]
    right
    cases hp : getProp body "paymentMethods" with
    | arr xs =>
      rw [hp] at ha
      unfold paymentInvalid at h
      rw [hp] at h
      have hne : xs ≠ [] := by
        intro hx; subst hx; simp [isArray, lengthIsZero] at ha
      have hinv : (invalidMethods xs).length > 0 := by
        simpa [isArray, lengthIsZero, hne] using h
      refine ⟨xs, rfl, hne, List.length_pos.1 hinv, ?_⟩
      simp only [callFilter]
      have hinv' : (List.filter (fun method => !includesValue VALID_PAYMENT_METHODS method)
          xs).length > 0 := hinv
      rw [if_pos hinv']
      rfl
    | _ => rw [hp] at ha; simp [isArray] at ha

/-- The checks on route and optional fields once the payment methods are in order. -/
theorem validatePayment_after_methods {body : JSObject} (h : paymentInvalid body = false) :
    validatePayment body =
      if routeInvalid body = true then Except.ok (Outcome.respond invalidRouteResponse)
      else if (truthy (getProp body "affinity") && !isString (getProp body "affinity")) = true
      then Except.ok (Outcome.respond (failure 400 "El campo afinidad debe ser texto" []))
      else if (truthy (getProp body "description") &&
          !isString (getProp body "description")) = true
      then Except.ok (Outcome.respond (failure 400 "El campo descripción debe ser texto" []))
      else Except.ok Outcome.next := by
  unfold paymentInvalid at h
  rw [Bool.or_eq_false_iff] at h
  obtain ⟨ha, hb⟩ := h
  unfold validatePayment routeInvalid
  simp only []
  rw [if_neg (Bool.eq_false_iff.1 ha)]
  cases hp : getProp body "paymentMethods" with
  | arr xs =>
    rw [hp] at hb
    have hinv : ¬ (List.filter (fun method => !includesValue VALID_PAYMENT_METHODS method)
        xs).length > 0 := by
      simpa [invalidMethods] using hb
    simp only [callFilter]
    rw [if_neg hinv]
    rfl
  | _ => rw [hp] at ha; simp [isArray] at ha

theorem validateTripTry_to_payment {clock : Clock} {body : JSObject}
    (hlow : ∀ j, j < 9 → violates clock body j = false) :
    validateTripTry clock body = validatePayment body := by
  have h1 : missingRequired body = false := hlow 1 (by decide)
  have h2 : textInvalid body = false := hlow 2 (by decide)
  have h3 : costInvalid body = false := hlow 3 (by decide)
  have h4 : dateInvalid clock body = false := hlow 4 (by decide)
  have h5 : timeInvalid clock body = false := hlow 5 (by decide)
  have h6 : departurePast clock body = false := hlow 6 (by decide)
  have h7 : arrivalNotAfter clock body = false := hlow 7 (by decide)
  have h8 : tripTooLong clock body = false := hlow 8 (by decide)
  rw [validateTripTry_pass h1 h2 h3, validateDate_pass h4, validateSchedule_after_time h5,
    if_neg (Bool.eq_false_iff.1 h6), if_neg (Bool.eq_false_iff.1 h7),
    if_neg (Bool.eq_false_iff.1 h8)]

theorem validateTripTry_to_schedule {clock : Clock} {body : JSObject}
    (hlow : ∀ j, j < 5 → violates clock body j = false) :
    validateTripTry clock body = validateSchedule clock body := by
  have h1 : missingRequired body = false := hlow 1 (by decide)
  have h2 : textInvalid body = false := hlow 2 (by decide)
  have h3 : costInvalid body = false := hlow 3 (by decide)
  have h4 : dateInvalid clock body = false := hlow 4 (by decide)
  rw [validateTripTry_pass h1 h2 h3, validateDate_pass h4]

/-- The answer of the `try` block to a payload whose lowest-numbered violated category is
`k`: the exception of a conversion when the check of category `k` raises, else status 400 and a
reason of category `k`; only the answer of category 10 carries `validRoutes`. -/
theorem validateTripTry_lowest (clock : Clock) (body : JSObject) (k : Nat)
    (hk : violates clock body k = true)
    (hlow : ∀ j, j < k → violates clock body j = false) :
    (raisesAt body k = true ∧ validateTripTry clock body = Except.error conversionError) ∨
    (raisesAt body k = false ∧
      ∃ msg extra, validateTripTry clock body =
          Except.ok (Outcome.respond (failure 400 msg extra)) ∧
        reasonCategory msg = some k ∧ (k ≠ 10 → extra.lookup "validRoutes" = none)) := by
  match k, hk, hlow with
  | 0, hk, _ => simp [violates] at hk
  | 1, hk, _ => exact Or.inr ⟨rfl, _, _, validateTripTry_of_missing hk, rfl, fun _ => rfl⟩
  | 2, hk, hlow =>
    obtain ⟨f, hf, hc⟩ := validateTripTry_of_blank (hlow 1 (by decide)) hk
    simp only [textFields, List.mem_cons, List.mem_singleton, List.not_mem_nil,
      or_false] at hf
    rcases hf with rfl | rfl
    · exact Or.inr ⟨rfl, _, _, hc, rfl, fun _ => rfl⟩
    · exact Or.inr ⟨rfl, _, _, hc, rfl, fun _ => rfl⟩
  | 3, hk, hlow =>
    rcases validateTripTry_of_cost (hlow 1 (by decide)) (hlow 2 (by decide)) hk with
      h | ⟨hr, h | h⟩
    · exact Or.inl h
    · exact Or.inr ⟨hr, _, _, h, rfl, fun _ => rfl⟩
    · exact Or.inr ⟨hr, _, _, h, rfl, fun _ => rfl⟩
  | 4, hk, hlow =>
    rw [validateTripTry_pass (hlow 1 (by decide)) (hlow 2 (by decide)) (hlow 3 (by decide))]
    rcases validateDate_of_invalid hk with h | ⟨hr, h | h | h⟩
    · exact Or.inl h
    · exact Or.inr ⟨hr, _, _, h, rfl, fun _ => rfl⟩
    · exact Or.inr ⟨hr, _, _, h, rfl, fun _ => rfl⟩
    · exact Or.inr ⟨hr, _, _, h, rfl, fun _ => rfl⟩
  | 5, hk, hlow =>
    rw [validateTripTry_to_schedule hlow]
    rcases validateSchedule_of_time hk with h | ⟨hr, h | h⟩
    · exact Or.inl h
    · exact Or.inr ⟨hr, _, _, h, rfl, fun _ => rfl⟩
    · exact Or.inr ⟨hr, _, _, h, rfl, fun _ => rfl⟩
  | 6, hk, hlow =>
    have h5 : timeInvalid clock body = false := hlow 5 (by decide)
    have h6 : departurePast clock body = true := hk
    rw [validateTripTry_to_schedule (fun j hj => hlow j (by omega)),
      validateSchedule_after_time h5, if_pos h6]
    exact Or.inr ⟨rfl, _, _, rfl, rfl, fun _ => rfl⟩
  | 7, hk, hlow =>
    have h5 : timeInvalid clock body = false := hlow 5 (by decide)
    have h6 : departurePast clock body = false := hlow 6 (by decide)
    have h7 : arrivalNotAfter clock body = true := hk
    rw [validateTripTry_to_schedule (fun j hj => hlow j (by omega)),
      validateSchedule_after_time h5, if_neg (Bool.eq_false_iff.1 h6), if_pos h7]
    exact Or.inr ⟨rfl, _, _, rfl, rfl, fun _ => rfl⟩
  | 8, hk, hlow =>
    have h5 : timeInvalid clock body = false := hlow 5 (by decide)
    have h6 : departurePast clock body = false := hlow 6 (by decide)
    have h7 : arrivalNotAfter clock body = false := hlow 7 (by decide)
    have h8 : tripTooLong clock body = true := hk
    rw [validateTripTry_to_schedule (fun j hj => hlow j (by omega)),
      validateSchedule_after_time h5, if_neg (Bool.eq_false_iff.1 h6),
      if_neg (Bool.eq_false_iff.1 h7), if_pos h8]
    exact Or.inr ⟨rfl, _, _, rfl, rfl, fun _ => rfl⟩
  | 9, hk, hlow =>
    rw [validateTripTry_to_payment hlow]
    rcases validatePayment_of_invalid hk with h | ⟨xs, _, _, _, h⟩
    · exact Or.inr ⟨rfl, _, _, h, rfl, fun _ => rfl⟩
    · exact Or.inr ⟨rfl, _, _, h, rfl, fun _ => rfl⟩
  | 10, hk, hlow =>
    have h9 : paymentInvalid body = false := hlow 9 (by decide)
    have h10 : routeInvalid body = true := hk
    rw [validateTripTry_to_payment (fun j hj => hlow j (by omega)),
      validatePayment_after_methods h9, if_pos h10]
    exact Or.inr ⟨rfl, _, _, rfl, rfl, fun h => absurd rfl h⟩
  | 11, hk, hlow =>
    have h9 : paymentInvalid body = false := hlow 9 (by decide)
    have h10 : routeInvalid body = false := hlow 10 (by decide)
    have h11 : optionalInvalid body = true := hk
    rw [validateTripTry_to_payment (fun j hj => hlow j (by omega)),
      validatePayment_after_methods h9, if_neg (Bool.eq_false_iff.1 h10)]
    by_cases ha : (truthy (getProp body "affinity") &&
        !isString (getProp body "affinity")) = true
    · rw [if_pos ha]
      exact Or.inr ⟨rfl, _, _, rfl, rfl, fun _ => rfl⟩
    · rw [if_neg ha]
      have hb : (truthy (getProp body "description") &&
          !isString (getProp body "description")) = true := by
        unfold optionalInvalid at h11
        rw [Bool.eq_false_iff.2 ha, Bool.false_or] at h11
        exact h11
      rw [if_pos hb]
      exact Or.inr ⟨rfl, _, _, rfl, rfl, fun _ => rfl⟩
  | n + 12, hk, _ => simp [violates] at hk

/-- A payload that violates no category is accepted. -/
theorem validateTripTry_of_no_violation {clock : Clock} {body : JSObject}
    (h : ∀ j, violates clock body j = false) :
    validateTripTry clock body = Except.ok Outcome.next := by
  have h9 : paymentInvalid body = false := h 9
  have h10 : routeInvalid body = false := h 10
  have h11 : optionalInvalid body = false := h 11
  unfold optionalInvalid at h11
  rw [Bool.or_eq_false_iff] at h11
  rw [validateTripTry_to_payment (fun j _ => h j), validatePayment_after_methods h9,
    if_neg (Bool.eq_false_iff.1 h10), if_neg (Bool.eq_false_iff.1 h11.1),
    if_neg (Bool.eq_false_iff.1 h11.2)]

/-- Among the categories a payload violates there is a lowest-numbered one. -/
theorem exists_lowest_violated {clock : Clock} {body : JSObject} {j : Nat}
    (hj : violates clock body j = true) :
    ∃ k, k ≤ j ∧ violates clock body k = true ∧ ∀ i, i < k → violates clock body i = false := by
  have hex : ∃ n, violates clock body n = true := ⟨j, hj⟩
  refine ⟨Nat.find hex, Nat.find_min' hex hj, Nat.find_spec hex, ?_⟩
  intro i hi
  have := Nat.find_min hex hi
  simpa using this

/-- The validator accepts exactly the payloads that violate no category. -/
theorem validateTrip_next_iff_no_violation (clock : Clock) (body : JSObject) :
    validateTrip clock body = Outcome.next ↔ ∀ j, violates clock body j = false := by
  constructor
  · intro hn j
    by_contra hj
    have hj' : violates clock body j = true := by simpa using hj
    obtain ⟨k, _, hk, hlow⟩ := exists_lowest_violated hj'
    rcases validateTripTry_lowest clock body k hk hlow with ⟨_, he⟩ | ⟨_, msg, extra, hr, _⟩
    · unfold validateTrip at hn
      rw [he] at hn
      cases hn
    · rw [validateTrip_of_ok hr] at hn
      cases hn
  · intro h
    exact validateTrip_of_ok (validateTripTry_of_no_violation h)

theorem getProp_failure_message (status : Nat) (msg : String) (extra : JSObject) :
    getProp (failure status msg extra).body "message" = JSValue.str msg := by
  rfl

theorem getProp_failure_success (status : Nat) (msg : String) (extra : JSObject) :
    getProp (failure status msg extra).body "success" = JSValue.bool false := by
  rfl

theorem responseCategory_failure (status : Nat) (msg : String) (extra : JSObject) :
    responseCategory (failure status msg extra) = reasonCategory msg := by
  rfl

theorem validateTrip_of_error {clock : Clock} {body : JSObject}
    (h : validateTripTry clock body = Except.error conversionError) :
    validateTrip clock body = Outcome.respond conversionErrorResponse := by
  unfold validateTrip
  rw [h]
  rfl

/-- The answer of the validator to a payload whose lowest-numbered violated category is `k`:
the status 500 answer when the check of category `k` raises, else a status 400 failure with a
reason of category `k`, which carries `validRoutes` only for category 10. -/
theorem validateTrip_lowest {clock : Clock} {body : JSObject} {k : Nat}
    (hk : violates clock body k = true)
    (hlow : ∀ j, j < k → violates clock body j = false) :
    (raisesAt body k = true ∧
      validateTrip clock body = Outcome.respond conversionErrorResponse) ∨
    (raisesAt body k = false ∧
      ∃ msg extra, validateTrip clock body = Outcome.respond (failure 400 msg extra) ∧
        reasonCategory msg = some k ∧ (k ≠ 10 → extra.lookup "validRoutes" = none)) := by
  rcases validateTripTry_lowest clock body k hk hlow with ⟨hr, he⟩ | ⟨hr, msg, extra, h, hc, hx⟩
  · exact Or.inl ⟨hr, validateTrip_of_error he⟩
  · exact Or.inr ⟨hr, msg, extra, validateTrip_of_ok h, hc, hx⟩

/-- Every answer of the validator is that to the lowest-numbered category the payload
violates: a status 400 failure with a reason of that category, or the status 500 answer when the
check of that category raises. -/
theorem validateTrip_respond_failure {clock : Clock} {body : JSObject} {r : Response}
    (h : validateTrip clock body = Outcome.respond r) :
    ∃ k, violates clock body k = true ∧ (∀ i, i < k → violates clock body i = false) ∧
      ((raisesAt body k = true ∧ r = conversionErrorResponse) ∨
        (raisesAt body k = false ∧ ∃ msg extra, r = failure 400 msg extra ∧
          reasonCategory msg = some k ∧ (k ≠ 10 → extra.lookup "validRoutes" = none))) := by
  have hnot : ¬ ∀ j, violates clock body j = false := by
    intro hall
    rw [(validateTrip_next_iff_no_violation clock body).2 hall] at h
    cases h
  rw [not_forall] at hnot
  obtain ⟨j, hj⟩ := hnot
  have hj' : violates clock body j = true := by simpa using hj
  obtain ⟨k, _, hk, hlow⟩ := exists_lowest_violated hj'
  refine ⟨k, hk, hlow, ?_⟩
  rcases validateTrip_lowest hk hlow with ⟨hr, he⟩ | ⟨hr, msg, extra, hv, hc, hx⟩
  · rw [he] at h
    injection h with h
    exact Or.inl ⟨hr, h.symm⟩
  · rw [hv] at h
    injection h with h
    exact Or.inr ⟨hr, msg, extra, h.symm, hc, hx⟩

/-- A payload that violates a category is answered, with status 400 or, when a conversion
raises, with status 500. -/
theorem rejected_of_violation {clock : Clock} {body : JSObject} {j : Nat}
    (hj : violates clock body j = true) :
    ∃ r, validateTrip clock body = Outcome.respond r ∧ (r.status = 400 ∨ r.status = 500) := by
  cases hv : validateTrip clock body with
  | next =>
    have := (validateTrip_next_iff_no_violation clock body).1 hv j
    rw [this] at hj
    cases hj
  | respond r => exact ⟨r, rfl, validateTrip_respond_status hv⟩

theorem includesValue_iff (xs : List String) (v : JSValue) :
    includesValue xs v = true ↔ ∃ s ∈ xs, v = JSValue.str s := by
  cases v <;> simp [includesValue]

theorem routeInvalid_iff (body : JSObject) :
    routeInvalid body = true ↔
      ∀ route ∈ VALID_ROUTES, getProp body "routeTag" ≠ JSValue.str route.1 := by
  unfold routeInvalid
  rw [Bool.not_eq_true', ← Bool.not_eq_true, includesValue_iff]
  constructor
  · intro h route hr heq
    exact h ⟨route.1, List.mem_map.2 ⟨route, hr, rfl⟩, heq⟩
  · rintro h ⟨s, hs, heq⟩
    obtain ⟨route, hr, rfl⟩ := List.mem_map.1 hs
    exact h route hr heq

theorem mem_invalidMethods_iff (xs : List JSValue) (x : JSValue) :
    x ∈ invalidMethods xs ↔ x ∈ xs ∧ ∀ m ∈ VALID_PAYMENT_METHODS, x ≠ JSValue.str m := by
  unfold invalidMethods
  rw [List.mem_filter, Bool.not_eq_true', ← Bool.not_eq_true, includesValue_iff]
  constructor
  · rintro ⟨hx, h⟩
    exact ⟨hx, fun m hm heq => h ⟨m, hm, heq⟩⟩
  · rintro ⟨hx, h⟩
    exact ⟨hx, fun ⟨m, hm, heq⟩ => h m hm heq⟩

/-! ## Claims on the validator -/

/-- C12, failing input. At 10:00 UTC of 1 January 2030 (05:00 local time) the sample payload,
dated 2030-01-01 with departure 08:00 and arrival 09:00 local time, violates no check category
other than the date check; its date is the current calendar day in UTC and in local time; yet
`validateTrip` answers 400, `La fecha del viaje no puede ser anterior a la fecha actual`,
because the Date object of the trip date is midnight UTC, earlier than the current instant. -/
theorem today_trip_rejected :
    ([1, 2, 3, 5, 6, 7, 8, 9, 10, 11].all fun j =>
        !violates sampleTodayClock sampleBody j) = true ∧
      newDate sampleTodayClock (getProp sampleBody "tripDate") = some 1893456000000 ∧
      (1893456000000 : Int) / 86400000 = sampleTodayClock.now / 86400000 ∧
      (1893456000000 : Int) / 86400000 =
        (sampleTodayClock.now + sampleTodayClock.tzOffsetMinutes * 60000) / 86400000 ∧
      timeOnTripDate sampleTodayClock sampleBody "departureTime" = some 1893502800000 ∧
      sampleTodayClock.now ≤ 1893502800000 ∧
      validateTrip sampleTodayClock sampleBody =
        Outcome.respond (failure 400
          "La fecha del viaje no puede ser anterior a la fecha actual" []) :=
  ⟨by decide, rfl, by decide, by decide, rfl, by decide, rfl⟩

/-! ## The check categories of the validator and their wording

Each category as the validator computes it (`violates`) holds exactly when the property that
words it (`TestedViolates`) holds. -/

theorem truthy_eq_false_iff (v : JSValue) : truthy v = false ↔ IsFalsy v := by
  unfold IsFalsy
  cases v with
  | undefined => simp [truthy]
  | null => simp [truthy]
  | bool b => cases b <;> simp [truthy]
  | num n => cases n <;> simp [truthy]
  | str s => simp [truthy]
  | arr xs => simp [truthy]
  | obj fields => simp [truthy]
  | date t => simp [truthy]

theorem dropWhile_eq_nil_of_all_mem {p : Char → Bool} {cs : List Char}
    (h : ∀ c ∈ cs.dropWhile p, p c = true) : cs.dropWhile p = [] := by
  by_contra hne
  have hhead := List.head_dropWhile_not p cs hne
  have hmem := List.head_mem hne
  rw [h _ hmem] at hhead
  cases hhead

/-- Trimming leaves nothing exactly of the texts all of whose characters are white space. -/
theorem jsTrim_eq_nil_iff (cs : List Char) :
    jsTrim cs = [] ↔ ∀ c ∈ cs, isJSWhiteSpace c = true := by
  unfold jsTrim
  rw [List.reverse_eq_nil_iff, List.dropWhile_eq_nil_iff]
  constructor
  · intro h
    have hnil : cs.dropWhile isJSWhiteSpace = [] :=
      dropWhile_eq_nil_of_all_mem fun c hc => h c (List.mem_reverse.2 hc)
    exact List.dropWhile_eq_nil_iff.1 hnil
  · intro h c hc
    rw [List.dropWhile_eq_nil_iff.2 h] at hc
    simp at hc

theorem blankText_iff (v : JSValue) :
    blankText v = true ↔ ∀ s : String, v = JSValue.str s → IsBlank s := by
  cases v with
  | str s =>
    simp only [blankText, decide_eq_true_eq, List.length_eq_zero, JSValue.str.injEq]
    rw [jsTrim_eq_nil_iff]
    constructor
    · intro h s' hs
      subst hs
      exact h
    · intro h
      exact h s rfl
  | _ => simp [blankText]

theorem missingRequired_iff (body : JSObject) :
    missingRequired body = true ↔ ∃ f ∈ requiredFields, IsFalsy (getProp body f) := by
  unfold missingRequired
  rw [decide_eq_true_eq, gt_iff_lt, List.length_pos]
  constructor
  · intro hne
    obtain ⟨f, hf⟩ := List.exists_mem_of_ne_nil _ hne
    rw [List.mem_filter] at hf
    refine ⟨f, hf.1, (truthy_eq_false_iff _).1 ?_⟩
    simpa using hf.2
  · rintro ⟨f, hf, hfalsy⟩
    refine List.ne_nil_of_mem (List.mem_filter.2 ⟨hf, ?_⟩)
    simp [(truthy_eq_false_iff _).2 hfalsy]

theorem textInvalid_iff (body : JSObject) :
    textInvalid body = true ↔
      ∃ f ∈ ["origin", "destination"],
        ∀ s : String, getProp body f = JSValue.str s → IsBlank s := by
  unfold textInvalid textFields
  simp only [List.any_cons, List.any_nil, Bool.or_false, Bool.or_eq_true, blankText_iff,
    List.mem_cons, List.mem_singleton, List.not_mem_nil, or_false, exists_eq_or_imp,
    exists_eq_left]

theorem costInvalid_iff (body : JSObject) :
    costInvalid body = true ↔ ¬ CostInRange body := by
  rw [← Bool.not_eq_false, not_iff_not]
  unfold costInvalid CostInRange ConvertsTo
  rw [Bool.or_eq_false_iff, Bool.or_eq_false_iff, cost_checks_iff]
  constructor
  · rintro ⟨h0, c, hc, hb⟩
    exact ⟨c, ⟨h0, hc⟩, hb⟩
  · rintro ⟨c, ⟨h0, hc⟩, hb⟩
    exact ⟨h0, c, hc, hb⟩

theorem dateInvalid_iff (clock : Clock) (body : JSObject) :
    dateInvalid clock body = true ↔
      (¬ MatchesDatePattern (getProp body "tripDate") ∨
        ∀ t : Int, newDate clock (getProp body "tripDate") = some t → t < clock.now) := by
  unfold dateInvalid MatchesDatePattern
  cases hc : convertThrows (getProp body "tripDate") <;>
    cases hr : dateRegexTest (toStr (getProp body "tripDate")) <;>
    cases hd : newDate clock (getProp body "tripDate") <;>
    simp [dateLt]

theorem timeInvalid_iff (clock : Clock) (body : JSObject) :
    timeInvalid clock body = true ↔
      (¬ MatchesTimePattern (getProp body "departureTime") ∨
        ¬ MatchesTimePattern (getProp body "arrivalTime") ∨
        timeOnTripDate clock body "departureTime" = none ∨
        timeOnTripDate clock body "arrivalTime" = none) := by
  unfold timeInvalid timeTextInvalid MatchesTimePattern
  cases hc1 : convertThrows (getProp body "departureTime") <;>
    cases hr1 : timeRegexTest (toStr (getProp body "departureTime")) <;>
    cases hc2 : convertThrows (getProp body "arrivalTime") <;>
    cases hr2 : timeRegexTest (toStr (getProp body "arrivalTime")) <;>
    cases hd : timeOnTripDate clock body "departureTime" <;>
    cases ha : timeOnTripDate clock body "arrivalTime" <;>
    simp

theorem departurePast_iff (clock : Clock) (body : JSObject) :
    departurePast clock body = true ↔
      ∃ dep : Int, timeOnTripDate clock body "departureTime" = some dep ∧ dep < clock.now := by
  unfold departurePast
  cases hd : timeOnTripDate clock body "departureTime" <;> simp [dateLt]

theorem arrivalNotAfter_iff (clock : Clock) (body : JSObject) :
    arrivalNotAfter clock body = true ↔
      ∃ dep arr : Int, TripInstants clock body dep arr ∧ arr ≤ dep := by
  unfold arrivalNotAfter TripInstants
  cases hd : timeOnTripDate clock body "departureTime" with
  | none => cases ha : timeOnTripDate clock body "arrivalTime" <;> simp [dateLe]
  | some dep =>
    cases ha : timeOnTripDate clock body "arrivalTime" with
    | none => simp [dateLe]
    | some arr =>
      simp only [dateLe, decide_eq_true_eq, Option.some.injEq]
      constructor
      · intro h
        exact ⟨dep, arr, ⟨rfl, rfl⟩, h⟩
      · rintro ⟨dep', arr', ⟨h1, h2⟩, h⟩
        subst h1 h2
        exact h

theorem tripTooLong_iff (clock : Clock) (body : JSObject) :
    tripTooLong clock body = true ↔
      ∃ dep arr : Int, TripInstants clock body dep arr ∧ threeHoursMs < arr - dep := by
  unfold tripTooLong TripInstants
  cases hd : timeOnTripDate clock body "departureTime" with
  | none => cases ha : timeOnTripDate clock body "arrivalTime" <;> simp [hoursBetween, JSNumber.lt]
  | some dep =>
    cases ha : timeOnTripDate clock body "arrivalTime" with
    | none => simp [hoursBetween, JSNumber.lt]
    | some arr =>
      simp only [hoursBetween, JSNumber.lt, decide_eq_true_eq, Option.some.injEq,
        threeHoursMs]
      have h := hoursBetween_not_gt_three (arr - dep)
      constructor
      · intro h3
        refine ⟨dep, arr, ⟨rfl, rfl⟩, ?_⟩
        by_contra hle
        exact (h.2 (by omega)) h3
      · rintro ⟨dep', arr', ⟨h1, h2⟩, hlt⟩
        subst h1 h2
        by_contra h3
        have := h.1 h3
        omega

theorem paymentInvalid_iff (body : JSObject) :
    paymentInvalid body = true ↔
      ∀ xs : List JSValue, getProp body "paymentMethods" = JSValue.arr xs →
        xs = [] ∨ ∃ x ∈ xs, ∀ m ∈ VALID_PAYMENT_METHODS, x ≠ JSValue.str m := by
  unfold paymentInvalid
  cases hp : getProp body "paymentMethods" with
  | arr xs =>
    simp only [isArray, lengthIsZero, Bool.not_true, Bool.false_or, Bool.or_eq_true,
      decide_eq_true_eq, List.length_eq_zero, gt_iff_lt, List.length_pos, JSValue.arr.injEq]
    constructor
    · intro h ys hys
      subst hys
      rcases h with h | h
      · exact Or.inl h
      · obtain ⟨x, hx⟩ := List.exists_mem_of_ne_nil _ h
        exact Or.inr ⟨x, ((mem_invalidMethods_iff xs x).1 hx).1,
          ((mem_invalidMethods_iff xs x).1 hx).2⟩
    · intro h
      rcases h xs rfl with h | ⟨x, hx, hbad⟩
      · exact Or.inl h
      · exact Or.inr (List.ne_nil_of_mem ((mem_invalidMethods_iff xs x).2 ⟨hx, hbad⟩))
  | _ => simp [isArray]

theorem isString_eq_false_iff (v : JSValue) : isString v = false ↔ ¬ IsText v := by
  unfold IsText
  cases v <;> simp [isString]

theorem optionalInvalid_iff (body : JSObject) :
    optionalInvalid body = true ↔
      ∃ f ∈ ["affinity", "description"],
        ¬ IsFalsy (getProp body f) ∧ ¬ IsText (getProp body f) := by
  unfold optionalInvalid
  simp only [Bool.or_eq_true, Bool.and_eq_true, Bool.not_eq_true', isString_eq_false_iff,
    List.mem_cons, List.mem_singleton, List.not_mem_nil, or_false, exists_eq_or_imp,
    exists_eq_left, ← truthy_eq_false_iff, Bool.not_eq_false]

/-- Each check category as the validator computes it is the category in words. -/
theorem violates_iff_tested (clock : Clock) (body : JSObject) (k : Nat) :
    violates clock body k = true ↔ TestedViolates clock body k := by
  match k with
  | 0 => simp [violates, TestedViolates]
  | 1 => exact missingRequired_iff body
  | 2 => exact textInvalid_iff body
  | 3 => exact costInvalid_iff body
  | 4 => exact dateInvalid_iff clock body
  | 5 => exact timeInvalid_iff clock body
  | 6 => exact departurePast_iff clock body
  | 7 => exact arrivalNotAfter_iff clock body
  | 8 => exact tripTooLong_iff clock body
  | 9 => exact paymentInvalid_iff body
  | 10 => exact routeInvalid_iff body
  | 11 => exact optionalInvalid_iff body
  | n + 12 => simp [violates, TestedViolates]

theorem violates_eq_false_iff (clock : Clock) (body : JSObject) (k : Nat) :
    violates clock body k = false ↔ ¬ TestedViolates clock body k := by
  rw [← violates_iff_tested, Bool.not_eq_true]

/-! ## The answers of the validator when no conversion raises -/

theorem raisesAt_of_noConversionRaises {body : JSObject} (h : NoConversionRaises body)
    (k : Nat) : raisesAt body k = false := by
  obtain ⟨hc, hd, hdep, harr⟩ := h
  match k with
  | 0 => rfl
  | 1 => rfl
  | 2 => rfl
  | 3 => exact hc
  | 4 => exact hd
  | 5 => simp [raisesAt, hdep, harr]
  | n + 6 => rfl

/-- An answer of the validator is a status 400 answer or the status 500 answer to a conversion
that raised; it has status 400 when no conversion raises on the payload. -/
theorem validateTrip_respond_cases {clock : Clock} {body : JSObject} {r : Response}
    (h : validateTrip clock body = Outcome.respond r) :
    (r.status = 400 ∨ r = conversionErrorResponse) ∧
      (NoConversionRaises body → r.status = 400) := by
  obtain ⟨k, _, _, hcase⟩ := validateTrip_respond_failure h
  rcases hcase with ⟨hr, he⟩ | ⟨_, msg, extra, he, _, _⟩
  · refine ⟨Or.inr he, fun hno => ?_⟩
    rw [raisesAt_of_noConversionRaises hno k] at hr
    cases hr
  · subst he
    exact ⟨Or.inl rfl, fun _ => rfl⟩

/-- A payload that violates a category is answered: with status 400, or with the status 500
answer to a conversion that raised; with status 400 when no conversion raises. -/
theorem rejected_cases_of_violation {clock : Clock} {body : JSObject} {j : Nat}
    (hj : violates clock body j = true) :
    ∃ r, validateTrip clock body = Outcome.respond r ∧
      (r.status = 400 ∨ r = conversionErrorResponse) ∧
      (NoConversionRaises body → r.status = 400) := by
  obtain ⟨r, hr, _⟩ := rejected_of_violation hj
  exact ⟨r, hr, validateTrip_respond_cases hr⟩

theorem getProp_failure_validRoutes (status : Nat) (msg : String) (extra : JSObject)
    (h : extra.lookup "validRoutes" = none) :
    getProp (failure status msg extra).body "validRoutes" = JSValue.undefined := by
  unfold getProp failure
  simp only [List.cons_append, List.nil_append]
  rw [lookup_cons_ite, lookup_cons_ite, h]
  rfl

/-- The categories other than 1 and 3 are not violated when the validator computes none of
them. -/
theorem not_tested_of_computed {clock : Clock} {body : JSObject}
    (h : ([2, 4, 5, 6, 7, 8, 9, 10, 11].all fun j => !violates clock body j) = true) (j : Nat)
    (h1 : j ≠ 1) (h3 : j ≠ 3) : ¬ TestedViolates clock body j := by
  rw [← violates_eq_false_iff]
  simp only [List.all_cons, List.all_nil, Bool.and_true, Bool.and_eq_true,
    Bool.not_eq_true'] at h
  obtain ⟨a2, a4, a5, a6, a7, a8, a9, a10, a11⟩ := h
  match j, h1, h3 with
  | 0, _, _ => rfl
  | 1, h1, _ => exact absurd rfl h1
  | 2, _, _ => exact a2
  | 3, _, h3 => exact absurd rfl h3
  | 4, _, _ => exact a4
  | 5, _, _ => exact a5
  | 6, _, _ => exact a6
  | 7, _, _ => exact a7
  | 8, _, _ => exact a8
  | 9, _, _ => exact a9
  | 10, _, _ => exact a10
  | 11, _, _ => exact a11
  | n + 12, _, _ => rfl

/-- The constraints on the fields other than `cost`, from the computed categories. -/
theorem otherFieldsValid_of_computed {clock : Clock} {body : JSObject}
    (hreq : ∀ f ∈ requiredFields, f ≠ "cost" → truthy (getProp body f) = true)
    (h : ([2, 4, 5, 6, 7, 8, 9, 10, 11].all fun j => !violates clock body j) = true) :
    OtherFieldsValid clock body := by
  refine ⟨fun f hf hne hfalsy => ?_, not_tested_of_computed h⟩
  rw [← truthy_eq_false_iff, hreq f hf hne] at hfalsy
  cases hfalsy

/-- With the other fields valid, a cost within the bounds leaves no category violated. -/
theorem no_violation_of_costInRange {clock : Clock} {body : JSObject}
    (hother : OtherFieldsValid clock body) (hcost : CostInRange body) (j : Nat) :
    violates clock body j = false := by
  rw [violates_eq_false_iff]
  by_cases h1 : j = 1
  · subst h1
    rintro ⟨f, hf, hfalsy⟩
    by_cases hc : f = "cost"
    · subst hc
      obtain ⟨c, ⟨_, hconv⟩, hlo, _⟩ := hcost
      rw [← truthy_eq_false_iff, truthy_of_cost_in_range _ c hconv hlo] at hfalsy
      cases hfalsy
    · exact hother.1 f hf hc hfalsy
  · by_cases h3 : j = 3
    · subst h3
      exact fun hnot => hnot hcost
    · exact hother.2 j h1 h3

/-- With the other fields valid, a number other than 0 and outside the bounds as cost is
answered with status 400 and a reason of category 3. -/
theorem rejected_of_cost_number {clock : Clock} {body : JSObject}
    (hother : OtherFieldsValid clock body) {c : ℚ}
    (hc : getProp body "cost" = JSValue.num (JSNumber.fin c)) (h0 : c ≠ 0)
    (hout : c < 1000 ∨ 100000 < c) :
    ∃ r, validateTrip clock body = Outcome.respond r ∧ r.status = 400 ∧
      responseCategory r = some 3 := by
  have h3 : violates clock body 3 = true := by
    rw [violates_iff_tested]
    rintro ⟨c', ⟨_, hconv⟩, hlo, hhi⟩
    rw [hc] at hconv
    simp only [toNumber, JSNumber.fin.injEq] at hconv
    subst hconv
    rcases hout with h | h
    · exact absurd hlo (not_le.2 h)
    · exact absurd hhi (not_le.2 h)
  have h2 : violates clock body 2 = false :=
    (violates_eq_false_iff clock body 2).2 (hother.2 2 (by decide) (by decide))
  have h1 : violates clock body 1 = false := by
    rw [violates_eq_false_iff]
    rintro ⟨f, hf, hfalsy⟩
    by_cases hcost : f = "cost"
    · subst hcost
      rw [hc, ← truthy_eq_false_iff] at hfalsy
      simp [truthy, h0] at hfalsy
    · exact hother.1 f hf hcost hfalsy
  have hraise3 : raisesAt body 3 = false := by
    show convertThrows (getProp body "cost") = false
    rw [hc]
    rfl
  rcases validateTrip_lowest h3 (fun i hi => by
    have hi' : i = 0 ∨ i = 1 ∨ i = 2 := by omega
    rcases hi' with rfl | rfl | rfl
    · rfl
    · exact h1
    · exact h2) with ⟨hr, _⟩ | ⟨_, msg, extra, hv, hcat, _⟩
  · rw [hraise3] at hr
    cases hr
  · exact ⟨_, hv, rfl, by rw [responseCategory_failure, hcat]⟩

/-! ## Claims on ownership, duration and cost -/

/-- C5, counterexample. A caller who is not the driver of the stored trip sends `PUT /:id`
with an empty payload: the answer has status 400, not 403. -/
theorem update_by_stranger_invalid_payload :
    getProp sampleTrip "driverId" ≠ JSValue.str "x9" ∧
      (updateTrip sampleClock [("t1", sampleTrip)] "t1" "x9" []).1.status = 400 ∧
      (updateTrip sampleClock [("t1", sampleTrip)] "t1" "x9" []).1.status ≠ 403 := by
  refine ⟨?_, by decide, by decide⟩
  intro h
  injection h with h
  exact absurd h (by decide)

/-- C5, amended. For an existing trip and a caller different from its `driverId`:
`DELETE /:id` answers Forbidden (403) and leaves the store unchanged; `PUT /:id` leaves the
store unchanged whatever the payload, answers Forbidden (403) when `validateTrip` accepts the
payload, and otherwise answers what `validateTrip` answers: a status 400 answer, or the status
500 answer of its `catch` when a conversion of a field raises (status 400 whenever no
conversion raises). -/
theorem ownership_enforced (clock : Clock) (trips : Store) (tripId userId : String)
    (body doc : JSObject) (hd : getDoc trips tripId = some doc)
    (hne : getProp doc "driverId" ≠ JSValue.str userId) :
    deleteTrip trips tripId userId = (forbiddenDelete, trips) ∧
      forbiddenDelete.status = 403 ∧ forbiddenUpdate.status = 403 ∧
      (updateTrip clock trips tripId userId body).2 = trips ∧
      (validateTrip clock body = Outcome.next →
        (updateTrip clock trips tripId userId body).1 = forbiddenUpdate) ∧
      (∀ r, validateTrip clock body = Outcome.respond r →
        (updateTrip clock trips tripId userId body).1 = r ∧
        (r.status = 400 ∨ r = conversionErrorResponse) ∧
        (NoConversionRaises body → r.status = 400)) ∧
      conversionErrorResponse.status = 500 := by
  have hs := (strictNeStr_iff _ _).2 hne
  have hupd : updateTripHandler clock trips tripId userId body = (forbiddenUpdate, trips) := by
    simp [updateTripHandler, hd, hs, forbiddenUpdate]
  refine ⟨by simp [deleteTrip, hd, hs, forbiddenDelete], rfl, rfl, ?_, ?_, ?_, rfl⟩
  · unfold updateTrip
    cases hv : validateTrip clock body with
    | respond r => rfl
    | next => simp only [hupd]
  · intro hv
    unfold updateTrip
    rw [hv]
    simp only [hupd]
  · intro r hr
    refine ⟨?_, validateTrip_respond_cases hr⟩
    unfold updateTrip
    rw [hr]

/-- C5, amended, at the sample trip of driver `d1` and the caller `x9`: with the sample payload
the answer is Forbidden, with the sample payload whose cost is `{"toString": 1}` it is the
status 500 answer of the validator; the store is unchanged. -/
theorem ownership_enforced_witness :
    deleteTrip [("t1", sampleTrip)] "t1" "x9" = (forbiddenDelete, [("t1", sampleTrip)]) ∧
      (updateTrip sampleClock [("t1", sampleTrip)] "t1" "x9" sampleBody).2
        = [("t1", sampleTrip)] ∧
      (updateTrip sampleClock [("t1", sampleTrip)] "t1" "x9" sampleBody).1 = forbiddenUpdate ∧
      (updateTrip sampleClock [("t1", sampleTrip)] "t1" "x9" sampleBodyThrowingCost).1
        = conversionErrorResponse ∧
      (updateTrip sampleClock [("t1", sampleTrip)] "t1" "x9" sampleBodyThrowingCost).2
        = [("t1", sampleTrip)] ∧
      conversionErrorResponse.status = 500 :=
  have hne : getProp sampleTrip "driverId" ≠ JSValue.str "x9" := by
    intro h; injection h with h; exact absurd h (by decide)
  have h := ownership_enforced sampleClock [("t1", sampleTrip)] "t1" "x9" sampleBody sampleTrip
    rfl hne
  have h' := ownership_enforced sampleClock [("t1", sampleTrip)] "t1" "x9"
    sampleBodyThrowingCost sampleTrip rfl hne
  ⟨h.1, h.2.2.2.1, h.2.2.2.2.1 rfl, (h'.2.2.2.2.2.1 conversionErrorResponse rfl).1,
    h'.2.2.2.1, rfl⟩

/-- C9, counterexample. The sample payload with the arrival 07:00, one hour before the
departure 08:00, and the cost `{"toString": 1}`: the call `Number(cost)` raises before the time
checks are reached, and the answer has status 500, not 400. -/
theorem backwards_trip_answered_500 :
    timeOnTripDate sampleClock sampleBodyBackwardsThrowingCost "departureTime"
        = some 1893502800000 ∧
      timeOnTripDate sampleClock sampleBodyBackwardsThrowingCost "arrivalTime"
        = some 1893499200000 ∧
      (1893499200000 : Int) ≤ 1893502800000 ∧
      validateTrip sampleClock sampleBodyBackwardsThrowingCost =
        Outcome.respond conversionErrorResponse ∧
      conversionErrorResponse.status = 500 ∧ conversionErrorResponse.status ≠ 400 :=
  ⟨rfl, rfl, by decide, rfl, rfl, by decide⟩

/-- C9, amended. Duration bound: whenever `validateTrip` accepts (calls `next`), the arrival
instant is strictly later than the departure instant and at most 3 hours later; and a payload
whose arrival instant is not later than its departure instant, or more than 3 hours later, is
rejected whatever its other fields: with status 400, or with the status 500 answer of the
`catch` when a conversion of a field raises (status 400 whenever no conversion raises). -/
theorem duration_bound (clock : Clock) (body : JSObject) :
    (validateTrip clock body = Outcome.next →
      ∃ dep arr : Int,
        timeOnTripDate clock body "departureTime" = some dep ∧
        timeOnTripDate clock body "arrivalTime" = some arr ∧
        dep < arr ∧ arr - dep ≤ threeHoursMs) ∧
    (∀ dep arr : Int,
      timeOnTripDate clock body "departureTime" = some dep →
      timeOnTripDate clock body "arrivalTime" = some arr →
      arr ≤ dep ∨ threeHoursMs < arr - dep →
      ∃ r, validateTrip clock body = Outcome.respond r ∧
        (r.status = 400 ∨ r = conversionErrorResponse) ∧
        (NoConversionRaises body → r.status = 400)) := by
  have haccept : validateTrip clock body = Outcome.next →
      ∃ dep arr : Int,
        timeOnTripDate clock body "departureTime" = some dep ∧
        timeOnTripDate clock body "arrivalTime" = some arr ∧
        dep < arr ∧ arr - dep ≤ threeHoursMs := by
    intro h
    rw [validateTrip_eq_next_iff, validateTripTry_next_iff] at h
    have hdate := h.2.2.2
    rw [validateDate_next_iff] at hdate
    have hsched := hdate.2.2
    rw [validateSchedule_next_iff] at hsched
    obtain ⟨dep, arr, hd, ha, _, hlt, hle⟩ := hsched.2.2.1
    exact ⟨dep, arr, hd, ha, hlt, by unfold threeHoursMs; omega⟩
  refine ⟨haccept, ?_⟩
  intro dep arr hd ha hbad
  cases hv : validateTrip clock body with
  | next =>
    exfalso
    obtain ⟨dep', arr', hd', ha', hlt, hle⟩ := haccept hv
    rw [hd] at hd'
    rw [ha] at ha'
    injection hd' with hd'
    injection ha' with ha'
    subst hd' ha'
    rcases hbad with hb | hb <;> omega
  | respond r => exact ⟨r, rfl, validateTrip_respond_cases hv⟩

/-- C9, amended, at the sample payload (accepted, one hour), at the sample payload with an
arrival four and a half hours after the departure (status 400), and at the sample payload with
an arrival before the departure and a cost whose conversion raises (status 500). -/
theorem duration_bound_witness :
    (∃ dep arr : Int,
        timeOnTripDate sampleClock sampleBody "departureTime" = some dep ∧
        timeOnTripDate sampleClock sampleBody "arrivalTime" = some arr ∧
        dep < arr ∧ arr - dep ≤ threeHoursMs) ∧
    (∃ r, validateTrip sampleClock sampleBodyLongTrip = Outcome.respond r ∧
      (r.status = 400 ∨ r = conversionErrorResponse) ∧
      (NoConversionRaises sampleBodyLongTrip → r.status = 400)) ∧
    NoConversionRaises sampleBodyLongTrip ∧
    (∃ r, validateTrip sampleClock sampleBodyBackwardsThrowingCost = Outcome.respond r ∧
      (r.status = 400 ∨ r = conversionErrorResponse) ∧
      (NoConversionRaises sampleBodyBackwardsThrowingCost → r.status = 400)) :=
  ⟨(duration_bound sampleClock sampleBody).1 rfl,
    (duration_bound sampleClock sampleBodyLongTrip).2 1893502800000 1893519000000 rfl rfl
      (Or.inr (by decide)),
    ⟨rfl, rfl, rfl, rfl⟩,
    (duration_bound sampleClock sampleBodyBackwardsThrowingCost).2 1893502800000 1893499200000
      rfl rfl (Or.inl (by decide))⟩

/-- C10, failing input and what holds. At 10:00 UTC of 1 January 2030 the sample payload,
whose other fields satisfy every constraint of the specification (it is dated on the current
day) and whose cost 50000 lies within the bounds, is rejected with the answer of the date check:
the validator compares midnight UTC of the trip date with the current instant.  With the
constraints on the other fields taken as the validator tests them, `validateTrip` accepts if and
only if the cost converts to a number `c` with `1000 <= c <= 100000`; the cost 500 is rejected
with status 400 and a reason of the cost check, and the costs 50000, 1000 and 100000 are
accepted. -/
theorem cost_bounds :
    (SpecOtherFieldsValid sampleTodayClock sampleBody ∧
      ConvertsTo (getProp sampleBody "cost") 50000 ∧
      validateTrip sampleTodayClock sampleBody =
        Outcome.respond (failure 400
          "La fecha del viaje no puede ser anterior a la fecha actual" []) ∧
      TestedViolates sampleTodayClock sampleBody 4) ∧
    (∀ (clock : Clock) (body : JSObject), OtherFieldsValid clock body →
      (validateTrip clock body = Outcome.next ↔ CostInRange body) ∧
      (getProp body "cost" = JSValue.num (JSNumber.fin 500) →
        ∃ r, validateTrip clock body = Outcome.respond r ∧ r.status = 400 ∧
          responseCategory r = some 3) ∧
      (getProp body "cost" = JSValue.num (JSNumber.fin 50000) →
        validateTrip clock body = Outcome.next) ∧
      (getProp body "cost" = JSValue.num (JSNumber.fin 1000) →
        validateTrip clock body = Outcome.next) ∧
      (getProp body "cost" = JSValue.num (JSNumber.fin 100000) →
        validateTrip clock body = Outcome.next)) := by
  have hnum : ∀ (clock : Clock) (body : JSObject) (c : ℚ), OtherFieldsValid clock body →
      getProp body "cost" = JSValue.num (JSNumber.fin c) → 1000 ≤ c → c ≤ 100000 →
      validateTrip clock body = Outcome.next := by
    intro clock body c hother hc hlo hhi
    rw [validateTrip_next_iff_no_violation]
    refine no_violation_of_costInRange hother ⟨c, ⟨?_, ?_⟩, hlo, hhi⟩
    · rw [hc]; rfl
    · rw [hc]; rfl
  refine ⟨⟨⟨?_, ?_⟩, ⟨rfl, rfl⟩, rfl, ?_⟩, ?_⟩
  · intro f hf hne
    simp only [requiredFields, List.mem_cons, List.mem_singleton, List.not_mem_nil,
      or_false] at hf
    rcases hf with rfl | rfl | rfl | rfl | rfl | rfl | rfl | rfl <;>
      first
        | exact absurd rfl hne
        | (intro h; cases h)
  · intro j h1 h3
    have hcomp : ([2, 5, 6, 7, 8, 9, 10].all fun j =>
        !violates sampleTodayClock sampleBody j) = true := by decide
    simp only [List.all_cons, List.all_nil, Bool.and_true, Bool.and_eq_true,
      Bool.not_eq_true'] at hcomp
    obtain ⟨a2, a5, a6, a7, a8, a9, a10⟩ := hcomp
    match j, h1, h3 with
    | 0, _, _ => exact fun h => h
    | 1, h1, _ => exact absurd rfl h1
    | 2, _, _ => exact (violates_eq_false_iff _ _ 2).1 a2
    | 3, _, h3 => exact absurd rfl h3
    | 4, _, _ =>
      intro h
      exact h ⟨2030, 1, 1, ⟨⟨rfl, rfl⟩, rfl, by decide, by decide, by decide, by decide⟩,
        by decide⟩
    | 5, _, _ => exact (violates_eq_false_iff _ _ 5).1 a5
    | 6, _, _ => exact (violates_eq_false_iff _ _ 6).1 a6
    | 7, _, _ => exact (violates_eq_false_iff _ _ 7).1 a7
    | 8, _, _ => exact (violates_eq_false_iff _ _ 8).1 a8
    | 9, _, _ => exact (violates_eq_false_iff _ _ 9).1 a9
    | 10, _, _ => exact (violates_eq_false_iff _ _ 10).1 a10
    | 11, _, _ =>
      rintro ⟨f, hf, v, hv, _⟩
      simp only [List.mem_cons, List.mem_singleton, List.not_mem_nil, or_false] at hf
      rcases hf with rfl | rfl <;> cases hv
    | n + 12, _, _ => exact fun h => h
  · exact (violates_iff_tested sampleTodayClock sampleBody 4).1 rfl
  · intro clock body hother
    refine ⟨?_, ?_, ?_, ?_, ?_⟩
    · constructor
      · intro hv
        have h3 := (validateTrip_next_iff_no_violation clock body).1 hv 3
        rw [violates_eq_false_iff] at h3
        exact not_not.1 h3
      · intro hcost
        rw [validateTrip_next_iff_no_violation]
        exact no_violation_of_costInRange hother hcost
    · intro hc
      exact rejected_of_cost_number hother hc (by norm_num) (Or.inl (by norm_num))
    · intro hc
      exact hnum clock body 50000 hother hc (by norm_num) (by norm_num)
    · intro hc
      exact hnum clock body 1000 hother hc (by norm_num) (by norm_num)
    · intro hc
      exact hnum clock body 100000 hother hc (by norm_num) (by norm_num)

/-- C10 at the sample payload and the sample clock, where the other fields are valid as the
validator tests them: the payload is accepted, its cost 50000 being within the bounds; with the
text `-5000`, with the text `1e5 ` and with the text `100000.00000000000000001`, which is
rounded to the double 100000, as cost, acceptance follows the bounds as well. -/
theorem cost_bounds_witness :
    OtherFieldsValid sampleClock sampleBody ∧
    (validateTrip sampleClock sampleBody = Outcome.next ↔ CostInRange sampleBody) ∧
    validateTrip sampleClock sampleBody = Outcome.next ∧
    (validateTrip sampleClock (setField "cost" (JSValue.str "-5000") sampleBody)
        = Outcome.next ↔
      CostInRange (setField "cost" (JSValue.str "-5000") sampleBody)) ∧
    toNumber (JSValue.str "-5000") = JSNumber.fin (-5000) ∧
    validateTrip sampleClock (setField "cost" (JSValue.str "-5000") sampleBody) =
      Outcome.respond (failure 400 "El costo debe ser un número válido mayor a 0" []) ∧
    toNumber (JSValue.str "1e5 ") = JSNumber.fin 100000 ∧
    validateTrip sampleClock (setField "cost" (JSValue.str "1e5 ") sampleBody) = Outcome.next ∧
    toNumber (JSValue.str "100000.00000000000000001") = JSNumber.fin 100000 ∧
    validateTrip sampleClock
      (setField "cost" (JSValue.str "100000.00000000000000001") sampleBody) = Outcome.next :=
  have hother : OtherFieldsValid sampleClock sampleBody :=
    otherFieldsValid_of_computed (by decide) (by decide)
  have hneg : OtherFieldsValid sampleClock (setField "cost" (JSValue.str "-5000") sampleBody) :=
    otherFieldsValid_of_computed (by decide) (by decide)
  ⟨hother, (cost_bounds.2 sampleClock sampleBody hother).1,
    (cost_bounds.2 sampleClock sampleBody hother).2.2.1 rfl,
    (cost_bounds.2 sampleClock _ hneg).1, by decide, rfl, by decide, rfl, by decide, rfl⟩

/-! ## Claims on the checks of the validator -/

/-- The lowest-numbered category a payload violates, among the categories in words. -/
theorem exists_lowest_tested {clock : Clock} {body : JSObject} {j : Nat}
    (hj : TestedViolates clock body j) :
    ∃ k, k ≤ j ∧ TestedViolates clock body k ∧ ∀ i, i < k → ¬ TestedViolates clock body i := by
  obtain ⟨k, hkj, hk, hlow⟩ := exists_lowest_violated ((violates_iff_tested clock body j).2 hj)
  exact ⟨k, hkj, (violates_iff_tested clock body k).1 hk,
    fun i hi => (violates_eq_false_iff clock body i).1 (hlow i hi)⟩

/-- The answer of the validator to a payload whose lowest-numbered violated category, among
the categories in words, is `k`. -/
theorem validateTrip_lowest_tested {clock : Clock} {body : JSObject} {k : Nat}
    (hk : TestedViolates clock body k) (hlow : ∀ i, i < k → ¬ TestedViolates clock body i) :
    ∃ r, validateTrip clock body = Outcome.respond r ∧
      (k ≠ 10 → getProp r.body "validRoutes" = JSValue.undefined) ∧
      ((raisesAt body k = false ∧ r.status = 400 ∧ responseCategory r = some k) ∨
        (raisesAt body k = true ∧ r = conversionErrorResponse)) := by
  rcases validateTrip_lowest ((violates_iff_tested clock body k).2 hk)
      (fun i hi => (violates_eq_false_iff clock body i).2 (hlow i hi)) with
    ⟨hr, hv⟩ | ⟨hr, msg, extra, hv, hcat, hx⟩
  · exact ⟨_, hv, fun _ => rfl, Or.inr ⟨hr, rfl⟩⟩
  · refine ⟨_, hv, fun h10 => getProp_failure_validRoutes _ _ _ (hx h10), Or.inl ⟨hr, rfl, ?_⟩⟩
    rw [responseCategory_failure, hcat]

/-- C11, counterexample. A payload whose only field is `routeTag: "unknown"`: the answer is the
missing-fields answer, which carries no `validRoutes`. -/
theorem unknown_route_without_enumeration :
    routeInvalid sampleBodyOnlyRoute = true ∧
      (∀ route ∈ VALID_ROUTES, getProp sampleBodyOnlyRoute "routeTag" ≠ JSValue.str route.1) ∧
      validateTrip sampleClock sampleBodyOnlyRoute =
        Outcome.respond (missingFieldsResponse
          ["tripDate", "origin", "destination", "arrivalTime", "departureTime", "cost",
           "paymentMethods"]) ∧
      getProp (missingFieldsResponse
          ["tripDate", "origin", "destination", "arrivalTime", "departureTime", "cost",
           "paymentMethods"]).body "validRoutes" = JSValue.undefined :=
  ⟨rfl, (routeInvalid_iff sampleBodyOnlyRoute).1 rfl, rfl, rfl⟩

/-- C11, amended. A payload whose `routeTag` is not the id of an entry of `VALID_ROUTES` is
rejected whatever its other fields: with status 400, or with the status 500 answer of the
`catch` when a conversion of a field raises (status 400 whenever no conversion raises).  When
it passes the checks of categories 1 to 9, the answer is `Ruta no válida`, with status 400 and
with `validRoutes`, the whole list of the ten valid routes.  Otherwise the answer is that of the
lowest-numbered category `k < 10` it violates (status 400 and a reason of category `k`, or the
status 500 answer when the check of category `k` raises), and carries no `validRoutes`. -/
theorem unknown_route_rejected (clock : Clock) (body : JSObject)
    (hroute : ∀ route ∈ VALID_ROUTES, getProp body "routeTag" ≠ JSValue.str route.1) :
    (∃ r, validateTrip clock body = Outcome.respond r ∧
      (r.status = 400 ∨ r = conversionErrorResponse) ∧
      (NoConversionRaises body → r.status = 400)) ∧
    ((∀ j, j < 10 → ¬ TestedViolates clock body j) →
      validateTrip clock body = Outcome.respond invalidRouteResponse ∧
      invalidRouteResponse.status = 400 ∧
      getProp invalidRouteResponse.body "validRoutes" = validRoutesValue ∧
      validRoutesValue = JSValue.arr (VALID_ROUTES.map fun r =>
        JSValue.obj [("id", JSValue.str r.1), ("name", JSValue.str r.2)]) ∧
      VALID_ROUTES.length = 10) ∧
    (∀ k, k < 10 → TestedViolates clock body k →
      (∀ i, i < k → ¬ TestedViolates clock body i) →
      ∃ r, validateTrip clock body = Outcome.respond r ∧
        getProp r.body "validRoutes" = JSValue.undefined ∧
        ((raisesAt body k = false ∧ r.status = 400 ∧ responseCategory r = some k) ∨
          (raisesAt body k = true ∧ r = conversionErrorResponse))) := by
  have h10 : routeInvalid body = true := (routeInvalid_iff body).2 hroute
  have hv10 : violates clock body 10 = true := h10
  refine ⟨rejected_cases_of_violation hv10, fun hlow => ⟨?_, rfl, rfl, rfl, rfl⟩, ?_⟩
  · have hlow' : ∀ j, j < 10 → violates clock body j = false :=
      fun j hj => (violates_eq_false_iff clock body j).2 (hlow j hj)
    have h9 : paymentInvalid body = false := hlow' 9 (by decide)
    apply validateTrip_of_ok
    rw [validateTripTry_to_payment (fun j hj => hlow' j (by omega)),
      validatePayment_after_methods h9, if_pos h10]
  · intro k hk10 hk hlow
    obtain ⟨r, hv, hx, hcase⟩ := validateTrip_lowest_tested hk hlow
    exact ⟨r, hv, hx (by omega), hcase⟩

/-- C11, amended, at the sample payload with the route `unknown` (the answer carries
`validRoutes`), at the sample payload with the route `unknown` and an arrival four and a half
hours after the departure (the answer is that of the duration check, without `validRoutes`),
and at the sample payload with the route `unknown` and the cost `{"toString": 1}` (the status
500 answer, without `validRoutes`). -/
theorem unknown_route_rejected_witness :
    validateTrip sampleClock sampleBodyUnknownRoute = Outcome.respond invalidRouteResponse ∧
      getProp invalidRouteResponse.body "validRoutes" = validRoutesValue ∧
      (∃ r, validateTrip sampleClock sampleBodyLongUnknownRoute = Outcome.respond r ∧
        getProp r.body "validRoutes" = JSValue.undefined ∧
        ((raisesAt sampleBodyLongUnknownRoute 8 = false ∧ r.status = 400 ∧
            responseCategory r = some 8) ∨
          (raisesAt sampleBodyLongUnknownRoute 8 = true ∧ r = conversionErrorResponse))) ∧
      (∃ r, validateTrip sampleClock sampleBodyUnknownRouteThrowingCost = Outcome.respond r ∧
        getProp r.body "validRoutes" = JSValue.undefined ∧
        ((raisesAt sampleBodyUnknownRouteThrowingCost 3 = false ∧ r.status = 400 ∧
            responseCategory r = some 3) ∨
          (raisesAt sampleBodyUnknownRouteThrowingCost 3 = true ∧
            r = conversionErrorResponse))) ∧
      validateTrip sampleClock sampleBodyUnknownRouteThrowingCost =
        Outcome.respond conversionErrorResponse :=
  have hunknown : ∀ body : JSObject, getProp body "routeTag" = JSValue.str "unknown" →
      ∀ route ∈ VALID_ROUTES, getProp body "routeTag" ≠ JSValue.str route.1 := by
    intro body hb route hr heq
    rw [hb] at heq
    injection heq with hs
    have hm : route.1 ∈ VALID_ROUTES.map fun r => r.1 := List.mem_map_of_mem _ hr
    rw [← hs] at hm
    exact absurd hm (by decide)
  have hbelow : ∀ (body : JSObject) (k : Nat),
      ((List.range k).all fun j => !violates sampleClock body j) = true →
      ∀ j, j < k → ¬ TestedViolates sampleClock body j := by
    intro body k hall j hj
    rw [List.all_eq_true] at hall
    have := hall j (List.mem_range.2 hj)
    rw [← violates_eq_false_iff]
    simpa using this
  have h1 := (unknown_route_rejected sampleClock sampleBodyUnknownRoute
    (hunknown _ rfl)).2.1 (hbelow _ 10 (by decide))
  have h2 := (unknown_route_rejected sampleClock sampleBodyLongUnknownRoute
    (hunknown _ rfl)).2.2 8 (by decide)
    ((violates_iff_tested sampleClock sampleBodyLongUnknownRoute 8).1 rfl)
    (hbelow _ 8 (by decide))
  have h3 := (unknown_route_rejected sampleClock sampleBodyUnknownRouteThrowingCost
    (hunknown _ rfl)).2.2 3 (by decide)
    ((violates_iff_tested sampleClock sampleBodyUnknownRouteThrowingCost 3).1 rfl)
    (hbelow _ 3 (by decide))
  ⟨h1.1, h1.2.2.1, h2, h3, rfl⟩

/-- A payload violates no category of the specification below `k` when it holds every required
field, is dated by a date of the calendar not earlier than the current date, holds no optional
field, and the validator computes no other category below `k`. -/
theorem not_specViolates {clock : Clock} {body : JSObject} {i : Nat}
    (hreq : ∀ f ∈ requiredFields, (body.lookup f).isSome = true)
    (hdate : ∃ y m d : Nat, TripDateIs body y m d ∧ currentDay clock ≤ daysFromCivil y m d)
    (hopt : ∀ f ∈ ["affinity", "description"], body.lookup f = none)
    (h : i ≠ 1 → i ≠ 4 → i ≠ 11 → violates clock body i = false) :
    ¬ SpecViolates clock body i := by
  match i, h with
  | 0, _ => exact fun h => h
  | 1, _ =>
    rintro ⟨f, hf, hnone⟩
    have := hreq f hf
    rw [hnone] at this
    cases this
  | 2, h => exact (violates_eq_false_iff _ _ 2).1 (h (by decide) (by decide) (by decide))
  | 3, h => exact (violates_eq_false_iff _ _ 3).1 (h (by decide) (by decide) (by decide))
  | 4, _ => exact fun hnot => hnot hdate
  | 5, h => exact (violates_eq_false_iff _ _ 5).1 (h (by decide) (by decide) (by decide))
  | 6, h => exact (violates_eq_false_iff _ _ 6).1 (h (by decide) (by decide) (by decide))
  | 7, h => exact (violates_eq_false_iff _ _ 7).1 (h (by decide) (by decide) (by decide))
  | 8, h => exact (violates_eq_false_iff _ _ 8).1 (h (by decide) (by decide) (by decide))
  | 9, h => exact (violates_eq_false_iff _ _ 9).1 (h (by decide) (by decide) (by decide))
  | 10, h => exact (violates_eq_false_iff _ _ 10).1 (h (by decide) (by decide) (by decide))
  | 11, _ =>
    rintro ⟨f, hf, v, hv, _⟩
    rw [hopt f hf] at hv
    cases hv
  | n + 12, _ => exact fun h => h

/-- C13, counterexample. Three payloads that violate a category of the specification and are
not answered with status 400 and the reason of the lowest-numbered category they violate.  The
sample payload with the cost 0 holds every required field and violates the cost bounds
(category 3): it is answered with the reason of the required fields (category 1).  At 10:00 UTC
of 1 January 2030 the sample payload, dated on the current day, with an unknown route violates
category 10 and no lower category: it is answered with the reason of the date check (category
4).  The sample payload with the cost `{"toString": 1}` violates category 3 and no lower
category: it is answered with status 500. -/
theorem precedence_counterexamples :
    (SpecViolates sampleClock sampleBodyCostZero 3 ∧
      (∀ i, i < 3 → ¬ SpecViolates sampleClock sampleBodyCostZero i) ∧
      validateTrip sampleClock sampleBodyCostZero =
        Outcome.respond (missingFieldsResponse ["cost"]) ∧
      responseCategory (missingFieldsResponse ["cost"]) = some 1) ∧
    (SpecViolates sampleTodayClock sampleBodyUnknownRoute 10 ∧
      (∀ i, i < 10 → ¬ SpecViolates sampleTodayClock sampleBodyUnknownRoute i) ∧
      currentDay sampleTodayClock = currentLocalDay sampleTodayClock ∧
      validateTrip sampleTodayClock sampleBodyUnknownRoute =
        Outcome.respond (failure 400
          "La fecha del viaje no puede ser anterior a la fecha actual" []) ∧
      responseCategory (failure 400
          "La fecha del viaje no puede ser anterior a la fecha actual" []) = some 4) ∧
    (SpecViolates sampleClock sampleBodyThrowingCost 3 ∧
      (∀ i, i < 3 → ¬ SpecViolates sampleClock sampleBodyThrowingCost i) ∧
      validateTrip sampleClock sampleBodyThrowingCost =
        Outcome.respond conversionErrorResponse ∧
      conversionErrorResponse.status = 500 ∧ conversionErrorResponse.status ≠ 400) := by
  have hdate : ∀ body : JSObject, getProp body "tripDate" = JSValue.str "2030-01-01" →
      ∀ clock : Clock, currentDay clock ≤ 21915 →
      ∃ y m d : Nat, TripDateIs body y m d ∧ currentDay clock ≤ daysFromCivil y m d := by
    intro body hb clock hday
    refine ⟨2030, 1, 1, ⟨⟨?_, ?_⟩, ?_, by decide, by decide, by decide, by decide⟩, ?_⟩
    · rw [hb]; rfl
    · rw [hb]; rfl
    · rw [hb]; rfl
    · exact hday
  have hopt : ∀ body : JSObject, body.lookup "affinity" = none →
      body.lookup "description" = none →
      ∀ f ∈ ["affinity", "description"], body.lookup f = none := by
    intro body ha hd f hf
    simp only [List.mem_cons, List.mem_singleton, List.not_mem_nil, or_false] at hf
    rcases hf with rfl | rfl
    · exact ha
    · exact hd
  have hbelow : ∀ (clock : Clock) (body : JSObject) (k : Nat),
      ((List.range k).all fun j =>
        decide (j = 1) || decide (j = 4) || !violates clock body j) = true →
      ∀ i, i < k → i ≠ 1 → i ≠ 4 → i ≠ 11 → violates clock body i = false := by
    intro clock body k hall i hi h1 h4 _
    rw [List.all_eq_true] at hall
    have := hall i (List.mem_range.2 hi)
    simpa [h1, h4] using this
  refine ⟨⟨?_, ?_, rfl, rfl⟩, ⟨?_, ?_, by decide, rfl, rfl⟩, ⟨?_, ?_, rfl, rfl, by decide⟩⟩
  · exact (violates_iff_tested sampleClock sampleBodyCostZero 3).1 rfl
  · intro i hi
    exact not_specViolates (by decide)
      (hdate sampleBodyCostZero rfl sampleClock (by decide)) (hopt _ rfl rfl)
      (hbelow _ _ 3 (by decide) i hi)
  · exact (violates_iff_tested sampleTodayClock sampleBodyUnknownRoute 10).1 rfl
  · intro i hi
    exact not_specViolates (by decide)
      (hdate sampleBodyUnknownRoute rfl sampleTodayClock (by decide)) (hopt _ rfl rfl)
      (hbelow _ _ 10 (by decide) i hi)
  · exact (violates_iff_tested sampleClock sampleBodyThrowingCost 3).1 rfl
  · intro i hi
    exact not_specViolates (by decide)
      (hdate sampleBodyThrowingCost rfl sampleClock (by decide)) (hopt _ rfl rfl)
      (hbelow _ _ 3 (by decide) i hi)

/-- C13, amended. Check precedence, the categories being what the validator tests
(`TestedViolates`): a payload that violates a category `j` is answered according to the
lowest-numbered category `k` it violates, in the order required fields, text fields, cost, trip
date, time format and parse, departure not in the past, arrival after departure, duration,
payment methods, route, optional fields: with status 400 and a reason of category `k`, or, when
the conversion made by the check of category `k` (3, 4 or 5) raises, with the status 500 answer
of the `catch`.  So no reason of a later category is reported while an earlier category is
violated, and when no conversion raises the answer has status 400. -/
theorem check_precedence (clock : Clock) (body : JSObject) (j : Nat)
    (hj : TestedViolates clock body j) :
    ∃ k r, k ≤ j ∧ TestedViolates clock body k ∧
      (∀ i, i < k → ¬ TestedViolates clock body i) ∧
      validateTrip clock body = Outcome.respond r ∧
      ((raisesAt body k = false ∧ r.status = 400 ∧ responseCategory r = some k) ∨
        (raisesAt body k = true ∧ r = conversionErrorResponse ∧ r.status = 500)) ∧
      (NoConversionRaises body → r.status = 400 ∧ responseCategory r = some k) := by
  obtain ⟨k, hkj, hk, hlow⟩ := exists_lowest_tested hj
  obtain ⟨r, hv, _, hcase⟩ := validateTrip_lowest_tested hk hlow
  refine ⟨k, r, hkj, hk, hlow, hv, ?_, ?_⟩
  · rcases hcase with h | ⟨hr, he⟩
    · exact Or.inl h
    · subst he
      exact Or.inr ⟨hr, rfl, rfl⟩
  · intro hno
    rcases hcase with ⟨_, hs, hc⟩ | ⟨hr, _⟩
    · exact ⟨hs, hc⟩
    · rw [raisesAt_of_noConversionRaises hno k] at hr
      cases hr

/-- C13, amended, at the sample payload with a trip of four and a half hours (category 8) and
an unknown route (category 10), answered with the reason of category 8; at the sample payload
with the origin `"  "`, blank once trimmed (category 2); and at the sample payload with an
arrival equal to the departure (category 7). -/
theorem check_precedence_witness :
    TestedViolates sampleClock sampleBodyLongUnknownRoute 10 ∧
      validateTrip sampleClock sampleBodyLongUnknownRoute =
        Outcome.respond (failure 400 "El viaje no puede durar más de 3 horas" []) ∧
      (∃ k r, k ≤ 10 ∧ TestedViolates sampleClock sampleBodyLongUnknownRoute k ∧
        (∀ i, i < k → ¬ TestedViolates sampleClock sampleBodyLongUnknownRoute i) ∧
        validateTrip sampleClock sampleBodyLongUnknownRoute = Outcome.respond r ∧
        ((raisesAt sampleBodyLongUnknownRoute k = false ∧ r.status = 400 ∧
            responseCategory r = some k) ∨
          (raisesAt sampleBodyLongUnknownRoute k = true ∧ r = conversionErrorResponse ∧
            r.status = 500)) ∧
        (NoConversionRaises sampleBodyLongUnknownRoute →
          r.status = 400 ∧ responseCategory r = some k)) ∧
      TestedViolates sampleClock (setField "origin" (JSValue.str "  ") sampleBody) 2 ∧
      validateTrip sampleClock (setField "origin" (JSValue.str "  ") sampleBody) =
        Outcome.respond (blankTextResponse "Origen") ∧
      TestedViolates sampleClock (setField "arrivalTime" (JSValue.str "08:00") sampleBody) 7 ∧
      validateTrip sampleClock (setField "arrivalTime" (JSValue.str "08:00") sampleBody) =
        Outcome.respond (failure 400
          "La hora de llegada debe ser posterior a la hora de salida" []) :=
  have h10 : TestedViolates sampleClock sampleBodyLongUnknownRoute 10 :=
    (violates_iff_tested sampleClock sampleBodyLongUnknownRoute 10).1 rfl
  ⟨h10, rfl, check_precedence sampleClock sampleBodyLongUnknownRoute 10 h10,
    (violates_iff_tested sampleClock _ 2).1 rfl, rfl,
    (violates_iff_tested sampleClock _ 7).1 rfl, rfl⟩

/-- C17, counterexample. The sample payload with the text `nequi` for `paymentMethods`, which
is not an array, and the cost `{"toString": 1}`: the call `Number(cost)` raises before the
check of the payment methods is reached, and the answer has status 500, not 400. -/
theorem text_methods_answered_500 :
    isArray (getProp sampleBodyTextMethodsThrowingCost "paymentMethods") = false ∧
      validateTrip sampleClock sampleBodyTextMethodsThrowingCost =
        Outcome.respond conversionErrorResponse ∧
      conversionErrorResponse.status = 500 ∧ conversionErrorResponse.status ≠ 400 :=
  ⟨rfl, rfl, rfl, by decide⟩

/-- C17, amended. Invalid payment methods report: a payload that passes the checks of
categories 1 to 8 and whose `paymentMethods` is a non-empty array with at least one element
outside `VALID_PAYMENT_METHODS` is answered with status 400, `invalidPaymentMethods` being
exactly the elements of `paymentMethods` that are not valid methods, in input order, and
`validPaymentMethods` the full enumeration; and a payload whose `paymentMethods` is not an
array or is empty is rejected: with status 400, or with the status 500 answer of the `catch`
when a conversion of a field raises (status 400 whenever no conversion raises). -/
theorem invalid_payment_methods_report :
    (∀ (clock : Clock) (body : JSObject) (xs : List JSValue),
      (∀ j, j < 9 → ¬ TestedViolates clock body j) →
      getProp body "paymentMethods" = JSValue.arr xs → xs ≠ [] →
      (∃ x ∈ xs, ∀ m ∈ VALID_PAYMENT_METHODS, x ≠ JSValue.str m) →
      validateTrip clock body = Outcome.respond (invalidMethodsResponse (invalidMethods xs)) ∧
      (invalidMethodsResponse (invalidMethods xs)).status = 400 ∧
      getProp (invalidMethodsResponse (invalidMethods xs)).body "invalidPaymentMethods" =
        JSValue.arr (invalidMethods xs) ∧
      getProp (invalidMethodsResponse (invalidMethods xs)).body "validPaymentMethods" =
        JSValue.arr [JSValue.str "nequi", JSValue.str "daviplata", JSValue.str "efectivo"] ∧
      (invalidMethods xs).Sublist xs ∧
      ∀ x, x ∈ invalidMethods xs ↔ x ∈ xs ∧ ∀ m ∈ VALID_PAYMENT_METHODS, x ≠ JSValue.str m) ∧
    (∀ (clock : Clock) (body : JSObject),
      isArray (getProp body "paymentMethods") = false ∨
        getProp body "paymentMethods" = JSValue.arr [] →
      ∃ r, validateTrip clock body = Outcome.respond r ∧
        (r.status = 400 ∨ r = conversionErrorResponse) ∧
        (NoConversionRaises body → r.status = 400)) := by
  constructor
  · intro clock body xs hlow hp hne hbad
    have hlow' : ∀ j, j < 9 → violates clock body j = false :=
      fun j hj => (violates_eq_false_iff clock body j).2 (hlow j hj)
    obtain ⟨x, hx, hxbad⟩ := hbad
    have hmem : x ∈ invalidMethods xs := (mem_invalidMethods_iff xs x).2 ⟨hx, hxbad⟩
    have hlen : (List.filter (fun method => !includesValue VALID_PAYMENT_METHODS method)
        xs).length > 0 := List.length_pos.2 (List.ne_nil_of_mem hmem)
    have ha : ¬ (!isArray (JSValue.arr xs) || lengthIsZero (JSValue.arr xs)) = true := by
      simp [isArray, lengthIsZero, hne]
    refine ⟨?_, rfl, rfl, rfl, List.filter_sublist xs, mem_invalidMethods_iff xs⟩
    apply validateTrip_of_ok
    rw [validateTripTry_to_payment hlow']
    unfold validatePayment
    simp only []
    rw [hp, if_neg ha]
    simp only [callFilter]
    rw [if_pos hlen]
    rfl
  · intro clock body hbad
    have h9 : violates clock body 9 = true := by
      show paymentInvalid body = true
      unfold paymentInvalid
      rcases hbad with h | h
      · simp [h]
      · rw [h]
        simp [isArray, lengthIsZero]
    exact rejected_cases_of_violation h9

/-- C17, amended, at the sample payload with the payment methods `nequi`, `bitcoin` and the
number 5, at the sample payload with an empty list of payment methods (status 400), and at the
sample payload with the text `nequi` for `paymentMethods` and a cost whose conversion raises
(status 500). -/
theorem invalid_payment_methods_report_witness :
    validateTrip sampleClock sampleBodyBadMethods =
        Outcome.respond (invalidMethodsResponse
          (invalidMethods
            [JSValue.str "nequi", JSValue.str "bitcoin", JSValue.num (JSNumber.fin 5)])) ∧
      invalidMethods [JSValue.str "nequi", JSValue.str "bitcoin", JSValue.num (JSNumber.fin 5)]
        = [JSValue.str "bitcoin", JSValue.num (JSNumber.fin 5)] ∧
      (∃ r, validateTrip sampleClock (setField "paymentMethods" (JSValue.arr []) sampleBody) =
        Outcome.respond r ∧ (r.status = 400 ∨ r = conversionErrorResponse) ∧
        (NoConversionRaises (setField "paymentMethods" (JSValue.arr []) sampleBody) →
          r.status = 400)) ∧
      NoConversionRaises (setField "paymentMethods" (JSValue.arr []) sampleBody) ∧
      (∃ r, validateTrip sampleClock sampleBodyTextMethodsThrowingCost =
        Outcome.respond r ∧ (r.status = 400 ∨ r = conversionErrorResponse) ∧
        (NoConversionRaises sampleBodyTextMethodsThrowingCost → r.status = 400)) :=
  ⟨(invalid_payment_methods_report.1 sampleClock sampleBodyBadMethods
      [JSValue.str "nequi", JSValue.str "bitcoin", JSValue.num (JSNumber.fin 5)]
      (by
        intro j hj
        rw [← violates_eq_false_iff]
        have hj' : j = 0 ∨ j = 1 ∨ j = 2 ∨ j = 3 ∨ j = 4 ∨ j = 5 ∨ j = 6 ∨ j = 7 ∨ j = 8 := by
          omega
        rcases hj' with rfl | rfl | rfl | rfl | rfl | rfl | rfl | rfl | rfl <;> rfl)
      rfl (by simp)
      ⟨JSValue.str "bitcoin", by simp, by
        intro m hm heq
        injection heq with heq
        rw [← heq] at hm
        exact absurd hm (by decide)⟩).1,
    rfl,
    invalid_payment_methods_report.2 sampleClock
      (setField "paymentMethods" (JSValue.arr []) sampleBody) (Or.inr rfl),
    ⟨rfl, rfl, rfl, rfl⟩,
    invalid_payment_methods_report.2 sampleClock sampleBodyTextMethodsThrowingCost
      (Or.inl rfl)⟩

/-! ## Optional fields -/

/-- The checks on payment methods, route and optional fields read the payload through
`paymentMethods`, `routeTag` and the two tests on the optional fields. -/
theorem validatePayment_congr_optional {b1 b2 : JSObject}
    (hreq : ∀ k ∈ requiredFields, getProp b1 k = getProp b2 k)
    (ha : (truthy (getProp b1 "affinity") && !isString (getProp b1 "affinity")) =
      (truthy (getProp b2 "affinity") && !isString (getProp b2 "affinity")))
    (hd : (truthy (getProp b1 "description") && !isString (getProp b1 "description")) =
      (truthy (getProp b2 "description") && !isString (getProp b2 "description"))) :
    validatePayment b1 = validatePayment b2 := by
  unfold validatePayment
  simp only []
  rw [hreq "paymentMethods" (by decide), hreq "routeTag" (by decide), ha, hd]

/-- The validator reads the payload through the eight required fields and the checks on
payment methods, route and optional fields. -/
theorem validateTrip_congr_required {clock : Clock} {b1 b2 : JSObject}
    (hreq : ∀ k ∈ requiredFields, getProp b1 k = getProp b2 k)
    (hpay : validatePayment b1 = validatePayment b2) :
    validateTrip clock b1 = validateTrip clock b2 := by
  have hdate := hreq "tripDate" (by decide)
  have hdep := hreq "departureTime" (by decide)
  have harr := hreq "arrivalTime" (by decide)
  have hcost := hreq "cost" (by decide)
  have hsched : validateSchedule clock b1 = validateSchedule clock b2 := by
    unfold validateSchedule timeOnTripDate
    rw [hdate, hdep, harr, hpay]
  have hd : validateDate clock b1 = validateDate clock b2 := by
    unfold validateDate
    rw [hdate, hsched]
  have hfilter : (requiredFields.filter fun field => !truthy (getProp b1 field)) =
      requiredFields.filter fun field => !truthy (getProp b2 field) := by
    apply List.filter_congr
    intro k hk
    rw [hreq k hk]
  have htext : checkTextFields b1 textFields = checkTextFields b2 textFields :=
    checkTextFields_congr textFields (fun f hf => hreq f.1 (by
      simp only [textFields, List.mem_cons, List.mem_singleton, List.not_mem_nil,
        or_false] at hf
      rcases hf with rfl | rfl <;> decide))
  unfold validateTrip validateTripTry
  rw [hfilter, htext, hcost, hd]

/-- A falsy value of an optional field is treated like any other falsy value of it, among them
`undefined`, the value of the absent field. -/
theorem validateTrip_setField_falsy (clock : Clock) (body : JSObject) (f : String)
    (hf : f ∈ ["affinity", "description"]) (v : JSValue) (hv : IsFalsy v)
    (hbody : IsFalsy (getProp body f)) :
    validateTrip clock (setField f v body) = validateTrip clock body := by
  have hv' := (truthy_eq_false_iff v).2 hv
  have hbody' := (truthy_eq_false_iff _).2 hbody
  have hreq : ∀ k ∈ requiredFields, getProp (setField f v body) k = getProp body k := by
    intro k hk
    rw [getProp_setField]
    have hne : k ≠ f := by
      simp only [List.mem_cons, List.mem_singleton, List.not_mem_nil, or_false] at hf
      simp only [requiredFields, List.mem_cons, List.mem_singleton, List.not_mem_nil,
        or_false] at hk
      rcases hf with rfl | rfl <;>
        rcases hk with rfl | rfl | rfl | rfl | rfl | rfl | rfl | rfl <;> decide
    simp [hne]
  apply validateTrip_congr_required hreq
  simp only [List.mem_cons, List.mem_singleton, List.not_mem_nil, or_false] at hf
  rcases hf with rfl | rfl
  · apply validatePayment_congr_optional hreq
    · rw [getProp_setField]
      simp [hv', hbody']
    · rw [getProp_setField]
      simp
  · apply validatePayment_congr_optional hreq
    · rw [getProp_setField]
      simp
    · rw [getProp_setField]
      simp [hv', hbody']

/-- C18, counterexample. The sample payload with the extra field `affinity: 0`, a value that is
present and is not text: `validateTrip` accepts it. -/
theorem affinity_zero_accepted :
    sampleBodyAffinityZero.lookup "affinity" = some (JSValue.num (JSNumber.fin 0)) ∧
      isString (JSValue.num (JSNumber.fin 0)) = false ∧
      validateTrip sampleClock sampleBodyAffinityZero = Outcome.next :=
  ⟨rfl, rfl, rfl⟩

/-- C18, amended. A payload in which `affinity` or `description` has a value that is neither
falsy nor text (a non-zero number, `true`, an array or an object) is rejected: with status 400,
or with the status 500 answer of the `catch` when a conversion of a field raises (status 400
whenever no conversion raises); when it passes the checks of categories 1 to 10 the answer is
`El campo afinidad debe ser texto` or `El campo descripción debe ser texto`.  A falsy value
(`0`, `false`, `null`, `NaN`, the empty string) of an optional field is treated like the absent
field: giving the field a falsy value, where it was absent or falsy, leaves the outcome of
`validateTrip` as it was. -/
theorem optional_fields_text :
    (∀ (clock : Clock) (body : JSObject),
      (∃ f ∈ ["affinity", "description"],
        ¬ IsFalsy (getProp body f) ∧ ¬ IsText (getProp body f)) →
      (∃ r, validateTrip clock body = Outcome.respond r ∧
        (r.status = 400 ∨ r = conversionErrorResponse) ∧
        (NoConversionRaises body → r.status = 400)) ∧
      ((∀ j, j < 11 → ¬ TestedViolates clock body j) →
        validateTrip clock body =
            Outcome.respond (failure 400 "El campo afinidad debe ser texto" []) ∨
          validateTrip clock body =
            Outcome.respond (failure 400 "El campo descripción debe ser texto" []))) ∧
    (∀ (clock : Clock) (body : JSObject) (f : String) (v : JSValue),
      f ∈ ["affinity", "description"] → IsFalsy v →
      (body.lookup f = none ∨ IsFalsy (getProp body f)) →
      validateTrip clock (setField f v body) = validateTrip clock body) := by
  constructor
  · intro clock body h
    have h11 : optionalInvalid body = true := (optionalInvalid_iff body).2 h
    have hv11 : violates clock body 11 = true := h11
    refine ⟨rejected_cases_of_violation hv11, fun hlow => ?_⟩
    have hlow' : ∀ j, j < 11 → violates clock body j = false :=
      fun j hj => (violates_eq_false_iff clock body j).2 (hlow j hj)
    have h9 : paymentInvalid body = false := hlow' 9 (by decide)
    have h10 : routeInvalid body = false := hlow' 10 (by decide)
    have hpay : validateTripTry clock body =
        if (truthy (getProp body "affinity") && !isString (getProp body "affinity")) = true
        then Except.ok (Outcome.respond (failure 400 "El campo afinidad debe ser texto" []))
        else if (truthy (getProp body "description") &&
            !isString (getProp body "description")) = true
        then Except.ok (Outcome.respond (failure 400 "El campo descripción debe ser texto" []))
        else Except.ok Outcome.next := by
      rw [validateTripTry_to_payment (fun j hj => hlow' j (by omega)),
        validatePayment_after_methods h9, if_neg (Bool.eq_false_iff.1 h10)]
    by_cases ha : (truthy (getProp body "affinity") &&
        !isString (getProp body "affinity")) = true
    · rw [if_pos ha] at hpay
      exact Or.inl (validateTrip_of_ok hpay)
    · rw [if_neg ha] at hpay
      have hb : (truthy (getProp body "description") &&
          !isString (getProp body "description")) = true := by
        unfold optionalInvalid at h11
        rw [Bool.eq_false_iff.2 ha, Bool.false_or] at h11
        exact h11
      rw [if_pos hb] at hpay
      exact Or.inr (validateTrip_of_ok hpay)
  · intro clock body f v hf hv hbody
    apply validateTrip_setField_falsy clock body f hf v hv
    rcases hbody with h | h
    · unfold getProp
      rw [h]
      exact Or.inl rfl
    · exact h

/-- C18, amended, at the sample payload with the extra field `affinity: 7` (status 400, the
answer of the affinity check), and at the sample payload given the field `affinity: 0` or
`description: null`, whose outcome is that of the sample payload: accepted. -/
theorem optional_fields_text_witness :
    (∃ r, validateTrip sampleClock sampleBodyAffinitySeven = Outcome.respond r ∧
      (r.status = 400 ∨ r = conversionErrorResponse) ∧
      (NoConversionRaises sampleBodyAffinitySeven → r.status = 400)) ∧
    validateTrip sampleClock sampleBodyAffinitySeven =
      Outcome.respond (failure 400 "El campo afinidad debe ser texto" []) ∧
    validateTrip sampleClock (setField "affinity" (JSValue.num (JSNumber.fin 0)) sampleBody) =
      validateTrip sampleClock sampleBody ∧
    validateTrip sampleClock (setField "description" JSValue.null sampleBody) =
      validateTrip sampleClock sampleBody ∧
    validateTrip sampleClock sampleBody = Outcome.next :=
  have hseven : ∃ f ∈ ["affinity", "description"],
      ¬ IsFalsy (getProp sampleBodyAffinitySeven f) ∧
        ¬ IsText (getProp sampleBodyAffinitySeven f) :=
    (optionalInvalid_iff sampleBodyAffinitySeven).1 rfl
  ⟨(optional_fields_text.1 sampleClock sampleBodyAffinitySeven hseven).1, rfl,
    optional_fields_text.2 sampleClock sampleBody "affinity" (JSValue.num (JSNumber.fin 0))
      (by simp) (Or.inr (Or.inr (Or.inr (Or.inr (Or.inl rfl))))) (Or.inl rfl),
    optional_fields_text.2 sampleClock sampleBody "description" JSValue.null
      (by simp) (Or.inr (Or.inl rfl)) (Or.inl rfl),
    rfl⟩

/-! ## Totality of the validator on flat request bodies -/

theorem anyConvertThrows_map_str (ss : List String) :
    anyConvertThrows (ss.map JSValue.str) = false := by
  induction ss with
  | nil => rfl
  | cons s rest ih =>
    show (convertThrows (JSValue.str s) || anyConvertThrows (rest.map JSValue.str)) = false
    rw [ih]
    rfl

theorem convertThrows_of_flatValue {v : JSValue} (h : FlatValue v) : convertThrows v = false := by
  rcases h with ⟨s, rfl⟩ | ⟨n, rfl⟩ | ⟨b, rfl⟩ | rfl | ⟨ss, rfl⟩
  · rfl
  · rfl
  · rfl
  · rfl
  · exact anyConvertThrows_map_str ss

theorem mem_of_lookup_eq_some {body : JSObject} {k : String} {v : JSValue}
    (h : body.lookup k = some v) : (k, v) ∈ body := by
  induction body with
  | nil => cases h
  | cons e rest ih =>
    obtain ⟨k1, v1⟩ := e
    rw [lookup_cons_ite] at h
    by_cases hk : k = k1
    · rw [if_pos hk] at h
      injection h with h
      subst hk h
      exact List.mem_cons_self _ _
    · rw [if_neg hk] at h
      exact List.mem_cons_of_mem _ (ih h)

theorem convertThrows_getProp_of_flat {body : JSObject} (h : FlatBody body) (k : String) :
    convertThrows (getProp body k) = false := by
  unfold getProp
  cases hl : body.lookup k with
  | none => rfl
  | some v => exact convertThrows_of_flatValue (h (k, v) (mem_of_lookup_eq_some hl))

theorem noConversionRaises_of_flat {body : JSObject} (h : FlatBody body) :
    NoConversionRaises body :=
  ⟨convertThrows_getProp_of_flat h _, convertThrows_getProp_of_flat h _,
    convertThrows_getProp_of_flat h _, convertThrows_getProp_of_flat h _⟩

/-- C20. Validator totality: on every request body whose field values are strings, numbers,
booleans, `null` or arrays of strings, and at every current instant, `validateTrip` has exactly
one outcome: it calls `next` and sends no response, or it sends one response, with status 400
and `success = false`, and does not call `next`; the `try` block raises no exception, so the
status 500 answer of the `catch` is never sent; and the request body is left as it was. -/
theorem validator_total (clock : Clock) (body : JSObject) (hflat : FlatBody body) :
    (validateTrip clock body = Outcome.next ∨
      ∃ r, validateTrip clock body = Outcome.respond r ∧ r.status = 400 ∧
        getProp r.body "success" = JSValue.bool false) ∧
    (∀ r, validateTrip clock body = Outcome.respond r → r.status ≠ 500) ∧
    (∀ e, validateTripTry clock body ≠ Except.error e) ∧
    (runValidateTrip clock body).1 = validateTrip clock body ∧
    (runValidateTrip clock body).2 = body := by
  have hno := noConversionRaises_of_flat hflat
  have h400 : ∀ r, validateTrip clock body = Outcome.respond r → r.status = 400 :=
    fun r hr => (validateTrip_respond_cases hr).2 hno
  refine ⟨?_, ?_, ?_, rfl, rfl⟩
  · cases hv : validateTrip clock body with
    | next => exact Or.inl rfl
    | respond r =>
      refine Or.inr ⟨r, rfl, h400 r hv, ?_⟩
      obtain ⟨k, _, _, hcase⟩ := validateTrip_respond_failure hv
      rcases hcase with ⟨_, he⟩ | ⟨_, msg, extra, he, _, _⟩
      · subst he; rfl
      · subst he; rfl
  · intro r hr
    rw [h400 r hr]
    decide
  · intro e he
    have hce := validateTripTry_error he
    subst hce
    have h := h400 _ (validateTrip_of_error he)
    exact absurd h (by decide)

/-- C20 at the sample payload, whose field values are strings, a number and an array of
strings: it is accepted; and at the empty payload: it is answered with status 400. -/
theorem validator_total_witness :
    FlatBody sampleBody ∧
    (validateTrip sampleClock sampleBody = Outcome.next ∨
      ∃ r, validateTrip sampleClock sampleBody = Outcome.respond r ∧ r.status = 400 ∧
        getProp r.body "success" = JSValue.bool false) ∧
    (∀ e, validateTripTry sampleClock sampleBody ≠ Except.error e) ∧
    (∀ r, validateTrip sampleClock [] = Outcome.respond r → r.status ≠ 500) :=
  have hflat : FlatBody sampleBody := by
    intro kv hkv
    simp only [sampleBody, List.mem_cons, List.mem_singleton, List.not_mem_nil,
      or_false] at hkv
    rcases hkv with rfl | rfl | rfl | rfl | rfl | rfl | rfl | rfl
    · exact Or.inl ⟨_, rfl⟩
    · exact Or.inl ⟨_, rfl⟩
    · exact Or.inl ⟨_, rfl⟩
    · exact Or.inl ⟨_, rfl⟩
    · exact Or.inl ⟨_, rfl⟩
    · exact Or.inr (Or.inl ⟨_, rfl⟩)
    · exact Or.inr (Or.inr (Or.inr (Or.inr ⟨["nequi"], rfl⟩)))
    · exact Or.inl ⟨_, rfl⟩
  have hempty : FlatBody [] := by
    intro kv hkv
    cases hkv
  ⟨hflat, (validator_total sampleClock sampleBody hflat).1,
    (validator_total sampleClock sampleBody hflat).2.2.1,
    (validator_total sampleClock [] hempty).2.1⟩

/-! ## The post-write check of trip creation -/

/-- An accepted `routeTag` is the id of a valid route, and no such id is empty. -/
theorem routeTag_of_next {clock : Clock} {body : JSObject}
    (hv : validateTrip clock body = Outcome.next) :
    ∃ route ∈ VALID_ROUTES, getProp body "routeTag" = JSValue.str route.1 ∧ route.1 ≠ "" := by
  have h10 : routeInvalid body = false := (validateTrip_next_iff_no_violation clock body).1 hv 10
  unfold routeInvalid at h10
  have hinc : includesValue (VALID_ROUTES.map fun route => route.1)
      (getProp body "routeTag") = true := by simpa using h10
  obtain ⟨s, hs, heq⟩ := (includesValue_iff _ _).1 hinc
  obtain ⟨route, hr, rfl⟩ := List.mem_map.1 hs
  have hall : ∀ r ∈ VALID_ROUTES, r.1 ≠ "" := by decide
  exact ⟨route, hr, heq, hall route hr⟩

/-- The handler of `POST /` for a driver with a vehicle and an accepted payload, on a store that
reads back the document it has just added. -/
theorem createTrip_of_reread {clock : Clock} {users trips : Store} {newId userId : String}
    {body userData : JSObject}
    (hread : getDoc (addDoc trips newId (newTrip clock userId userData body)) newId =
      some (newTrip clock userId userData body))
    (huser : getDoc users userId = some userData)
    (hveh : truthy (getProp userData "vehicle") = true)
    (hv : validateTrip clock body = Outcome.next) :
    createTrip clock users trips newId userId body =
      (createdResponse newId (newTrip clock userId userData body),
        addDoc trips newId (newTrip clock userId userData body)) := by
  have hroute : truthy (getProp (newTrip clock userId userData body) "routeTag") = true :=
    truthy_required_of_next hv "routeTag" (by decide)
  unfold createTrip
  rw [hv]
  simp only [createTripHandler, huser, hveh, convertThrows_of_next hv, Bool.not_true,
    Bool.false_eq_true, if_false]
  rw [hread]
  simp only [hroute, Bool.not_true, Bool.false_eq_true, if_false]
  rfl

/-- C21. The post-write check is unreachable under a faithful store: when the read that follows
`add` returns exactly the written trip, then for every driver with a registered vehicle and
every payload accepted by `validateTrip`, `POST /trips` answers 201 and not the status 500
answer `Route tag was not saved correctly`, because the accepted `routeTag` is the id of a
valid route, a non-empty string, and so is the `routeTag` read back. -/
theorem post_write_check_unreachable (clock : Clock) (users trips : Store)
    (newId driverId : String) (body userData : JSObject)
    (hread : getDoc (addDoc trips newId (newTrip clock driverId userData body)) newId =
      some (newTrip clock driverId userData body))
    (huser : getDoc users driverId = some userData)
    (hveh : truthy (getProp userData "vehicle") = true)
    (hv : validateTrip clock body = Outcome.next) :
    (∃ route ∈ VALID_ROUTES, getProp body "routeTag" = JSValue.str route.1 ∧ route.1 ≠ "") ∧
    getProp (newTrip clock driverId userData body) "routeTag" = getProp body "routeTag" ∧
    truthy (getProp (newTrip clock driverId userData body) "routeTag") = true ∧
    (createTrip clock users trips newId driverId body).1 =
      createdResponse newId (newTrip clock driverId userData body) ∧
    (createTrip clock users trips newId driverId body).1.status = 201 ∧
    routeTagNotSavedResponse.status = 500 ∧
    getProp routeTagNotSavedResponse.body "error" =
      JSValue.str "Route tag was not saved correctly" ∧
    getProp (createTrip clock users trips newId driverId body).1.body "error" =
      JSValue.undefined := by
  have hc := createTrip_of_reread hread huser hveh hv
  refine ⟨routeTag_of_next hv, rfl, truthy_required_of_next hv "routeTag" (by decide), ?_, ?_,
    rfl, rfl, ?_⟩
  · rw [hc]
  · rw [hc]; rfl
  · rw [hc]; rfl

/-- C21 at the sample driver and the sample payload, on an empty trips collection. -/
theorem post_write_check_unreachable_witness :
    (createTrip sampleClock sampleUsers [] "t1" "d1" sampleBody).1.status = 201 ∧
      getProp (createTrip sampleClock sampleUsers [] "t1" "d1" sampleBody).1.body "error" =
        JSValue.undefined ∧
      ∃ route ∈ VALID_ROUTES, getProp sampleBody "routeTag" = JSValue.str route.1 ∧
        route.1 ≠ "" :=
  have h := post_write_check_unreachable sampleClock sampleUsers [] "t1" "d1" sampleBody
    sampleDriver rfl rfl rfl rfl
  ⟨h.2.2.2.2.1, h.2.2.2.2.2.2.2, h.1⟩

end Carpool
